import Mathlib

/-!
IDE probe module (`drivers/ide/ide-probe.c`)

A shallow embedding of the drive detection and identification code of
`drivers/ide/ide-probe.c`, and the properties proved about it.

Conventions of the embedding

* A C function that works on `ide_drive_t *drive` takes the drive record and
  returns the updated record; the caller stores it back.
* `drive->id` is `Option (List Nat)`: `none` is the NULL pointer, `some ws`
  the 256 words of the identify buffer.  A function that dereferences a NULL
  `id` returns `none`.
* `dev_flags` is a set of one-bit flags.  The `IDE_DFLAG_*` masks are declared
  in `include/linux/ide.h`; each is a distinct single bit, so the word is kept
  as a record with one boolean per flag the probe code touches, and the
  remaining bits in `rest`.  `x |= F` sets the field, `x &= ~F` clears it and
  `x & F` reads it.
* Strings inside the identify buffer are read through the byte view of the
  word array on a little-endian host.
-/

namespace IdeProbe

/-! ## Declarations taken from the headers -/

/-- Values that `ide-probe.c` takes from `include/linux/ide.h` and
`include/linux/ata.h`.  The headers are not part of the translated file, so
the media type codes, the inline identify-word predicates and the string
helpers of `ide-iops.c` are parameters of the embedding. -/
structure Header where
  /-- Media code `ide_disk`. -/
  ide_disk : Nat
  /-- Media code `ide_optical`. -/
  ide_optical : Nat
  /-- Media code `ide_cdrom`. -/
  ide_cdrom : Nat
  /-- Media code `ide_tape`. -/
  ide_tape : Nat
  /-- Media code `ide_floppy`. -/
  ide_floppy : Nat
  /-- Chipset code `ide_pci`. -/
  ide_pci : Nat
  /-- Chipset code `ide_dtc2278`. -/
  ide_dtc2278 : Nat
  /-- Chipset code `ide_4drives`. -/
  ide_4drives : Nat
  /-- Cable code `ATA_CBL_PATA40_SHORT`. -/
  ATA_CBL_PATA40_SHORT : Nat
  /-- Default `PRD_ENTRIES` of the scatter/gather table size. -/
  PRD_ENTRIES : Nat
  /-- Timer frequency `HZ`. -/
  HZ : Nat
  /-- Inline predicate `ata_id_is_cfa(id)`. -/
  ata_id_is_cfa : List Nat → Bool
  /-- Inline predicate `ata_id_has_unload(id)`. -/
  ata_id_has_unload : List Nat → Bool
  /-- Inline predicate `ata_id_cdb_intr(id)`. -/
  ata_id_cdb_intr : List Nat → Bool
  /-- Inline predicate `ata_id_current_chs_valid(id)`. -/
  ata_id_current_chs_valid : List Nat → Bool
  /-- Word-order fix-up `ide_fix_driveid(id)` on the whole buffer. -/
  ide_fix_driveid : List Nat → List Nat
  /-- String clean-up `ide_fixstring(s, bytecount, byteswap)`: the bytes of the
  field before, the byte count and the swap flag give the bytes after. -/
  ide_fixstring : List Nat → Nat → Nat → List Nat

/-- The case labels of the media switch are pairwise different (a C compiler
rejects a switch with two equal labels). -/
def Header.DistinctMedia (k : Header) : Prop :=
  k.ide_floppy ≠ k.ide_cdrom ∧ k.ide_floppy ≠ k.ide_tape ∧
  k.ide_floppy ≠ k.ide_optical ∧ k.ide_cdrom ≠ k.ide_tape ∧
  k.ide_cdrom ≠ k.ide_optical ∧ k.ide_tape ≠ k.ide_optical

instance (k : Header) : Decidable k.DistinctMedia := by
  unfold Header.DistinctMedia; infer_instance

/-- Identify word offset `ATA_ID_CONFIG`. -/
def ATA_ID_CONFIG : Nat := 0
/-- Identify word offset `ATA_ID_CYLS`. -/
def ATA_ID_CYLS : Nat := 1
/-- Identify word offset `ATA_ID_HEADS`. -/
def ATA_ID_HEADS : Nat := 3
/-- Identify word offset `ATA_ID_SECTORS`. -/
def ATA_ID_SECTORS : Nat := 6
/-- Identify word offset `ATA_ID_SERNO`. -/
def ATA_ID_SERNO : Nat := 10
/-- Identify word offset `ATA_ID_FW_REV`. -/
def ATA_ID_FW_REV : Nat := 23
/-- Identify word offset `ATA_ID_PROD`. -/
def ATA_ID_PROD : Nat := 27
/-- Identify word offset `ATA_ID_MAX_MULTSECT`. -/
def ATA_ID_MAX_MULTSECT : Nat := 47
/-- Identify word offset `ATA_ID_CUR_CYLS`. -/
def ATA_ID_CUR_CYLS : Nat := 54
/-- Identify word offset `ATA_ID_CUR_HEADS`. -/
def ATA_ID_CUR_HEADS : Nat := 55
/-- Identify word offset `ATA_ID_CUR_SECTORS`. -/
def ATA_ID_CUR_SECTORS : Nat := 56
/-- Identify word offset `ATA_ID_MULTSECT`. -/
def ATA_ID_MULTSECT : Nat := 59
/-- Byte length `ATA_ID_SERNO_LEN` of the serial number field. -/
def ATA_ID_SERNO_LEN : Nat := 20
/-- Byte length `ATA_ID_FW_REV_LEN` of the firmware revision field. -/
def ATA_ID_FW_REV_LEN : Nat := 8
/-- Byte length `ATA_ID_PROD_LEN` of the model field. -/
def ATA_ID_PROD_LEN : Nat := 40
/-- Size `SECTOR_SIZE` of the identify buffer in bytes. -/
def SECTOR_SIZE : Nat := 512

/-! ## Data model -/

/-- The bits of `drive->dev_flags` (`IDE_DFLAG_*`). -/
structure DevFlags where
  /-- Bit `IDE_DFLAG_PRESENT`. -/
  present : Bool
  /-- Bit `IDE_DFLAG_DEAD`. -/
  dead : Bool
  /-- Bit `IDE_DFLAG_ID_READ`. -/
  id_read : Bool
  /-- Bit `IDE_DFLAG_NOPROBE`. -/
  noprobe : Bool
  /-- Bit `IDE_DFLAG_REMOVABLE`. -/
  removable : Bool
  /-- Bit `IDE_DFLAG_DOORLOCKING`. -/
  doorlocking : Bool
  /-- Bit `IDE_DFLAG_NO_UNLOAD`. -/
  no_unload : Bool
  /-- Bit `IDE_DFLAG_NICE1`. -/
  nice1 : Bool
  /-- Bit `IDE_DFLAG_UNMASK`. -/
  unmask : Bool
  /-- Bit `IDE_DFLAG_NO_UNMASK`. -/
  no_unmask : Bool
  /-- Bit `IDE_DFLAG_NO_IO_32BIT`. -/
  no_io_32bit : Bool
  /-- All other bits of the word. -/
  rest : Nat
  deriving DecidableEq, Repr

/-- The fields of `ide_drive_t` that the probe code reads or writes. -/
structure ide_drive_t where
  /-- Field `dev_flags`. -/
  dev_flags : DevFlags
  /-- Bit `IDE_AFLAG_DRQ_INTERRUPT` of `atapi_flags`. -/
  atapi_drq_interrupt : Bool
  /-- Field `media`. -/
  media : Nat
  /-- Field `ready_stat`. -/
  ready_stat : Nat
  /-- Field `bad_wstat`. -/
  bad_wstat : Nat
  /-- Field `select`: the value written to the device-select register. -/
  select : Nat
  /-- Field `dn`: the drive number. -/
  dn : Nat
  /-- Field `io_32bit`. -/
  io_32bit : Nat
  /-- Field `id`: the identify buffer, `none` for NULL. -/
  id : Option (List Nat)
  /-- Field `cyl`. -/
  cyl : Nat
  /-- Field `head`. -/
  head : Nat
  /-- Field `sect`. -/
  sect : Nat
  /-- Field `bios_cyl`. -/
  bios_cyl : Nat
  /-- Field `bios_head`. -/
  bios_head : Nat
  /-- Field `bios_sect`. -/
  bios_sect : Nat
  /-- Field `mult_req`. -/
  mult_req : Nat
  /-- Bit `special.b.set_multmode`. -/
  set_multmode : Bool
  /-- Bit `special.b.recalibrate`. -/
  recalibrate : Bool
  /-- Bit `special.b.set_geometry`. -/
  set_geometry : Bool
  /-- Field `queue`: the request queue handle, `none` for NULL. -/
  queue : Option Nat
  deriving DecidableEq, Repr

/-! ## C strings over the identify buffer -/

/-- Bytes of the word array from word offset `w` on, low byte first: the memory
behind `(char *)&id[w]`. -/
def id_bytes (id : List Nat) (w : Nat) : List Nat :=
  (id.drop w).flatMap fun x => [x % 256, x / 256 % 256]

/-- The bytes of a string literal. -/
def lit (s : String) : List Nat := s.toList.map Char.toNat

/-- The C string starting at a byte sequence: the bytes before the first NUL. -/
def cstr (bs : List Nat) : List Nat := bs.takeWhile (fun b => b != 0)

/-- Library `strstr(h, n) != NULL`: the C string `n` occurs inside the C string
`h`. -/
def strstr (h n : List Nat) : Bool :=
  (cstr h).tails.any fun t => (cstr n).isPrefixOf t

/-- Library `strcmp`: the difference of the first two bytes that differ, `0`
when both strings end together.  Memory past the modelled bytes reads as NUL. -/
def strcmp : List Nat → List Nat → Int
  | a :: as, b :: bs =>
    if a ≠ b then (a : Int) - b else if a = 0 then 0 else strcmp as bs
  | a :: _, [] => a
  | [], b :: _ => - (b : Int)
  | [], [] => 0

/-- Library `strncmp`: as `strcmp`, over at most `n` bytes. -/
def strncmp : List Nat → List Nat → Nat → Int
  | _, _, 0 => 0
  | a :: as, b :: bs, n + 1 =>
    if a ≠ b then (a : Int) - b else if a = 0 then 0 else strncmp as bs n
  | a :: _, [], _ + 1 => a
  | [], b :: _, _ + 1 => - (b : Int)
  | [], [], _ + 1 => 0

/-! ## Drive classification -/

/-- Function `ide_classify_ata_dev`. -/
def ide_classify_ata_dev (k : Header) (drive : ide_drive_t) : Option ide_drive_t :=
  match drive.id with
  | none => none
  | some id =>
    let is_cfa := k.ata_id_is_cfa id
    -- CF devices are *not* removable in Linux definition of the term
    let drive :=
      if is_cfa == false && (id.getD ATA_ID_CONFIG 0 &&& (1 <<< 7)) != 0 then
        { drive with dev_flags := { drive.dev_flags with removable := true } }
      else drive
    let drive := { drive with media := k.ide_disk }
    let drive :=
      if !k.ata_id_has_unload id then
        { drive with dev_flags := { drive.dev_flags with no_unload := true } }
      else drive
    some drive

/-- The switch of `ide_classify_atapi_dev`: the drive after the chosen case and
the final value of the local `type`.  `ppc` is `CONFIG_PPC`. -/
def classify_atapi_switch (k : Header) (ppc : Bool) (drive : ide_drive_t)
    (m : List Nat) (type : Nat) : ide_drive_t × Nat :=
  let removable (d : ide_drive_t) : ide_drive_t :=
    { d with dev_flags := { d.dev_flags with removable := true } }
  -- the body of `case ide_cdrom:`, entered with the given `type`
  let cdrom_case (d : ide_drive_t) : ide_drive_t × Nat :=
    let d := removable d
    if ppc && (!strstr m (lit "CD-ROM") && strstr m (lit "ZIP")) then
      (d, k.ide_floppy)
    else (d, k.ide_cdrom)
  if type = k.ide_floppy then
    if !strstr m (lit "CD-ROM") && drive.media != k.ide_cdrom then
      (removable drive, type)
    else
      -- Early cdrom models used zero: fall through with type = ide_cdrom
      cdrom_case drive
  else if type = k.ide_cdrom then cdrom_case drive
  else if type = k.ide_tape then (drive, type)
  else if type = k.ide_optical then (removable drive, type)
  else (drive, type)

/-- Function `ide_classify_atapi_dev`. -/
def ide_classify_atapi_dev (k : Header) (ppc : Bool) (drive : ide_drive_t) :
    Option ide_drive_t :=
  match drive.id with
  | none => none
  | some id =>
    let m := id_bytes id ATA_ID_PROD
    let type := (id.getD ATA_ID_CONFIG 0 >>> 8) &&& 0x1f
    let (drive, type) := classify_atapi_switch k ppc drive m type
    let drive := { drive with media := type }
    -- an ATAPI device ignores DRDY
    let drive := { drive with ready_stat := 0 }
    let drive :=
      if k.ata_id_cdb_intr id then { drive with atapi_drq_interrupt := true }
      else drive
    let drive := { drive with dev_flags := { drive.dev_flags with doorlocking := true } }
    -- we don't do head unloading on ATAPI devices
    some { drive with dev_flags := { drive.dev_flags with no_unload := true } }

/-! ## Undecoded slave detection -/

/-- Function `ide_undecoded_slave`.  `dev0` is `dev1->hwif->devices[0]`; the
result is the pair of both drives afterwards. -/
def ide_undecoded_slave (dev0 dev1 : ide_drive_t) :
    Option (ide_drive_t × ide_drive_t) :=
  if dev1.dn &&& 1 = 0 ∨ dev0.dev_flags.present = false then some (dev0, dev1)
  else
    match dev0.id, dev1.id with
    | some id0, some id1 =>
      -- If the models don't match they are not the same product
      if strcmp (id_bytes id0 ATA_ID_PROD) (id_bytes id1 ATA_ID_PROD) ≠ 0 then
        some (dev0, dev1)
      -- Serial numbers do not match
      else if strncmp (id_bytes id0 ATA_ID_SERNO) (id_bytes id1 ATA_ID_SERNO)
          ATA_ID_SERNO_LEN ≠ 0 then
        some (dev0, dev1)
      -- No serial number, thankfully very rare for CF
      else if (id_bytes id0 ATA_ID_SERNO).getD 0 0 = 0 then some (dev0, dev1)
      else
        some (dev0, { dev1 with dev_flags := { dev1.dev_flags with present := false } })
    | _, _ => none

/-! ## Ports and the bus -/

/-- The bits of `host_flags` (`IDE_HFLAG_*`) that the probe code tests. -/
structure HostFlags where
  /-- Bit `IDE_HFLAG_BROKEN_ALTSTATUS`. -/
  broken_altstatus : Bool
  /-- Bit `IDE_HFLAG_NO_IO_32BIT`. -/
  no_io_32bit : Bool
  /-- Bit `IDE_HFLAG_IO_32BIT`. -/
  io_32bit : Bool
  /-- Bit `IDE_HFLAG_UNMASK_IRQS`. -/
  unmask_irqs : Bool
  /-- Bit `IDE_HFLAG_NO_UNMASK_IRQS`. -/
  no_unmask_irqs : Bool
  /-- Bit `IDE_HFLAG_LEGACY_IRQS`. -/
  legacy_irqs : Bool
  /-- Bit `IDE_HFLAG_FORCE_LEGACY_IRQS`. -/
  force_legacy_irqs : Bool
  /-- Bit `IDE_HFLAG_NO_DMA`. -/
  no_dma : Bool
  /-- Bit `IDE_HFLAG_SERIALIZE`. -/
  serialize : Bool
  /-- Bit `IDE_HFLAG_SERIALIZE_DMA`. -/
  serialize_dma : Bool
  /-- Bit `IDE_HFLAG_NO_LBA48`. -/
  no_lba48 : Bool
  /-- Bit `IDE_HFLAG_NO_LBA48_DMA`. -/
  no_lba48_dma : Bool
  /-- Bit `IDE_HFLAG_NON_BOOTABLE`. -/
  non_bootable : Bool
  /-- Bit `IDE_HFLAG_QD_2ND_PORT`. -/
  qd_2nd_port : Bool
  /-- All other bits of the word. -/
  rest : Nat
  deriving DecidableEq, Repr

/-- Bitwise or of two flag words (`a |= b`). -/
def HostFlags.or (a b : HostFlags) : HostFlags where
  broken_altstatus := a.broken_altstatus || b.broken_altstatus
  no_io_32bit := a.no_io_32bit || b.no_io_32bit
  io_32bit := a.io_32bit || b.io_32bit
  unmask_irqs := a.unmask_irqs || b.unmask_irqs
  no_unmask_irqs := a.no_unmask_irqs || b.no_unmask_irqs
  legacy_irqs := a.legacy_irqs || b.legacy_irqs
  force_legacy_irqs := a.force_legacy_irqs || b.force_legacy_irqs
  no_dma := a.no_dma || b.no_dma
  serialize := a.serialize || b.serialize
  serialize_dma := a.serialize_dma || b.serialize_dma
  no_lba48 := a.no_lba48 || b.no_lba48
  no_lba48_dma := a.no_lba48_dma || b.no_lba48_dma
  non_bootable := a.non_bootable || b.non_bootable
  qd_2nd_port := a.qd_2nd_port || b.qd_2nd_port
  rest := a.rest ||| b.rest

/-- The callbacks of `struct ide_port_ops` that the probe code calls; `none`
is a NULL function pointer.  `cable_detect` is given the index of the port. -/
structure ide_port_ops where
  /-- Callback `init_dev(drive)`. -/
  init_dev : Option (ide_drive_t → ide_drive_t)
  /-- Callback `quirkproc(drive)`. -/
  quirkproc : Option (ide_drive_t → ide_drive_t)
  /-- Callback `cable_detect(hwif)`. -/
  cable_detect : Option (Nat → Nat)

/-- The fields of `ide_hwif_t` that the probe code reads or writes.  `mate` is
the index of the paired port in `host->ports`. -/
structure ide_hwif_t where
  /-- Field `index`. -/
  index : Nat
  /-- Field `channel`. -/
  channel : Nat
  /-- Field `major`. -/
  major : Nat
  /-- Field `irq`; 0 is "not assigned". -/
  irq : Nat
  /-- Field `chipset`. -/
  chipset : Nat
  /-- Bit `present`. -/
  present : Bool
  /-- Field `host_flags`. -/
  host_flags : HostFlags
  /-- Field `io_ports.data_addr`. -/
  data_addr : Nat
  /-- Field `io_ports.ctl_addr`. -/
  ctl_addr : Nat
  /-- Field `devices[MAX_DRIVES]`. -/
  devices : List ide_drive_t
  /-- Field `mate`. -/
  mate : Option Nat
  /-- Field `pio_mask`. -/
  pio_mask : Nat
  /-- Field `swdma_mask`. -/
  swdma_mask : Nat
  /-- Field `mwdma_mask`. -/
  mwdma_mask : Nat
  /-- Field `ultra_mask`. -/
  ultra_mask : Nat
  /-- Field `dma_base`. -/
  dma_base : Nat
  /-- Field `dma_ops` is not NULL. -/
  has_dma_ops : Bool
  /-- Field `port_ops`, `none` for NULL. -/
  port_ops : Option ide_port_ops
  /-- Field `rqsize`. -/
  rqsize : Nat
  /-- Field `sg_max_nents`. -/
  sg_max_nents : Nat
  /-- Field `sg_table` is allocated. -/
  has_sg_table : Bool
  /-- Field `cbl`. -/
  cbl : Nat

/-- An operation on the command/status registers of a port. -/
inductive BusOp where
  /-- Macro `SELECT_DRIVE(drive)`: the device-select register is written with
  `drive->select`. -/
  | select (v : Nat)
  /-- Call `tp_ops->tf_load` with `IDE_TFLAG_OUT_FEATURE`. -/
  | tf_load_feature
  /-- Call `tp_ops->tf_read` with `IDE_TFLAG_IN_DEVICE`. -/
  | tf_read_device
  /-- Call `tp_ops->exec_command(hwif, cmd)`. -/
  | exec_command (cmd : Nat)
  /-- Call `tp_ops->read_status`. -/
  | read_status
  /-- Call `tp_ops->read_altstatus`. -/
  | read_altstatus
  /-- Call `tp_ops->input_data` for `SECTOR_SIZE` bytes. -/
  | input_data
  /-- Call `tp_ops->set_irq(hwif, enable)`. -/
  | set_irq (enable : Nat)
  deriving DecidableEq, Repr

/-- What the hardware and the rest of the kernel answer.  Every answer is
indexed by the number of bus operations (or of requests of its kind) made so
far, so an `Env` is one arbitrary sequence of answers. -/
structure Env where
  /-- Value of a register read that is bus operation number `n`. -/
  reg : Nat → Nat
  /-- The 256 words transferred by `input_data` as bus operation number `n`. -/
  data : Nat → List Nat
  /-- Jiffies by which a sleep that starts at jiffy `t` overruns. -/
  lag : Nat → Nat
  /-- Result of `probe_irq_off` after `n` bus operations. -/
  probe_irq_off : Nat → Int
  /-- Whether allocation request number `n` (kzalloc, kmalloc) succeeds. -/
  alloc_ok : Nat → Bool
  /-- Result of `blk_init_queue_node` in `ide_init_queue` for drive `i` of the
  port with the given index: the queue, or `none` for NULL. -/
  blk_init_queue_node : Nat → Nat → Option Nat
  /-- Result of `ide_wait_not_busy` after `n` bus operations. -/
  ide_wait_not_busy : Nat → Int
  /-- Result of `__ide_default_irq(base)`. -/
  ide_default_irq : Nat → Nat
  /-- Result of `register_blkdev(major, name)`. -/
  register_blkdev : Nat → Int
  /-- Whether the `kmalloc` of the scatter/gather table of the port with the
  given index succeeds. -/
  kmalloc_sg : Nat → Bool
  /-- Result of `request_irq(irq, ...)` for the port with the given index, in
  the first (0) or second (1) call of `init_irq` from `hwif_init`. -/
  request_irq : Nat → Nat → Nat → Int
  /-- Effect of `ide_port_apply_params(hwif)`. -/
  ide_port_apply_params : ide_hwif_t → ide_hwif_t
  /-- Result and effect of `ide_hwif_setup_dma(hwif, d)`. -/
  ide_hwif_setup_dma : ide_hwif_t → Int × ide_hwif_t
  /-- Effect of `ide_set_max_pio(drive)` on the drive record. -/
  ide_set_max_pio : ide_drive_t → ide_drive_t
  /-- Effect of `ide_set_dma(drive)` on the drive record. -/
  ide_set_dma : ide_drive_t → ide_drive_t

/-- A call into the rest of the kernel that has no result the probe code uses.
The port is named by its index. -/
inductive Call where
  /-- Call `disable_irq(irq)`. -/
  | disable_irq (irq : Nat)
  /-- Call `enable_irq(irq)`. -/
  | enable_irq (irq : Nat)
  /-- Call `ide_register_port(hwif)`. -/
  | ide_register_port (index : Nat)
  /-- Call `unregister_blkdev(major, name)`. -/
  | unregister_blkdev (major : Nat)
  /-- Call `blk_register_region` for the port. -/
  | blk_register_region (major : Nat)
  /-- Call `ide_acpi_init(hwif)`. -/
  | ide_acpi_init (index : Nat)
  /-- Call `ide_acpi_port_init_devices(hwif)`. -/
  | ide_acpi_port_init_devices (index : Nat)
  /-- Call `device_register` for drive `i` of the port. -/
  | device_register (index i : Nat)
  /-- Call `ide_sysfs_register_port(hwif)`. -/
  | ide_sysfs_register_port (index : Nat)
  /-- Call `ide_proc_register_port(hwif)`. -/
  | ide_proc_register_port (index : Nat)
  /-- Call `ide_proc_port_register_devices(hwif)`. -/
  | ide_proc_port_register_devices (index : Nat)
  deriving DecidableEq, Repr

/-- The state outside the port and drive records. -/
structure World where
  /-- Bus operations so far, the latest first. -/
  trace : List BusOp
  /-- Calls into the rest of the kernel so far, the latest first. -/
  calls : List Call
  /-- Counter `jiffies`. -/
  jiffies : Nat
  /-- Number of allocation requests so far. -/
  allocs : Nat
  deriving DecidableEq, Repr

/-- Status bit `ATA_BUSY`. -/
def ATA_BUSY : Nat := 0x80
/-- Status bit `ATA_DRDY`. -/
def ATA_DRDY : Nat := 0x40
/-- Status bit `ATA_DF`. -/
def ATA_DF : Nat := 0x20
/-- Status bit `ATA_DRQ`. -/
def ATA_DRQ : Nat := 0x08
/-- Status bit `ATA_IDX`. -/
def ATA_IDX : Nat := 0x02
/-- Status bit `ATA_ERR`. -/
def ATA_ERR : Nat := 0x01
/-- Mask `BAD_R_STAT`. -/
def BAD_R_STAT : Nat := ATA_BUSY ||| ATA_ERR
/-- Mask `BAD_W_STAT`. -/
def BAD_W_STAT : Nat := BAD_R_STAT ||| ATA_DF
/-- Mask `BAD_STAT`. -/
def BAD_STAT : Nat := BAD_R_STAT ||| ATA_DRQ
/-- Command `ATA_CMD_ID_ATA`. -/
def ATA_CMD_ID_ATA : Nat := 0xEC
/-- Command `ATA_CMD_ID_ATAPI`. -/
def ATA_CMD_ID_ATAPI : Nat := 0xA1
/-- Command `ATA_CMD_DEV_RESET`. -/
def ATA_CMD_DEV_RESET : Nat := 0x08
/-- Command `ATA_EXABYTE_ENABLE_NEST`. -/
def ATA_EXABYTE_ENABLE_NEST : Nat := 0xF0
/-- Device register bits `ATA_DEVICE_OBS`. -/
def ATA_DEVICE_OBS : Nat := 0xA0
/-- Timeout `WAIT_WORSTCASE` (30 seconds). -/
def WAIT_WORSTCASE (k : Header) : Nat := 30 * k.HZ
/-- Timeout `WAIT_PIDENTIFY` (10 seconds). -/
def WAIT_PIDENTIFY (k : Header) : Nat := 10 * k.HZ
/-- Number `MAX_DRIVES` of drive slots of a port. -/
def MAX_DRIVES : Nat := 2

/-- Macro `OK_STAT(stat, good, bad)`. -/
def OK_STAT (stat good bad : Nat) : Bool := (stat &&& (good ||| bad)) == good

/-- Record one bus operation. -/
def World.op (w : World) (o : BusOp) : World := { w with trace := o :: w.trace }

/-- Record one call into the rest of the kernel. -/
def World.call (w : World) (c : Call) : World := { w with calls := c :: w.calls }

/-- Call `tp_ops->read_status(hwif)`. -/
def read_status (e : Env) (w : World) : Nat × World :=
  (e.reg w.trace.length % 256, w.op .read_status)

/-- Call `tp_ops->read_altstatus(hwif)`. -/
def read_altstatus (e : Env) (w : World) : Nat × World :=
  (e.reg w.trace.length % 256, w.op .read_altstatus)

/-- Macro `SELECT_DRIVE(drive)`. -/
def SELECT_DRIVE (drive : ide_drive_t) (w : World) : World := w.op (.select drive.select)

/-- Function `msleep(ms)`: the clock moves on by the requested time, one more
jiffy, and whatever the scheduler adds. -/
def msleep (k : Header) (e : Env) (ms : Nat) (w : World) : World :=
  { w with jiffies := w.jiffies + ((ms * k.HZ + 999) / 1000 + 1 + e.lag w.jiffies) }

/-- The do-while loop of `ide_busy_sleep`; `deadline` is `timeout + jiffies` at
entry.  Every round moves the clock by at least one jiffy, so the loop ends
within `deadline - jiffies` rounds after the first; `fuel` only makes the
recursion structural. -/
def ide_busy_sleep_loop (k : Header) (e : Env) (altstatus : Bool) (deadline : Nat) :
    Nat → World → Nat × World
  | 0, w => (1, w)
  | fuel + 1, w =>
    -- give drive a breather
    let w := msleep k e 50 w
    let (stat, w) := if altstatus then read_altstatus e w else read_status e w
    if stat &&& ATA_BUSY = 0 then (0, w)
    else if w.jiffies < deadline then ide_busy_sleep_loop k e altstatus deadline fuel w
    else (1, w)

/-- Function `ide_busy_sleep`. -/
def ide_busy_sleep (k : Header) (e : Env) (timeout : Nat) (altstatus : Bool)
    (w : World) : Nat × World :=
  ide_busy_sleep_loop k e altstatus (timeout + w.jiffies) (timeout + 1) w

/-- Function `ide_read_device`. -/
def ide_read_device (e : Env) (w : World) : Nat × World :=
  (e.reg w.trace.length % 256, w.op .tf_read_device)

/-- The identify buffer holds exactly 256 words of 16 bits. -/
def words256 (ws : List Nat) : List Nat :=
  ((ws ++ List.replicate 256 0).take 256).map fun x => x % 65536

/-- Store `bs` as the `len` bytes of the field at word offset `off`. -/
def write_bytes (id : List Nat) (off len : Nat) (bs : List Nat) : List Nat :=
  (List.range id.length).map fun i =>
    if off ≤ i ∧ i < off + len / 2 then
      bs.getD (2 * (i - off)) 0 % 256 + 256 * (bs.getD (2 * (i - off) + 1) 0 % 256)
    else id.getD i 0

/-- Call `ide_fixstring((char *)&id[off], len, bswap)` on the buffer. -/
def fixstring_at (k : Header) (id : List Nat) (off len bswap : Nat) : List Nat :=
  write_bytes id off len (k.ide_fixstring ((id_bytes id off).take len) len bswap)

/-- The value of the local `bswap` of `do_identify` when the strings are
fixed; `m` is the model field as read from the device. -/
def do_identify_bswap (cmd : Nat) (m : List Nat) : Nat :=
  if cmd = ATA_CMD_ID_ATAPI ∧
      ((m.getD 0 0 = 'N'.toNat ∧ m.getD 1 0 = 'E'.toNat) ∨
       (m.getD 0 0 = 'F'.toNat ∧ m.getD 1 0 = 'X'.toNat) ∨
       (m.getD 0 0 = 'P'.toNat ∧ m.getD 1 0 = 'i'.toNat)) then 1 ^^^ 1 else 1

/-- The statements of `do_identify` that normalise the buffer just read: from
`ide_fix_driveid(id)` to `m[ATA_ID_PROD_LEN - 1] = 0`. -/
def do_identify_fix (k : Header) (cmd : Nat) (id : List Nat) : List Nat :=
  let id := k.ide_fix_driveid id
  let bswap := do_identify_bswap cmd (id_bytes id ATA_ID_PROD)
  let id := fixstring_at k id ATA_ID_PROD ATA_ID_PROD_LEN bswap
  let id := fixstring_at k id ATA_ID_FW_REV ATA_ID_FW_REV_LEN bswap
  let id := fixstring_at k id ATA_ID_SERNO ATA_ID_SERNO_LEN bswap
  -- we depend on this a lot!
  write_bytes id ATA_ID_PROD ATA_ID_PROD_LEN
    (((id_bytes id ATA_ID_PROD).take ATA_ID_PROD_LEN).set (ATA_ID_PROD_LEN - 1) 0)

/-- Function `do_identify`.  After `kfree(id)` on the error path the pointer
`drive->id` is left as it is. -/
def do_identify (k : Header) (ppc : Bool) (e : Env) (drive : ide_drive_t) (cmd : Nat)
    (w : World) : Option (ide_drive_t × World) :=
  match drive.id with
  | none => none
  | some _ =>
    -- read 512 bytes of id info
    let id := words256 (e.data w.trace.length)
    let w := w.op .input_data
    let drive := { drive with dev_flags := { drive.dev_flags with id_read := true } }
    let id := do_identify_fix k cmd id
    let drive := { drive with id := some id }
    if strstr (id_bytes id ATA_ID_PROD) (lit "E X A B Y T E N E S T") then
      some ({ drive with dev_flags := { drive.dev_flags with present := false } }, w)
    else
      let drive := { drive with dev_flags := { drive.dev_flags with present := true } }
      let drive := { drive with dev_flags := { drive.dev_flags with dead := false } }
      if cmd = ATA_CMD_ID_ATAPI then
        (ide_classify_atapi_dev k ppc drive).map fun d => (d, w)
      else
        (ide_classify_ata_dev k drive).map fun d => (d, w)

/-- The statements of `actual_try_to_identify` before the busy wait: the first
sleep, the choice between the status and the alternate status register, the
feature register for ATAPI, and the identify command.  The result is the
local `use_altstatus` and the world. -/
def identify_send (k : Header) (e : Env) (hwif : ide_hwif_t) (cmd : Nat) (w : World) :
    Bool × World :=
  -- take a deep breath
  let w := msleep k e 50 w
  let r : Bool × World :=
    if hwif.ctl_addr ≠ 0 ∧ hwif.host_flags.broken_altstatus = false then
      let a := read_altstatus e w
      let s := read_status e a.2
      -- ancient Seagate drives, broken interfaces: keep the status register
      if (a.1 ^^^ s.1) &&& (0xff - ATA_IDX) ≠ 0 then (false, s.2)
      -- use non-intrusive polling
      else (true, s.2)
    else (false, w)
  -- set features register for atapi identify command to be sure of reply
  let w := if cmd = ATA_CMD_ID_ATAPI then r.2.op .tf_load_feature else r.2
  -- ask drive for ID
  (r.1, w.op (.exec_command cmd))

/-- The local `timeout` of `actual_try_to_identify`. -/
def identify_timeout (k : Header) (cmd : Nat) : Nat :=
  (if cmd = ATA_CMD_ID_ATA then WAIT_WORSTCASE k else WAIT_PIDENTIFY k) / 2

/-- Function `actual_try_to_identify`. -/
def actual_try_to_identify (k : Header) (ppc : Bool) (e : Env) (hwif : ide_hwif_t)
    (drive : ide_drive_t) (cmd : Nat) (w : World) : Option (Nat × ide_drive_t × World) :=
  let r := identify_send k e hwif cmd w
  let b := ide_busy_sleep k e (identify_timeout k cmd) r.1 r.2
  if b.1 ≠ 0 then some (1, drive, b.2)
  else
    -- wait for IRQ and ATA_DRQ
    let s := read_status e (msleep k e 50 b.2)
    if OK_STAT s.1 ATA_DRQ BAD_R_STAT then
      -- drive returned ID
      match do_identify k ppc e drive cmd s.2 with
      | none => none
      -- drive responded with ID; clear drive IRQ
      | some (drive, w) => some (0, drive, (read_status e w).2)
    else
      -- drive refused ID
      some (2, drive, s.2)

/-- The local `autoprobe` of `try_to_identify`. -/
def autoprobe (hwif : ide_hwif_t) : Nat :=
  if hwif.ctl_addr ≠ 0 ∧ hwif.irq = 0 then 1 else 0

/-- The statements of `try_to_identify` after `actual_try_to_identify` when
`autoprobe` is set: the port and the world afterwards. -/
def probe_irq_done (e : Env) (hwif : ide_hwif_t) (w : World) : ide_hwif_t × World :=
  let w := w.op (.set_irq 0)
  -- clear drive IRQ
  let w := (read_status e w).2
  let irq := e.probe_irq_off w.trace.length
  if hwif.irq = 0 then
    if irq > 0 then ({ hwif with irq := irq.toNat }, w)
    -- Mmmm.. multiple IRQs.. don't know which was ours
    else (hwif, w)
  else (hwif, w)

/-- Function `try_to_identify`. -/
def try_to_identify (k : Header) (ppc : Bool) (e : Env) (hwif : ide_hwif_t)
    (drive : ide_drive_t) (cmd : Nat) (w : World) :
    Option (Nat × ide_hwif_t × ide_drive_t × World) :=
  let w := if hwif.ctl_addr ≠ 0 then w.op (.set_irq (autoprobe hwif)) else w
  match actual_try_to_identify k ppc e hwif drive cmd w with
  | none => none
  | some (retval, drive, w) =>
    if autoprobe hwif ≠ 0 then
      some (retval, (probe_irq_done e hwif w).1, drive, (probe_irq_done e hwif w).2)
    else some (retval, hwif, drive, w)

/-- The statement `SELECT_DRIVE(hwif->devices[0])`. -/
def dev0_select (hwif : ide_hwif_t) : World → World :=
  fun w => match hwif.devices.head? with
    | some d => SELECT_DRIVE d w
    | none => w

/-- The statements of `do_probe` that follow the identify attempts, entered
with the result `rc` of the last attempt: the status check with its
`return 4` (the result `none`), and the reset and third attempt for an ATAPI
drive that did not answer. -/
def do_probe_after_identify (k : Header) (ppc : Bool) (e : Env) (rc : Nat)
    (hwif : ide_hwif_t) (drive : ide_drive_t) (cmd : Nat) (w : World) :
    Option (Option Nat × ide_hwif_t × ide_drive_t × World) :=
  let s := read_status e w
  if s.1 = (ATA_BUSY ||| ATA_DRDY) then some (none, hwif, drive, s.2)
  else
    let r :=
      if rc = 1 ∧ cmd = ATA_CMD_ID_ATAPI then
        let w := msleep k e 50 s.2
        let w := SELECT_DRIVE drive w
        let w := msleep k e 50 w
        let w := w.op (.exec_command ATA_CMD_DEV_RESET)
        let w := (ide_busy_sleep k e (WAIT_WORSTCASE k) false w).2
        try_to_identify k ppc e hwif drive cmd w
      else some (rc, hwif, drive, s.2)
    match r with
    | none => none
    -- ensure drive IRQ is clear
    | some (rc, hwif, drive, w) => some (some rc, hwif, drive, (read_status e w).2)

/-- The branch "send cmd and wait" of `do_probe`: the first identify attempt,
the second one if the first failed, and what follows them. -/
def do_probe_identify (k : Header) (ppc : Bool) (e : Env) (hwif : ide_hwif_t)
    (drive : ide_drive_t) (cmd : Nat) (w : World) :
    Option (Option Nat × ide_hwif_t × ide_drive_t × World) :=
  match try_to_identify k ppc e hwif drive cmd w with
  | none => none
  | some (rc, hwif, drive, w) =>
    if rc ≠ 0 then
      -- failed: try again
      match try_to_identify k ppc e hwif drive cmd w with
      | none => none
      | some (rc, hwif, drive, w) => do_probe_after_identify k ppc e rc hwif drive cmd w
    else do_probe_after_identify k ppc e rc hwif drive cmd w

/-- The last statements of `do_probe`: a slave exits with drive 0 selected. -/
def do_probe_exit (k : Header) (e : Env) (hwif : ide_hwif_t) (drive : ide_drive_t)
    (w : World) : World :=
  if drive.dn &&& 1 ≠ 0 then
    -- exit with drive0 selected
    let w := dev0_select hwif w
    let w := msleep k e 50 w
    -- ensure drive irq is clear
    (read_status e w).2
  else w

/-- Function `do_probe`. -/
def do_probe (k : Header) (ppc : Bool) (e : Env) (hwif : ide_hwif_t)
    (drive : ide_drive_t) (cmd : Nat) (w : World) :
    Option (Nat × ide_hwif_t × ide_drive_t × World) :=
  let present := drive.dev_flags.present
  -- avoid waiting for inappropriate probes
  if present ∧ drive.media ≠ k.ide_disk ∧ cmd = ATA_CMD_ID_ATA then
    some (4, hwif, drive, w)
  else
    let w := msleep k e 50 w
    let w := SELECT_DRIVE drive w
    let w := msleep k e 50 w
    let dev := ide_read_device e w
    if dev.1 ≠ drive.select ∧ present = false then
      -- no i/f present: mmm.. this should be a 4 -ml
      some (3, hwif, drive,
        -- exit with drive0 selected; allow ATA_BUSY to assert & clear
        if drive.dn &&& 1 ≠ 0 then msleep k e 50 (dev0_select hwif dev.2) else dev.2)
    else
      let s := read_status e dev.2
      let r :=
        if OK_STAT s.1 ATA_DRDY ATA_BUSY ∨ present ∨ cmd = ATA_CMD_ID_ATAPI then
          -- send cmd and wait
          do_probe_identify k ppc e hwif drive cmd s.2
        else
          -- not present or maybe ATAPI
          some (some 3, hwif, drive, s.2)
      match r with
      | none => none
      -- the `return 4` after the identify attempts
      | some (none, hwif, drive, w) => some (4, hwif, drive, w)
      | some (some rc, hwif, drive, w) => some (rc, hwif, drive, do_probe_exit k e hwif drive w)

/-! ## Per-drive probe -/

/-- Store `v` in word `i` of the identify buffer (`id[i] = v`, a `u16`). -/
def set_word (id : List Nat) (i v : Nat) : List Nat := id.set i (v % 65536)

/-- Function `generic_id`. -/
def generic_id (drive : ide_drive_t) : Option ide_drive_t :=
  match drive.id with
  | none => none
  | some id =>
    let id := set_word (set_word id ATA_ID_CYLS drive.cyl) ATA_ID_CUR_CYLS drive.cyl
    let id := set_word (set_word id ATA_ID_HEADS drive.head) ATA_ID_CUR_HEADS drive.head
    let id := set_word (set_word id ATA_ID_SECTORS drive.sect) ATA_ID_CUR_SECTORS drive.sect
    some { drive with id := some id }

/-- Function `ide_disk_init_chs`.  The fields `head`, `sect`, `bios_head` and
`bios_sect` are of type `u8`. -/
def ide_disk_init_chs (k : Header) (drive : ide_drive_t) : Option ide_drive_t :=
  match drive.id with
  | none => none
  | some id =>
    -- Extract geometry if we did not already have one for the drive
    let drive :=
      if drive.cyl = 0 ∨ drive.head = 0 ∨ drive.sect = 0 then
        { drive with
          cyl := id.getD ATA_ID_CYLS 0, bios_cyl := id.getD ATA_ID_CYLS 0,
          head := id.getD ATA_ID_HEADS 0 % 256, bios_head := id.getD ATA_ID_HEADS 0 % 256,
          sect := id.getD ATA_ID_SECTORS 0 % 256, bios_sect := id.getD ATA_ID_SECTORS 0 % 256 }
      else drive
    -- Handle logical geometry translation by the drive
    let drive :=
      if k.ata_id_current_chs_valid id then
        { drive with
          cyl := id.getD ATA_ID_CUR_CYLS 0,
          head := id.getD ATA_ID_CUR_HEADS 0 % 256,
          sect := id.getD ATA_ID_CUR_SECTORS 0 % 256 }
      else drive
    -- Use physical geometry if what we have still makes no sense
    let drive :=
      if drive.head > 16 ∧ id.getD ATA_ID_HEADS 0 ≠ 0 ∧ id.getD ATA_ID_HEADS 0 ≤ 16 then
        { drive with
          cyl := id.getD ATA_ID_CYLS 0,
          head := id.getD ATA_ID_HEADS 0 % 256,
          sect := id.getD ATA_ID_SECTORS 0 % 256 }
      else drive
    some drive

/-- Function `ide_disk_init_mult_count`. -/
def ide_disk_init_mult_count (drive : ide_drive_t) : Option ide_drive_t :=
  match drive.id with
  | none => none
  | some id =>
    let max_multsect := id.getD ATA_ID_MAX_MULTSECT 0 &&& 0xff
    if max_multsect ≠ 0 then
      let id :=
        if max_multsect / 2 > 1 then set_word id ATA_ID_MULTSECT (max_multsect ||| 0x100)
        else set_word id ATA_ID_MULTSECT (id.getD ATA_ID_MULTSECT 0 / 512 * 512)
      let drive := { drive with id := some id, mult_req := id.getD ATA_ID_MULTSECT 0 &&& 0xff }
      some (if drive.mult_req ≠ 0 then { drive with set_multmode := true } else drive)
    else some drive

/-- Function `enable_nest`. -/
def enable_nest (k : Header) (e : Env) (drive : ide_drive_t) (w : World) : World :=
  let w := SELECT_DRIVE drive w
  let w := msleep k e 50 w
  let w := w.op (.exec_command ATA_EXABYTE_ENABLE_NEST)
  let (busy, w) := ide_busy_sleep k e (WAIT_WORSTCASE k) false w
  if busy ≠ 0 then w
  else
    let w := msleep k e 50 w
    (read_status e w).2

/-- The two `do_probe` calls of `probe_for_drive`: the ATA identify, and the
ATAPI identify if the first answer was neither success nor a time-out. -/
def probe_both (k : Header) (ppc : Bool) (e : Env) (hwif : ide_hwif_t)
    (drive : ide_drive_t) (w : World) : Option (ide_hwif_t × ide_drive_t × World) :=
  -- if !(success||timed-out)
  match do_probe k ppc e hwif drive ATA_CMD_ID_ATA w with
  | none => none
  | some (rc, hwif, drive, w) =>
    if rc ≥ 2 then
      -- look for ATAPI device
      (do_probe k ppc e hwif drive ATA_CMD_ID_ATAPI w).map fun x => x.2
    else some (hwif, drive, w)

/-- The block "identification failed?" of `probe_for_drive`. -/
def probe_unidentified (k : Header) (drive : ide_drive_t) : ide_drive_t :=
  if drive.dev_flags.id_read = false then
    if drive.media = k.ide_disk then drive
    else if drive.media = k.ide_cdrom then drive
    else
      -- nuke it
      { drive with dev_flags := { drive.dev_flags with present := false } }
  else drive

/-- The part of `probe_for_drive` under `if ((drive->dev_flags &
IDE_DFLAG_NOPROBE) == 0)`, from the label `retry` on.  The boolean of the
result tells that the function left through the `return 0` inside.
`fuel` bounds the number of passes through `retry`; `none` is also the
answer when it is used up. -/
def probe_retry (k : Header) (ppc : Bool) (e : Env) :
    Nat → ide_hwif_t → ide_drive_t → World → Option (Bool × ide_hwif_t × ide_drive_t × World)
  | 0, _, _, _ => none
  | fuel + 1, hwif, drive, w =>
    match probe_both k ppc e hwif drive w with
    | none => none
    | some (hwif, drive, w) =>
      if drive.dev_flags.present = false then
        -- drive not found
        some (true, hwif, drive, w)
      else
        match drive.id with
        | none => none
        | some id =>
          if strstr (id_bytes id ATA_ID_PROD) (lit "E X A B Y T E N E S T") then
            probe_retry k ppc e fuel hwif drive (enable_nest k e drive w)
          else
            -- drive was found
            some (false, hwif, probe_unidentified k drive, w)

/-- The statements of `probe_for_drive` after the probe block. -/
def probe_finish (k : Header) (hwif : ide_hwif_t) (drive : ide_drive_t) (w : World) :
    Option (Nat × ide_hwif_t × ide_drive_t × World) :=
  if drive.dev_flags.present = false then some (0, hwif, drive, w)
  -- The drive wasn't being helpful. Add generic info only
  else if drive.dev_flags.id_read = false then
    (generic_id drive).map fun d => (1, hwif, d, w)
  else
    let r :=
      if drive.media = k.ide_disk then
        (ide_disk_init_chs k drive).bind ide_disk_init_mult_count
      else some drive
    r.map fun d => (if d.dev_flags.present then 1 else 0, hwif, d, w)

/-- The identify buffer after `kzalloc` and `strcpy(m, "UNKNOWN")`. -/
def unknown_id : List Nat :=
  write_bytes (List.replicate (SECTOR_SIZE / 2) 0) ATA_ID_PROD 8 (lit "UNKNOWN" ++ [0])

/-- Function `probe_for_drive`; the first component of the result is the value
returned. -/
def probe_for_drive (k : Header) (ppc : Bool) (e : Env) (fuel : Nat) (hwif : ide_hwif_t)
    (drive : ide_drive_t) (w : World) : Option (Nat × ide_hwif_t × ide_drive_t × World) :=
  let drive := { drive with dev_flags := { drive.dev_flags with id_read := false } }
  let ok := e.alloc_ok w.allocs
  let w := { w with allocs := w.allocs + 1 }
  if ok = false then
    some (0, hwif, { drive with id := none }, w)
  else
    let drive := { drive with id := some unknown_id }
    -- skip probing?
    let r :=
      if drive.dev_flags.noprobe = false then probe_retry k ppc e fuel hwif drive w
      else some (false, hwif, drive, w)
    match r with
    | none => none
    | some (true, hwif, drive, w) => some (0, hwif, drive, w)
    | some (false, hwif, drive, w) => probe_finish k hwif drive w

/-! ## Port level -/

/-- Error number `EACCES`. -/
def EACCES : Int := 13
/-- Error number `ENODEV`. -/
def ENODEV : Int := 19

/-- The loop over the drives in `ide_port_wait_ready`, entered at index `i`:
the result code, the index at which the loop was left, and the world. -/
def ide_port_wait_ready_loop (e : Env) : List ide_drive_t → Nat → World → Int × Nat × World
  | [], i, w => (0, i, w)
  | drive :: rest, i, w =>
    -- Ignore disks that we will not probe for later.
    if drive.dev_flags.noprobe = false ∨ drive.dev_flags.present then
      let w := SELECT_DRIVE drive w
      let w := w.op (.set_irq 1)
      let rc := e.ide_wait_not_busy w.trace.length
      if rc ≠ 0 then (rc, i, w) else ide_port_wait_ready_loop e rest (i + 1) w
    else ide_port_wait_ready_loop e rest (i + 1) w

/-- Function `ide_port_wait_ready`.  The status polls made inside
`ide_wait_not_busy` are not recorded. -/
def ide_port_wait_ready (e : Env) (hwif : ide_hwif_t) (w : World) : Int × World :=
  let rc := e.ide_wait_not_busy w.trace.length
  if rc ≠ 0 then (rc, w)
  else
    -- Now make sure both master & slave are ready
    let (rc, i, w) := ide_port_wait_ready_loop e hwif.devices 0 w
    -- Exit function with master reselected (let's be sane)
    let w := if i ≠ 0 then dev0_select hwif w else w
    (rc, w)

/-- The loop over the drives in `ide_probe_port`: the drives after the probe,
whether one of them is present, the port and the world.  The port record
handed to `probe_for_drive` still holds the drives as they were before the
loop; of these only `devices[0]->select` is read, which the probe never
writes. -/
def probe_devices (k : Header) (ppc : Bool) (e : Env) (fuel : Nat) :
    List ide_drive_t → ide_hwif_t → World →
    Option (List ide_drive_t × Bool × ide_hwif_t × World)
  | [], hwif, w => some ([], false, hwif, w)
  | drive :: rest, hwif, w =>
    match probe_for_drive k ppc e fuel hwif drive w with
    | none => none
    | some (_, hwif, drive, w) =>
      match probe_devices k ppc e fuel rest hwif w with
      | none => none
      | some (rest, found, hwif, w) =>
        some (drive :: rest, drive.dev_flags.present || found, hwif, w)

/-- Function `ide_probe_port`.  `BUG_ON(hwif->present)` stops the run: the
result is `none`. -/
def ide_probe_port (k : Header) (ppc : Bool) (e : Env) (fuel : Nat) (hwif : ide_hwif_t)
    (w : World) : Option (Int × ide_hwif_t × World) :=
  if hwif.present then none
  else
    match hwif.devices[0]?, hwif.devices[1]? with
    | some d0, some d1 =>
      if d0.dev_flags.noprobe ∧ d1.dev_flags.noprobe then some (-EACCES, hwif, w)
      else
        -- We must always disable IRQ, as probe_for_drive will assert IRQ
        let irqd := hwif.irq
        let w := if irqd ≠ 0 then w.call (.disable_irq hwif.irq) else w
        let (_, w) := ide_port_wait_ready e hwif w
        match probe_devices k ppc e fuel hwif.devices hwif w with
        | none => none
        | some (devices, found, hwif, w) =>
          let hwif := { hwif with devices := devices }
          -- Use cached IRQ number. It might be (and is...) changed by probe code above
          let w := if irqd ≠ 0 then w.call (.enable_irq irqd) else w
          some (if found then 0 else -ENODEV, hwif, w)
    | _, _ => none

/-- Function `ide_port_tune_devices`. -/
def ide_port_tune_devices (e : Env) (hwif : ide_hwif_t) : ide_hwif_t :=
  let devices := hwif.devices.map fun drive =>
    if drive.dev_flags.present then
      match hwif.port_ops with
      | some ops =>
        match ops.quirkproc with
        | some quirkproc => quirkproc drive
        | none => drive
      | none => drive
    else drive
  let devices := devices.map fun drive =>
    if drive.dev_flags.present then
      let drive := e.ide_set_max_pio drive
      let drive := { drive with dev_flags := { drive.dev_flags with nice1 := true } }
      if hwif.has_dma_ops then e.ide_set_dma drive else drive
    else drive
  let devices := devices.map fun drive =>
    if hwif.host_flags.no_io_32bit then
      { drive with dev_flags := { drive.dev_flags with no_io_32bit := true } }
    else
      { drive with dev_flags := { drive.dev_flags with no_io_32bit := false } }
  { hwif with devices := devices }

/-- Function `ide_init_queue` for drive `i` of the port with the given index:
the value returned and the drive.  The settings made on the new queue itself
are outside the model. -/
def ide_init_queue (e : Env) (index i : Nat) (drive : ide_drive_t) : Nat × ide_drive_t :=
  match e.blk_init_queue_node index i with
  | none => (1, drive)
  | some q =>
    -- assign drive queue
    (0, { drive with queue := some q })

/-- The loop of `ide_port_setup_devices` from drive index `i` on: the drives
afterwards and the number of drives counted by `j++`. -/
def ide_port_setup_devices_loop (e : Env) (index : Nat) :
    List ide_drive_t → Nat → List ide_drive_t × Nat
  | [], _ => ([], 0)
  | drive :: rest, i =>
    let (rest, j) := ide_port_setup_devices_loop e index rest (i + 1)
    if drive.dev_flags.present = false then (drive :: rest, j)
    else
      let (err, drive) := ide_init_queue e index i drive
      if err ≠ 0 then
        let drive := { drive with id := none }
        ({ drive with dev_flags := { drive.dev_flags with present := false } } :: rest, j)
      else (drive :: rest, j + 1)

/-- Function `ide_port_setup_devices`: the value returned and the port. -/
def ide_port_setup_devices (e : Env) (hwif : ide_hwif_t) : Nat × ide_hwif_t :=
  let (devices, j) := ide_port_setup_devices_loop e hwif.index hwif.devices 0
  (j, { hwif with devices := devices })

/-- Function `init_irq`; `attempt` tells the first call of `hwif_init` from the
second. -/
def init_irq (e : Env) (attempt : Nat) (hwif : ide_hwif_t) (w : World) :
    Nat × ide_hwif_t × World :=
  let w := if hwif.ctl_addr ≠ 0 then w.op (.set_irq 1) else w
  if e.request_irq hwif.irq hwif.index attempt ≠ 0 then (1, hwif, w)
  else
    let hwif :=
      if hwif.rqsize = 0 then
        if hwif.host_flags.no_lba48 ∨ hwif.host_flags.no_lba48_dma then
          { hwif with rqsize := 256 }
        else { hwif with rqsize := 65536 }
      else hwif
    (0, hwif, w)

/-- The part of `hwif_init` after the allocation of the scatter/gather table:
the two attempts to install the interrupt handler and the labels `done` and
`out`. -/
def hwif_init_irqs (e : Env) (hwif : ide_hwif_t) (w : World) : Nat × ide_hwif_t × World :=
  let r := init_irq e 0 hwif w
  if r.1 = 0 then (1, r.2.1, r.2.2.call (.blk_register_region r.2.1.major))
  else
    -- It failed to initialise. Find the default IRQ for this port and try that.
    let hwif : ide_hwif_t := { r.2.1 with irq := e.ide_default_irq r.2.1.data_addr }
    if hwif.irq = 0 then (0, hwif, r.2.2.call (.unregister_blkdev hwif.major))
    else
      let r := init_irq e 1 hwif r.2.2
      if r.1 ≠ 0 then (0, r.2.1, r.2.2.call (.unregister_blkdev r.2.1.major))
      else (1, r.2.1, r.2.2.call (.blk_register_region r.2.1.major))

/-- The part of `hwif_init` from `register_blkdev` on, entered with an
interrupt line assigned. -/
def hwif_init_blkdev (k : Header) (e : Env) (hwif : ide_hwif_t) (w : World) :
    Nat × ide_hwif_t × World :=
  if e.register_blkdev hwif.major ≠ 0 then (0, hwif, w)
  else
    let hwif : ide_hwif_t :=
      if hwif.sg_max_nents = 0 then { hwif with sg_max_nents := k.PRD_ENTRIES } else hwif
    let hwif : ide_hwif_t := { hwif with has_sg_table := e.kmalloc_sg hwif.index }
    if hwif.has_sg_table = false then (0, hwif, w.call (.unregister_blkdev hwif.major))
    else hwif_init_irqs e hwif w

/-- Function `hwif_init`. -/
def hwif_init (k : Header) (e : Env) (hwif : ide_hwif_t) (w : World) :
    Nat × ide_hwif_t × World :=
  let hwif : ide_hwif_t :=
    if hwif.irq = 0 then { hwif with irq := e.ide_default_irq hwif.data_addr } else hwif
  if hwif.irq = 0 then (0, hwif, w)
  else hwif_init_blkdev k e hwif w

/-- The loop of `hwif_register_devices` from drive index `i` on. -/
def hwif_register_devices_loop (index : Nat) : List ide_drive_t → Nat → World → World
  | [], _, w => w
  | drive :: rest, i, w =>
    if drive.dev_flags.present = false then hwif_register_devices_loop index rest (i + 1) w
    else hwif_register_devices_loop index rest (i + 1) (w.call (.device_register index i))

/-- Function `hwif_register_devices`. -/
def hwif_register_devices (hwif : ide_hwif_t) (w : World) : World :=
  hwif_register_devices_loop hwif.index hwif.devices 0 w

/-- The loop of `ide_port_init_devices` from drive index `i` on. -/
def ide_port_init_devices_loop (hwif : ide_hwif_t) : List ide_drive_t → Nat → List ide_drive_t
  | [], _ => []
  | drive :: rest, i =>
    let drive := { drive with dn := i + hwif.channel * 2 }
    let drive := if hwif.host_flags.io_32bit then { drive with io_32bit := 1 } else drive
    let drive :=
      if hwif.host_flags.unmask_irqs then
        { drive with dev_flags := { drive.dev_flags with unmask := true } }
      else drive
    let drive :=
      if hwif.host_flags.no_unmask_irqs then
        { drive with dev_flags := { drive.dev_flags with no_unmask := true } }
      else drive
    let drive :=
      match hwif.port_ops with
      | some ops =>
        match ops.init_dev with
        | some init_dev => init_dev drive
        | none => drive
      | none => drive
    drive :: ide_port_init_devices_loop hwif rest (i + 1)

/-- Function `ide_port_init_devices`. -/
def ide_port_init_devices (hwif : ide_hwif_t) : ide_hwif_t :=
  { hwif with devices := ide_port_init_devices_loop hwif hwif.devices 0 }

/-! ## Host level -/

/-- The fields of `hw_regs_t` that `ide_init_port_hw` copies into the port. -/
structure hw_regs_t where
  /-- Field `io_ports.data_addr`. -/
  data_addr : Nat
  /-- Field `io_ports.ctl_addr`. -/
  ctl_addr : Nat
  /-- Field `irq`. -/
  irq : Nat
  /-- Field `chipset`. -/
  chipset : Nat

/-- The fields of `struct ide_port_info` that the probe code reads; `none` is a
NULL function pointer. -/
structure ide_port_info where
  /-- Field `chipset`. -/
  chipset : Nat
  /-- Field `host_flags`. -/
  host_flags : HostFlags
  /-- Field `pio_mask`. -/
  pio_mask : Nat
  /-- Field `swdma_mask`. -/
  swdma_mask : Nat
  /-- Field `mwdma_mask`. -/
  mwdma_mask : Nat
  /-- Field `udma_mask`. -/
  udma_mask : Nat
  /-- Field `max_sectors`. -/
  max_sectors : Nat
  /-- Field `port_ops`. -/
  port_ops : Option ide_port_ops
  /-- Field `dma_ops` is not NULL. -/
  has_dma_ops : Bool
  /-- Callback `init_iops(hwif)`. -/
  init_iops : Option (ide_hwif_t → ide_hwif_t)
  /-- Callback `init_hwif(hwif)`. -/
  init_hwif : Option (ide_hwif_t → ide_hwif_t)
  /-- Callback `init_dma(hwif, d)`. -/
  init_dma : Option (ide_hwif_t → Int × ide_hwif_t)

/-- The fields of `struct ide_host` that the probe code reads or writes. -/
structure ide_host where
  /-- Field `ports[MAX_HOST_PORTS]`; `none` is a NULL entry. -/
  ports : List (Option ide_hwif_t)
  /-- Field `host_flags`. -/
  host_flags : HostFlags

/-- Function `ide_init_port_hw`. -/
def ide_init_port_hw (hwif : ide_hwif_t) (hw : hw_regs_t) : ide_hwif_t :=
  { hwif with data_addr := hw.data_addr, ctl_addr := hw.ctl_addr, irq := hw.irq,
              chipset := hw.chipset }

/-- The part of `ide_init_port` under
`if ((d->host_flags & IDE_HFLAG_NO_DMA) == 0)`. -/
def ide_init_port_dma (e : Env) (hwif : ide_hwif_t) (d : ide_port_info) : ide_hwif_t :=
  let hwif := { hwif with has_dma_ops := d.has_dma_ops }
  let r : Int × ide_hwif_t :=
    match d.init_dma with
    | some init_dma => init_dma hwif
    | none => e.ide_hwif_setup_dma hwif
  if r.1 < 0 then
    { r.2 with has_dma_ops := false, dma_base := 0, swdma_mask := 0, mwdma_mask := 0,
               ultra_mask := 0 }
  else r.2

/-- The first statements of `ide_init_port`, up to the call of `init_iops`. -/
def ide_init_port_iops (hwif : ide_hwif_t) (port : Nat) (d : ide_port_info) : ide_hwif_t :=
  let hwif := { hwif with channel := port }
  let hwif := if d.chipset ≠ 0 then { hwif with chipset := d.chipset } else hwif
  match d.init_iops with
  | some init_iops => init_iops hwif
  | none => hwif

/-- The statements of `ide_init_port` that set the interrupt line, the flags
and the PIO mask. -/
def ide_init_port_irq (hwif : ide_hwif_t) (port : Nat) (d : ide_port_info) : ide_hwif_t :=
  let hwif :=
    if (hwif.irq = 0 ∧ d.host_flags.legacy_irqs) ∨ d.host_flags.force_legacy_irqs then
      { hwif with irq := if port ≠ 0 then 15 else 14 }
    else hwif
  -- ->host_flags may be set by ->init_iops (or even earlier...)
  let hwif := { hwif with host_flags := hwif.host_flags.or d.host_flags }
  { hwif with pio_mask := d.pio_mask }

/-- The statements of `ide_init_port` that set `port_ops` and the DMA mode
masks. -/
def ide_init_port_masks (k : Header) (hwif : ide_hwif_t) (d : ide_port_info) : ide_hwif_t :=
  -- ->set_pio_mode for DTC2278 is currently limited to port 0
  let hwif :=
    if hwif.chipset ≠ k.ide_dtc2278 ∨ hwif.channel = 0 then
      { hwif with port_ops := d.port_ops }
    else hwif
  { hwif with swdma_mask := d.swdma_mask, mwdma_mask := d.mwdma_mask,
              ultra_mask := d.udma_mask }

/-- Function `ide_init_port`: the port and the `host_flags` of its host. -/
def ide_init_port (k : Header) (e : Env) (hwif : ide_hwif_t) (port : Nat)
    (d : ide_port_info) (host_flags : HostFlags) : ide_hwif_t × HostFlags :=
  let hwif := ide_init_port_iops hwif port d
  let hwif := ide_init_port_irq hwif port d
  let hwif := ide_init_port_masks k hwif d
  let hwif := if d.host_flags.no_dma = false then ide_init_port_dma e hwif d else hwif
  let host_flags :=
    if d.host_flags.serialize ∨ (d.host_flags.serialize_dma ∧ hwif.dma_base ≠ 0) then
      { host_flags with serialize := true }
    else host_flags
  let hwif := if d.max_sectors ≠ 0 then { hwif with rqsize := d.max_sectors } else hwif
  -- call chipset specific routine for each enabled port
  let hwif :=
    match d.init_hwif with
    | some init_hwif => init_hwif hwif
    | none => hwif
  (hwif, host_flags)

/-- Function `ide_port_cable_detect`. -/
def ide_port_cable_detect (k : Header) (hwif : ide_hwif_t) : ide_hwif_t :=
  match hwif.port_ops with
  | some ops =>
    match ops.cable_detect with
    | some cable_detect =>
      if hwif.ultra_mask &&& 0x78 ≠ 0 ∧ hwif.cbl ≠ k.ATA_CBL_PATA40_SHORT then
        { hwif with cbl := cable_detect hwif.index }
      else hwif
    | none => hwif
  | none => hwif

/-- One round of the first loop of `ide_host_register` (hardware bind) for
port slot `i`; `mate` is the local variable of that name. -/
def host_bind_port (k : Header) (e : Env) (d : Option ide_port_info)
    (hws : List (Option hw_regs_t)) (acc : ide_host × Option Nat) (i : Nat) :
    Option (ide_host × Option Nat) :=
  let (host, mate) := acc
  match host.ports.getD i none with
  | none => some (host, none)
  | some hwif =>
    match hws.getD i none with
    | none => none
    | some hw =>
      let hwif := ide_init_port_hw hwif hw
      let hwif := e.ide_port_apply_params hwif
      let (hwif, host, mate) :=
        match d with
        | none => (hwif, host, none)
        | some d =>
          let (hwif, host) :=
            match mate with
            | some m =>
              if i &&& 1 ≠ 0 then
                let ports := List.modify
                  (Option.map fun (p : ide_hwif_t) => { p with mate := some i }) m host.ports
                ({ hwif with mate := some m }, { host with ports := ports })
              else (hwif, host)
            | none => (hwif, host)
          let mate := if i &&& 1 ≠ 0 then none else some i
          let (hwif, host_flags) := ide_init_port k e hwif (i &&& 1) d host.host_flags
          let hwif := ide_port_cable_detect k hwif
          (hwif, { host with host_flags := host_flags }, mate)
      let hwif := ide_port_init_devices hwif
      some ({ host with ports := host.ports.set i (some hwif) }, mate)

/-- One round of the second loop of `ide_host_register` (probe) for port slot
`i`. -/
def host_probe_port (k : Header) (ppc : Bool) (e : Env) (fuel : Nat)
    (acc : ide_host × World) (i : Nat) : Option (ide_host × World) :=
  let (host, w) := acc
  match host.ports.getD i none with
  | none => some (host, w)
  | some hwif =>
    match ide_probe_port k ppc e fuel hwif w with
    | none => none
    | some (rc, hwif, w) =>
      let hwif := if rc = 0 then { hwif with present := true } else hwif
      -- the condition `!hwif->mate || !hwif->mate->present`; `none` when the
      -- mate pointer does not lead to a port
      let no_mate_present : Option Bool :=
        match hwif.mate with
        | none => some true
        | some m =>
          match host.ports.getD m none with
          | some p => some (!p.present)
          | none => none
      let register : Option Bool :=
        if hwif.chipset ≠ k.ide_4drives then some true else no_mate_present
      match register with
      | none => none
      | some reg =>
        let w := if reg then w.call (.ide_register_port hwif.index) else w
        let hwif := if hwif.present then ide_port_tune_devices e hwif else hwif
        some ({ host with ports := host.ports.set i (some hwif) }, w)

/-- One round of the third loop of `ide_host_register` for a port that is not
NULL: the port afterwards, whether the round reached `j++`, and the world. -/
def host_init_port (k : Header) (e : Env) (hwif : ide_hwif_t) (w : World) :
    ide_hwif_t × Bool × World :=
  -- from `j++` to the end of the loop body
  let counted (hwif : ide_hwif_t) (w : World) : ide_hwif_t × Bool × World :=
    let w := w.call (.ide_acpi_init hwif.index)
    let w := if hwif.present then w.call (.ide_acpi_port_init_devices hwif.index) else w
    (hwif, true, w)
  let (ok, hwif, w) := hwif_init k e hwif w
  if ok = 0 then ({ hwif with present := false }, false, w)
  else if hwif.present then
    let (n, hwif) := ide_port_setup_devices e hwif
    if n = 0 then ({ hwif with present := false }, false, w)
    else counted hwif w
  else counted hwif w

/-- The third loop of `ide_host_register`: the ports afterwards, the counter
`j`, and the world. -/
def host_init_ports (k : Header) (e : Env) :
    List (Option ide_hwif_t) → World → List (Option ide_hwif_t) × Nat × World
  | [], w => ([], 0, w)
  | none :: rest, w =>
    let (rest, j, w) := host_init_ports k e rest w
    (none :: rest, j, w)
  | some hwif :: rest, w =>
    let (hwif, counted, w) := host_init_port k e hwif w
    let (rest, j, w) := host_init_ports k e rest w
    (some hwif :: rest, (if counted then j + 1 else j), w)

/-- The fourth and fifth loop of `ide_host_register`: registration of the
present drives and of the ports. -/
def host_register_ports (ports : List (Option ide_hwif_t)) (w : World) : World :=
  let w := ports.foldl (fun w p =>
    match p with
    | none => w
    | some hwif => if hwif.present then hwif_register_devices hwif w else w) w
  ports.foldl (fun w p =>
    match p with
    | none => w
    | some hwif =>
      let w := w.call (.ide_sysfs_register_port hwif.index)
      let w := w.call (.ide_proc_register_port hwif.index)
      if hwif.present then w.call (.ide_proc_port_register_devices hwif.index) else w) w

/-- The state of the host after the first two loops of `ide_host_register`
(hardware bind, then probe). -/
def host_probe (k : Header) (ppc : Bool) (e : Env) (fuel : Nat) (d : Option ide_port_info)
    (hws : List (Option hw_regs_t)) (host : ide_host) (w : World) : Option (ide_host × World) :=
  match (List.range host.ports.length).foldlM (host_bind_port k e d hws) (host, none) with
  | none => none
  | some (host, _) =>
    (List.range host.ports.length).foldlM (host_probe_port k ppc e fuel) (host, w)

/-- Function `ide_host_register`: the value returned, the host and the world. -/
def ide_host_register (k : Header) (ppc : Bool) (e : Env) (fuel : Nat)
    (d : Option ide_port_info) (hws : List (Option hw_regs_t)) (host : ide_host)
    (w : World) : Option (Int × ide_host × World) :=
  match host_probe k ppc e fuel d hws host w with
  | none => none
  | some (host, w) =>
    let (ports, j, w) := host_init_ports k e host.ports w
    let w := host_register_ports ports w
    some (if j ≠ 0 then 0 else -1, { host with ports := ports }, w)

/-! ## A concrete configuration, used to evaluate the definitions -/

/-- Swap the two bytes of every pair. -/
def swap_pairs : List Nat → List Nat
  | a :: b :: rest => b :: a :: swap_pairs rest
  | rest => rest

/-- Modelled from the spec: `ide_fixstring` lives in `ide-iops.c`, which is not
part of the translated file.  The spec says that normalisation swaps the
bytes of each pair of a string field unless told otherwise; this sample does
that and nothing else. -/
def sample_fixstring (s : List Nat) (_bytecount bswap : Nat) : List Nat :=
  if bswap ≠ 0 then swap_pairs s else s

/-- A configuration with the media codes of `include/linux/ide.h`
(`ide_disk` 0x20, `ide_optical` 0x7, `ide_cdrom` 0x5, `ide_tape` 0x1,
`ide_floppy` 0x0), a 100 Hz clock, the CompactFlash signature 0x848A in the
configuration word as `ata_id_is_cfa`, and a little-endian host, on which
`ide_fix_driveid` changes nothing.  The chipset and cable codes and the
other identify-word predicates are stand-ins that no property depends
on. -/
def linux_header : Header where
  ide_disk := 0x20
  ide_optical := 0x7
  ide_cdrom := 0x5
  ide_tape := 0x1
  ide_floppy := 0x0
  ide_pci := 2
  ide_dtc2278 := 4
  ide_4drives := 9
  ATA_CBL_PATA40_SHORT := 3
  PRD_ENTRIES := 256
  HZ := 100
  ata_id_is_cfa := fun id => id.getD ATA_ID_CONFIG 0 == 0x848A
  ata_id_has_unload := fun _ => false
  ata_id_cdb_intr := fun id => id.getD ATA_ID_CONFIG 0 &&& 0x60 == 0x20
  ata_id_current_chs_valid := fun id =>
    id.getD 53 0 &&& 1 != 0 && id.getD 54 0 != 0 && id.getD 55 0 != 0 &&
    decide (id.getD 55 0 ≤ 16) && id.getD 56 0 != 0
  ide_fix_driveid := fun id => id
  ide_fixstring := sample_fixstring

/-- A drive slot as `ide_port_init_devices_data` sets it up for unit `i` of a
port, with media code `media`. -/
def fresh_drive (media i : Nat) : ide_drive_t where
  dev_flags :=
    { present := false, dead := false, id_read := false, noprobe := false,
      removable := false, doorlocking := false, no_unload := false, nice1 := false,
      unmask := false, no_unmask := false, no_io_32bit := false, rest := 0 }
  atapi_drq_interrupt := false
  media := media
  ready_stat := ATA_DRDY
  bad_wstat := BAD_W_STAT
  select := (i <<< 4) ||| ATA_DEVICE_OBS
  dn := i
  io_32bit := 0
  id := none
  cyl := 0
  head := 0
  sect := 0
  bios_cyl := 0
  bios_head := 0
  bios_sect := 0
  mult_req := 0
  set_multmode := false
  recalibrate := true
  set_geometry := true
  queue := none

/-- A drive slot for unit `i` that is marked present. -/
def present_drive (i : Nat) : ide_drive_t :=
  { fresh_drive 0x20 i with
    dev_flags := { (fresh_drive 0x20 i).dev_flags with present := true } }

/-- An identify buffer with configuration word `config` and the given model
and serial number strings, every other word 0. -/
def sample_id (config : Nat) (model serno : String) : List Nat :=
  let id := (List.replicate 256 0).set ATA_ID_CONFIG config
  let id := write_bytes id ATA_ID_PROD ATA_ID_PROD_LEN (lit model)
  write_bytes id ATA_ID_SERNO ATA_ID_SERNO_LEN (lit serno)

/-- No flag of `host_flags` set. -/
def no_host_flags : HostFlags where
  broken_altstatus := false
  no_io_32bit := false
  io_32bit := false
  unmask_irqs := false
  no_unmask_irqs := false
  legacy_irqs := false
  force_legacy_irqs := false
  no_dma := false
  serialize := false
  serialize_dma := false
  no_lba48 := false
  no_lba48_dma := false
  non_bootable := false
  qd_2nd_port := false
  rest := 0

/-- A port with the given index, interrupt line and drives, and no control
register address. -/
def sample_port (index irq : Nat) (devices : List ide_drive_t) : ide_hwif_t where
  index := index
  channel := 0
  major := 3
  irq := irq
  chipset := 0
  present := false
  host_flags := no_host_flags
  data_addr := 0x1f0
  ctl_addr := 0
  devices := devices
  mate := none
  pio_mask := 0
  swdma_mask := 0
  mwdma_mask := 0
  ultra_mask := 0
  dma_base := 0
  has_dma_ops := false
  port_ops := none
  rqsize := 0
  sg_max_nents := 0
  has_sg_table := false
  cbl := 0

/-- An environment in which the register read that is bus operation `n` gives
`reg n`, every data transfer gives `id`, every sleep overruns by `lag` jiffies, allocations and
registrations succeed, and `blk_init_queue_node` answers `queue`. -/
def sample_env (reg : Nat → Nat) (id : List Nat) (lag : Nat)
    (queue : Nat → Nat → Option Nat) : Env where
  reg := reg
  data := fun _ => id
  lag := fun _ => lag
  probe_irq_off := fun _ => 0
  alloc_ok := fun _ => true
  blk_init_queue_node := queue
  ide_wait_not_busy := fun _ => 0
  ide_default_irq := fun _ => 14
  register_blkdev := fun _ => 0
  kmalloc_sg := fun _ => true
  request_irq := fun _ _ _ => 0
  ide_port_apply_params := fun hwif => hwif
  ide_hwif_setup_dma := fun hwif => (0, hwif)
  ide_set_max_pio := fun drive => drive
  ide_set_dma := fun drive => drive

/-- The world before anything happened. -/
def world0 : World where
  trace := []
  calls := []
  jiffies := 0
  allocs := 0

/-! ## The vocabulary of the specification -/

/-- The model string of an identify block: the C string at the model words. -/
def model_string (id : List Nat) : List Nat := cstr (id_bytes id ATA_ID_PROD)

/-- The serial number of an identify block: the C string inside the
`ATA_ID_SERNO_LEN` bytes of the serial number field. -/
def serial_number (id : List Nat) : List Nat :=
  cstr ((id_bytes id ATA_ID_SERNO).take ATA_ID_SERNO_LEN)

/-- The 5-bit device-type code: bits 8..12 of the configuration word. -/
def device_type (id : List Nat) : Nat := id.getD ATA_ID_CONFIG 0 / 2 ^ 8 % 2 ^ 5

/-- The string `s` contains the text `pat`. -/
def contains_text (s : List Nat) (pat : String) : Prop := lit pat <:+: s

instance (s : List Nat) (pat : String) : Decidable (contains_text s pat) := by
  unfold contains_text; infer_instance

/-- The slave is taken for the master seen twice: it sits in the slave slot,
the master is present, model strings and serial numbers agree, and the
master has a serial number. -/
def undecoded (dev0 dev1 : ide_drive_t) (id0 id1 : List Nat) : Prop :=
  dev1.dn % 2 = 1 ∧ dev0.dev_flags.present = true ∧
  model_string id0 = model_string id1 ∧
  serial_number id0 = serial_number id1 ∧
  serial_number id0 ≠ []

instance (dev0 dev1 : ide_drive_t) (id0 id1 : List Nat) :
    Decidable (undecoded dev0 dev1 id0 id1) := by
  unfold undecoded; infer_instance

/-- The drive with its identify buffer pointing at the block `id`. -/
def with_id (drive : ide_drive_t) (id : List Nat) : ide_drive_t :=
  { drive with id := some id }

/-- The drive with its PRESENT flag cleared. -/
def absent (drive : ide_drive_t) : ide_drive_t :=
  { drive with dev_flags := { drive.dev_flags with present := false } }

/-- The value of the latest write to the device-select register, if there was
one. -/
def last_select (w : World) : Option Nat :=
  w.trace.findSome? fun o =>
    match o with
    | .select v => some v
    | _ => none

/-- A slave drive slot that has its identify buffer allocated. -/
def sample_slave : ide_drive_t := with_id (fresh_drive 0x20 1) (List.replicate 256 0)

/-- A bus on which the device register reads back the slave's select value
(bus operation 1 of `do_probe`) and every status read gives
`ATA_BUSY | ATA_DRDY`; every sleep overruns by 10000 jiffies. -/
def stuck_env : Env :=
  sample_env (fun n => if n = 1 then 0xB0 else 0xC0) [] 10000 (fun _ _ => none)

/-- The round of the third loop of `ide_host_register` for port `p` reaches
`j++`: `hwif_init` succeeds, and the port either was not marked present by
the probe or keeps at least one drive in `ide_port_setup_devices`. -/
def port_counted (k : Header) (e : Env) (p : ide_hwif_t) (w : World) : Prop :=
  (hwif_init k e p w).1 ≠ 0 ∧
  (p.present = false ∨ (ide_port_setup_devices e (hwif_init k e p w).2.1).1 ≠ 0)

/-- The number of drives of a port that have the PRESENT flag. -/
def present_drives (p : ide_hwif_t) : Nat :=
  p.devices.countP fun d => d.dev_flags.present

/-- The register block of a sample port. -/
def sample_hw : hw_regs_t where
  data_addr := 0x1f0
  ctl_addr := 0
  irq := 14
  chipset := 0

/-- A host whose ports have the given indexes, each with a fresh master and
slave slot. -/
def sample_host (indexes : List Nat) : ide_host where
  ports := indexes.map fun i =>
    some (sample_port i 14 [fresh_drive 0x20 0, fresh_drive 0x20 1])
  host_flags := no_host_flags

/-- A bus without any device: every register reads 0. -/
def silent_env : Env := sample_env (fun _ => 0) [] 0 (fun _ _ => none)

/-- A bus on which the master of each of two ports answers the ATA identify
command with a disk block (the device register reads back the master's
select value at bus operations 6 and 27, the status is `DRDY | DRQ`), and
no slave answers; `blk_init_queue_node` answers `queue`. -/
def two_disks_env (queue : Nat → Nat → Option Nat) : Env :=
  sample_env (fun n => if n = 6 ∨ n = 27 then 0xA0 else 0x48)
    (sample_id 0x0040 "SAME-MODEL" "SN0001") 0 queue

/-- The collaborator `blk_init_queue_node` fails for the port with index 0 and
succeeds for every other port. -/
def queue_fails_on_port0 (index _i : Nat) : Option Nat :=
  if index = 0 then none else some 7

/-- The state of a drive inside `probe_for_drive`: it has an identify buffer,
and if it is marked present the model string in the buffer does not contain
the EXABYTE NEST text. -/
def probe_inv (drive : ide_drive_t) : Prop :=
  ∃ id, drive.id = some id ∧
    (drive.dev_flags.present = true →
      strstr (id_bytes id ATA_ID_PROD) (lit "E X A B Y T E N E S T") = false)

/-- The model field starts with one of the two-character vendor signatures the
specification names for ATAPI devices that answer with bytes already in
order: "NE", "FX" or "Pi". -/
def vendor_signature (m : List Nat) : Prop :=
  lit "NE" <+: m ∨ lit "FX" <+: m ∨ lit "Pi" <+: m

instance (m : List Nat) : Decidable (vendor_signature m) := by
  unfold vendor_signature; infer_instance

/-- The bus operation of one poll of the busy wait. -/
def poll_op (altstatus : Bool) : BusOp :=
  if altstatus then .read_altstatus else .read_status

/-- The status value that poll number `i` (counted from 0) of a busy wait
entered in world `w` reads: register reads are the only bus operations of the
wait, so it is the answer to bus operation number `w.trace.length + i`. -/
def poll_status (e : Env) (w : World) (i : Nat) : Nat :=
  e.reg (w.trace.length + i) % 256

/-- How many times the bus operation `o` was made so far. -/
def ops (o : BusOp) (w : World) : Nat := w.trace.count o

/-- How many 512-byte identify blocks were transferred so far. -/
def data_reads (w : World) : Nat := ops .input_data w

/-- The bus operations that are counted when a probe is followed: commands
and data transfers.  Register reads and writes are not. -/
def counted (o : BusOp) : Prop :=
  match o with
  | .exec_command _ => True
  | .input_data => True
  | _ => False

/-- How the probe of a drive may change the drive and the bus record: the
drive keeps an identify buffer, no `ATA_EXABYTE_ENABLE_NEST` command is sent,
and either the drive is untouched and no identify block was transferred, or
a block was transferred and `IDE_DFLAG_ID_READ` is set. -/
def probe_rel (drive : ide_drive_t) (w : World) (d : ide_drive_t) (w' : World) : Prop :=
  d.id ≠ none ∧
  ops (.exec_command ATA_EXABYTE_ENABLE_NEST) w' = ops (.exec_command ATA_EXABYTE_ENABLE_NEST) w ∧
  ((d = drive ∧ data_reads w' = data_reads w) ∨
   (d.dev_flags.id_read = true ∧ data_reads w < data_reads w'))

/-- An environment without devices in which `request_irq` fails for interrupt
line 5 and succeeds for every other line; `__ide_default_irq` answers 14. -/
def irq5_taken_env : Env :=
  { silent_env with request_irq := fun irq _ _ => if irq = 5 then -16 else 0 }

/-- Error number `ENOENT`. -/
def ENOENT : Int := 2

/-- Function `ide_find_port_slot`: the value returned and `ide_indexes`
afterwards.  The constant `MAX_HWIFS` and the bit operation `ffz` ("find
first zero") come from headers that are not part of the translated file and
are parameters; `d = none` is a NULL pointer. -/
def ide_find_port_slot (MAX_HWIFS : Nat) (ffz : Nat → Nat) (d : Option ide_port_info)
    (ide_indexes : Nat) : Int × Nat :=
  let idx : Int := -ENOENT
  let bootable : Nat :=
    if (match d with
        | some d => d.host_flags.non_bootable
        | none => false) then 0 else 1
  let i : Nat :=
    if (match d with
        | some d => d.host_flags.qd_2nd_port
        | none => false) then 1 else 0
  -- Claim an unassigned slot.
  let idx : Int :=
    if bootable ≠ 0 then
      if (ide_indexes ||| i) ≠ (1 <<< MAX_HWIFS) - 1 then (ffz (ide_indexes ||| i) : Nat) else idx
    else
      if (ide_indexes ||| 3) ≠ (1 <<< MAX_HWIFS) - 1 then (ffz (ide_indexes ||| 3) : Nat)
      else if (ide_indexes &&& 3) ≠ 3 then (ffz ide_indexes : Nat)
      else idx
  (idx, if idx ≥ 0 then ide_indexes ||| (1 <<< idx.toNat) else ide_indexes)

/-- Function `ide_free_port_slot`: `ide_indexes` afterwards.  The complement is
taken in 32 bits, the width of `unsigned int`. -/
def ide_free_port_slot (idx : Nat) (ide_indexes : Nat) : Nat :=
  ide_indexes &&& ((2 ^ 32 - 1) ^^^ (1 <<< idx))

/-- The contract of the bit operation `ffz` on a word that has a zero bit: the
result is the index of the lowest one. -/
def IsFfz (ffz : Nat → Nat) : Prop :=
  ∀ x i, i < 32 → x.testBit i = false → (∀ j, j < i → x.testBit j = true) → ffz x = i

/-- Search for the lowest zero bit of `x` from bit `i` upwards, looking at no
more than `fuel` bits. -/
def first_zero_from (x : Nat) : Nat → Nat → Nat
  | 0, i => i
  | fuel + 1, i => if x.testBit i then first_zero_from x fuel (i + 1) else i

/-- A sample `ffz` for words of 32 bits. -/
def first_zero (x : Nat) : Nat := first_zero_from x 32 0

/-- The value 10 of `MAX_HWIFS` in `include/linux/ide.h`; the table
`ide_hwif_to_major` of the translated file has this many entries. -/
def linux_MAX_HWIFS : Nat := 10

/-- The port info asks `ide_find_port_slot` to leave slot 0 alone: the host
is bootable and has `IDE_HFLAG_QD_2ND_PORT`. -/
def skips_slot0 (d : Option ide_port_info) : Bool :=
  match d with
  | some d => !d.host_flags.non_bootable && d.host_flags.qd_2nd_port
  | none => false

/-- A port info with the given host flags and nothing else. -/
def sample_port_info (host_flags : HostFlags) : ide_port_info where
  chipset := 0
  host_flags := host_flags
  pio_mask := 0
  swdma_mask := 0
  mwdma_mask := 0
  udma_mask := 0
  max_sectors := 0
  port_ops := none
  has_dma_ops := false
  init_iops := none
  init_hwif := none
  init_dma := none

/-- The port info of the second port of a QD65xx host: `IDE_HFLAG_QD_2ND_PORT`
is set. -/
def qd_2nd_port_info : ide_port_info :=
  sample_port_info { no_host_flags with qd_2nd_port := true }

/-- An identify block with the physical geometry `cyls`/`heads`/`sectors`, the
current-translation geometry `cur_cyls`/`cur_heads`/`cur_sectors` and the
"current translation valid" bit of word 53 set; every other word is 0. -/
def sample_chs_id (cyls heads sectors cur_cyls cur_heads cur_sectors : Nat) : List Nat :=
  ((((((List.replicate 256 0).set ATA_ID_CYLS cyls).set ATA_ID_HEADS heads).set
    ATA_ID_SECTORS sectors).set 53 1).set ATA_ID_CUR_CYLS cur_cyls).set
      ATA_ID_CUR_HEADS cur_heads |>.set ATA_ID_CUR_SECTORS cur_sectors

/-- One call into the pool of port slots: `ide_find_port_slot(d)` or
`ide_free_port_slot(idx)`. -/
inductive SlotOp where
  /-- Call `ide_find_port_slot(d)`. -/
  | find (d : Option ide_port_info)
  /-- Call `ide_free_port_slot(idx)`. -/
  | free (idx : Nat)

/-- The variable `ide_indexes` after one call. -/
def slot_step (MAX_HWIFS : Nat) (ffz : Nat → Nat) (ide_indexes : Nat) : SlotOp → Nat
  | .find d => (ide_find_port_slot MAX_HWIFS ffz d ide_indexes).2
  | .free idx => ide_free_port_slot idx ide_indexes

/-- The variable `ide_indexes` after a sequence of calls, the first call first:
the file-static starts as 0 and only these two functions write it. -/
def slot_run (MAX_HWIFS : Nat) (ffz : Nat → Nat) (calls : List SlotOp) : Nat :=
  calls.foldl (slot_step MAX_HWIFS ffz) 0

/-! # Properties -/

/-! ## C strings -/

theorem cstr_nil : cstr [] = [] := rfl

theorem cstr_cons_zero (bs : List Nat) : cstr (0 :: bs) = [] := by
  simp [cstr]

theorem cstr_cons_pos (b : Nat) (bs : List Nat) (h : b ≠ 0) :
    cstr (b :: bs) = b :: cstr bs := by
  simp [cstr, List.takeWhile_cons, h]

/-- Library `strcmp` gives 0 exactly for equal C strings. -/
theorem strcmp_eq_zero_iff (a b : List Nat) : strcmp a b = 0 ↔ cstr a = cstr b := by
  induction a generalizing b with
  | nil =>
    cases b with
    | nil => simp [strcmp]
    | cons y ys =>
      by_cases hy : y = 0
      · subst hy; simp [strcmp, cstr_cons_zero, cstr_nil]
      · simp [strcmp, cstr_cons_pos y ys hy, cstr_nil, hy]
  | cons x xs ih =>
    cases b with
    | nil =>
      by_cases hx : x = 0
      · subst hx; simp [strcmp, cstr_cons_zero, cstr_nil]
      · simp [strcmp, cstr_cons_pos x xs hx, cstr_nil, hx]
    | cons y ys =>
      by_cases hxy : x = y
      · subst hxy
        by_cases hx : x = 0
        · subst hx; simp [strcmp, cstr_cons_zero]
        · simp [strcmp, cstr_cons_pos x _ hx, hx, ih]
      · have hne : (x : Int) - (y : Int) ≠ 0 := by omega
        by_cases hx : x = 0
        · subst hx
          have hy : y ≠ 0 := fun h => hxy h.symm
          simp [strcmp, cstr_cons_zero, cstr_cons_pos y ys hy, hxy, hne, hy]
        · by_cases hy : y = 0
          · subst hy
            simp [strcmp, cstr_cons_zero, cstr_cons_pos x xs hx, hxy, hne]
          · simp [strcmp, cstr_cons_pos x xs hx, cstr_cons_pos y ys hy, hxy, hne]

/-- Library `strncmp` gives 0 exactly when the C strings inside the first `n`
bytes are equal. -/
theorem strncmp_eq_zero_iff (a b : List Nat) (n : Nat) :
    strncmp a b n = 0 ↔ cstr (a.take n) = cstr (b.take n) := by
  induction n generalizing a b with
  | zero => simp [strncmp]
  | succ n ih =>
    cases a with
    | nil =>
      cases b with
      | nil => simp [strncmp]
      | cons y ys =>
        by_cases hy : y = 0
        · subst hy; simp [strncmp, cstr_cons_zero, cstr_nil]
        · simp [strncmp, cstr_cons_pos y _ hy, cstr_nil, hy]
    | cons x xs =>
      cases b with
      | nil =>
        by_cases hx : x = 0
        · subst hx; simp [strncmp, cstr_cons_zero, cstr_nil]
        · simp [strncmp, cstr_cons_pos x _ hx, cstr_nil, hx]
      | cons y ys =>
        by_cases hxy : x = y
        · subst hxy
          by_cases hx : x = 0
          · subst hx; simp [strncmp, cstr_cons_zero]
          · simp [strncmp, cstr_cons_pos x _ hx, hx, ih]
        · have hne : (x : Int) - (y : Int) ≠ 0 := by omega
          by_cases hx : x = 0
          · subst hx
            have hy : y ≠ 0 := fun h => hxy h.symm
            simp [strncmp, cstr_cons_zero, cstr_cons_pos y _ hy, hxy, hne, hy]
          · by_cases hy : y = 0
            · subst hy
              simp [strncmp, cstr_cons_zero, cstr_cons_pos x _ hx, hxy, hne]
            · simp [strncmp, cstr_cons_pos x _ hx, cstr_cons_pos y _ hy, hxy, hne]

/-- The first byte of a buffer is NUL exactly when its C string is empty. -/
theorem first_byte_zero_iff (bs : List Nat) : bs.getD 0 0 = 0 ↔ cstr bs = [] := by
  cases bs with
  | nil => simp [cstr_nil]
  | cons x xs =>
    by_cases hx : x = 0
    · subst hx; simp [cstr_cons_zero]
    · simp [cstr_cons_pos x xs hx, hx]

/-- The serial number is empty exactly when the first byte of the field is
NUL. -/
theorem serial_number_eq_nil_iff (id : List Nat) :
    serial_number id = [] ↔ (id_bytes id ATA_ID_SERNO).getD 0 0 = 0 := by
  unfold serial_number
  rw [first_byte_zero_iff]
  cases id_bytes id ATA_ID_SERNO with
  | nil => simp
  | cons x xs =>
    by_cases hx : x = 0
    · subst hx; simp [ATA_ID_SERNO_LEN, cstr_cons_zero]
    · simp [ATA_ID_SERNO_LEN, cstr_cons_pos x _ hx]

/-! ## Undecoded slave (C1) -/

/-- C1: `ide_undecoded_slave(dev1)` clears the PRESENT flag of `dev1` exactly
when `dev1` is the slave (`dn` odd), the master `dev0` is present, the model
strings are equal, the serial numbers are equal over `ATA_ID_SERNO_LEN`
bytes and the master's serial number is not empty; in every other case
`dev1` is returned as it was.  The master and all other fields of both
drives are unchanged in both cases. -/
theorem ide_undecoded_slave_spec (dev0 dev1 : ide_drive_t) (id0 id1 : List Nat) :
    (undecoded (with_id dev0 id0) (with_id dev1 id1) id0 id1 →
      ide_undecoded_slave (with_id dev0 id0) (with_id dev1 id1) =
        some (with_id dev0 id0, absent (with_id dev1 id1))) ∧
    (¬ undecoded (with_id dev0 id0) (with_id dev1 id1) id0 id1 →
      ide_undecoded_slave (with_id dev0 id0) (with_id dev1 id1) =
        some (with_id dev0 id0, with_id dev1 id1)) := by
  have hm := strcmp_eq_zero_iff (id_bytes id0 ATA_ID_PROD) (id_bytes id1 ATA_ID_PROD)
  have hs := strncmp_eq_zero_iff (id_bytes id0 ATA_ID_SERNO) (id_bytes id1 ATA_ID_SERNO)
    ATA_ID_SERNO_LEN
  have he := serial_number_eq_nil_iff id0
  have hdn : dev1.dn &&& 1 = dev1.dn % 2 := Nat.and_one_is_mod _
  constructor
  · rintro ⟨h1, h2, h3, h4, h5⟩
    have h1' : (with_id dev1 id1).dn % 2 = 1 := h1
    simp only [with_id] at h1 h2
    have c1 : ¬ (dev1.dn &&& 1 = 0 ∨ dev0.dev_flags.present = false) := by
      rw [hdn]; simp [h2]; omega
    have c2 : strcmp (id_bytes id0 ATA_ID_PROD) (id_bytes id1 ATA_ID_PROD) = 0 := hm.2 h3
    have c3 : strncmp (id_bytes id0 ATA_ID_SERNO) (id_bytes id1 ATA_ID_SERNO)
        ATA_ID_SERNO_LEN = 0 := hs.2 h4
    have c4 : ¬ (id_bytes id0 ATA_ID_SERNO).getD 0 0 = 0 := fun h => h5 (he.2 h)
    simp only [ide_undecoded_slave, with_id, c1, c2, c3, c4, absent, if_false, ne_eq,
      not_true_eq_false]
  · intro hn
    unfold ide_undecoded_slave
    simp only [with_id]
    split_ifs with c1 c2 c3 c4
    · rfl
    · rfl
    · rfl
    · rfl
    · exfalso
      apply hn
      refine ⟨?_, ?_, ?_, ?_, ?_⟩
      · show dev1.dn % 2 = 1
        rw [hdn] at c1
        have : ¬ dev1.dn % 2 = 0 := fun h => c1 (Or.inl h)
        omega
      · show dev0.dev_flags.present = true
        cases hp : dev0.dev_flags.present with
        | true => rfl
        | false => exact absurd (Or.inr hp) c1
      · exact hm.1 (not_not.1 c2)
      · exact hs.1 (not_not.1 c3)
      · exact fun h => c4 (he.1 h)

/-- C1, witness, on the scenario of the specification: with the same model
"SAME-MODEL" and the same serial number "SN0001" on both drives the slave
loses its PRESENT flag. -/
theorem ide_undecoded_slave_spec_witness :
    undecoded (with_id (present_drive 0) (sample_id 0x40 "SAME-MODEL" "SN0001"))
      (with_id (present_drive 1) (sample_id 0x40 "SAME-MODEL" "SN0001"))
      (sample_id 0x40 "SAME-MODEL" "SN0001") (sample_id 0x40 "SAME-MODEL" "SN0001") ∧
    ide_undecoded_slave
        (with_id (present_drive 0) (sample_id 0x40 "SAME-MODEL" "SN0001"))
        (with_id (present_drive 1) (sample_id 0x40 "SAME-MODEL" "SN0001")) =
      some (with_id (present_drive 0) (sample_id 0x40 "SAME-MODEL" "SN0001"),
        absent (with_id (present_drive 1) (sample_id 0x40 "SAME-MODEL" "SN0001"))) :=
  ⟨by decide!,
   (ide_undecoded_slave_spec (present_drive 0) (present_drive 1)
      (sample_id 0x40 "SAME-MODEL" "SN0001") (sample_id 0x40 "SAME-MODEL" "SN0001")).1
      (by decide!)⟩

/-- The other half of the scenario: with an empty serial number on both drives
the slave keeps its PRESENT flag. -/
theorem ide_undecoded_slave_empty_serial :
    ide_undecoded_slave
        (with_id (present_drive 0) (sample_id 0x40 "SAME-MODEL" ""))
        (with_id (present_drive 1) (sample_id 0x40 "SAME-MODEL" "")) =
      some (with_id (present_drive 0) (sample_id 0x40 "SAME-MODEL" ""),
        with_id (present_drive 1) (sample_id 0x40 "SAME-MODEL" "")) :=
  by decide!

/-! ## Drive classification (C2 to C6) -/

/-- The type code extracted by the code is the 5-bit field of the
specification. -/
theorem type_code_eq (id : List Nat) :
    (id.getD ATA_ID_CONFIG 0 >>> 8) &&& 0x1f = device_type id := by
  unfold device_type
  rw [Nat.shiftRight_eq_div_pow]
  exact Nat.and_pow_two_sub_one_eq_mod _ 5

/-- Library `strstr` finds the needle exactly when the haystack string
contains the needle string. -/
theorem strstr_iff (h n : List Nat) : strstr h n = true ↔ cstr n <:+: cstr h := by
  unfold strstr
  rw [List.any_eq_true]
  constructor
  · rintro ⟨t, ht, hp⟩
    rw [List.mem_tails] at ht
    rw [List.isPrefixOf_iff_prefix] at hp
    exact List.infix_iff_prefix_suffix.2 ⟨t, hp, ht⟩
  · intro hi
    obtain ⟨t, hp, ht⟩ := List.infix_iff_prefix_suffix.1 hi
    exact ⟨t, (List.mem_tails _ _).2 ht, List.isPrefixOf_iff_prefix.2 hp⟩

/-- Searching the model bytes for a literal without NUL is the containment of
the specification. -/
theorem strstr_model (id : List Nat) (pat : String) (hp : cstr (lit pat) = lit pat) :
    strstr (id_bytes id ATA_ID_PROD) (lit pat) = true ↔
      contains_text (model_string id) pat := by
  rw [strstr_iff, hp]; rfl

theorem strstr_model_false (id : List Nat) (pat : String) (hp : cstr (lit pat) = lit pat)
    (h : ¬ contains_text (model_string id) pat) :
    strstr (id_bytes id ATA_ID_PROD) (lit pat) = false := by
  cases hs : strstr (id_bytes id ATA_ID_PROD) (lit pat) with
  | false => rfl
  | true => exact absurd ((strstr_model id pat hp).1 hs) h

/-- What `ide_classify_atapi_dev` returns, in terms of its switch. -/
theorem ide_classify_atapi_dev_eq (k : Header) (ppc : Bool) (drive : ide_drive_t)
    (id : List Nat) :
    ∃ d, ide_classify_atapi_dev k ppc (with_id drive id) = some d ∧
      d.media =
        (classify_atapi_switch k ppc (with_id drive id) (id_bytes id ATA_ID_PROD)
          (device_type id)).2 ∧
      d.dev_flags.removable =
        (classify_atapi_switch k ppc (with_id drive id) (id_bytes id ATA_ID_PROD)
          (device_type id)).1.dev_flags.removable ∧
      d.ready_stat = 0 ∧ d.dev_flags.doorlocking = true ∧ d.dev_flags.no_unload = true := by
  simp only [ide_classify_atapi_dev, with_id, type_code_eq]
  split_ifs <;> exact ⟨_, rfl, rfl, rfl, rfl, rfl, rfl⟩

/-- C2, as the code has it: for an ATAPI identify block whose device-type code
is the floppy code (0) and whose model string contains none of "oppy",
"poyp", "ZIP", "CD-ROM", `ide_classify_atapi_dev` sets the removable flag, and
the media becomes CD-ROM only if the drive's media was CD-ROM before the
call; otherwise it becomes floppy. -/
theorem classify_atapi_floppy_code (k : Header) (ppc : Bool) (drive : ide_drive_t)
    (id : List Nat) (htype : device_type id = k.ide_floppy)
    (_h1 : ¬ contains_text (model_string id) "oppy")
    (_h2 : ¬ contains_text (model_string id) "poyp")
    (h3 : ¬ contains_text (model_string id) "ZIP")
    (h4 : ¬ contains_text (model_string id) "CD-ROM") :
    ∃ d, ide_classify_atapi_dev k ppc (with_id drive id) = some d ∧
      d.dev_flags.removable = true ∧
      d.media = if drive.media = k.ide_cdrom then k.ide_cdrom else k.ide_floppy := by
  obtain ⟨d, hd, hmedia, hrem, -, -, -⟩ := ide_classify_atapi_dev_eq k ppc drive id
  refine ⟨d, hd, ?_, ?_⟩
  · rw [hrem]
    simp only [classify_atapi_switch, htype, with_id]
    split_ifs <;> rfl
  · rw [hmedia]
    have hz := strstr_model_false id "ZIP" (by decide) h3
    have hc := strstr_model_false id "CD-ROM" (by decide) h4
    simp only [classify_atapi_switch, htype, with_id, hz, hc]
    by_cases hm : drive.media = k.ide_cdrom <;> simp [hm]

/-- C2, witness: a drive slot whose media is CD-ROM beforehand, with a block of
type code 0 and model "ATAPI 44X". -/
theorem classify_atapi_floppy_code_witness :
    ∃ d, ide_classify_atapi_dev linux_header false
        (with_id (fresh_drive 0x5 0) (sample_id 0 "ATAPI 44X" "")) = some d ∧
      d.dev_flags.removable = true ∧
      d.media = if (fresh_drive 0x5 0).media = linux_header.ide_cdrom
        then linux_header.ide_cdrom else linux_header.ide_floppy :=
  classify_atapi_floppy_code linux_header false (fresh_drive 0x5 0)
    (sample_id 0 "ATAPI 44X" "") (by decide!) (by decide!) (by decide!) (by decide!)
    (by decide!)

/-- C2, as stated, fails: on a drive slot with the initial media code (disk),
a block with type code 0 and the model "ATAPI 44X", which contains none of
the four texts, is classified as floppy, not as CD-ROM. -/
theorem classify_atapi_type0_not_cdrom :
    device_type (sample_id 0 "ATAPI 44X" "") = 0 ∧
    ¬ contains_text (model_string (sample_id 0 "ATAPI 44X" "")) "oppy" ∧
    ¬ contains_text (model_string (sample_id 0 "ATAPI 44X" "")) "poyp" ∧
    ¬ contains_text (model_string (sample_id 0 "ATAPI 44X" "")) "ZIP" ∧
    ¬ contains_text (model_string (sample_id 0 "ATAPI 44X" "")) "CD-ROM" ∧
    (ide_classify_atapi_dev linux_header false
        (with_id (fresh_drive 0x20 0) (sample_id 0 "ATAPI 44X" ""))).map
      (fun d => d.media) = some linux_header.ide_floppy ∧
    linux_header.ide_floppy ≠ linux_header.ide_cdrom := by
  decide!

/-- C3, as the code has it: for a drive whose removable flag is clear and an
ATAPI identify block whose device-type code is the tape code `ide_tape`,
`ide_classify_atapi_dev` leaves the drive with media = tape and the removable
flag still clear. -/
theorem classify_atapi_tape_code (k : Header) (ppc : Bool) (drive : ide_drive_t)
    (id : List Nat) (hk : k.DistinctMedia) (hr : drive.dev_flags.removable = false)
    (htype : device_type id = k.ide_tape) :
    ∃ d, ide_classify_atapi_dev k ppc (with_id drive id) = some d ∧
      d.media = k.ide_tape ∧ d.dev_flags.removable = false := by
  obtain ⟨d, hd, hmedia, hrem, -, -, -⟩ := ide_classify_atapi_dev_eq k ppc drive id
  obtain ⟨-, h2, -, h4, -, -⟩ := hk
  refine ⟨d, hd, ?_, ?_⟩
  · rw [hmedia]
    simp [classify_atapi_switch, htype, Ne.symm h2, Ne.symm h4]
  · rw [hrem]
    simp [classify_atapi_switch, htype, Ne.symm h2, Ne.symm h4, with_id, hr]

/-- C3, witness: type code 1 is the tape code of `include/linux/ide.h`. -/
theorem classify_atapi_tape_code_witness :
    ∃ d, ide_classify_atapi_dev linux_header false
        (with_id (fresh_drive 0x20 0) (sample_id 0x0100 "TAPE" "")) = some d ∧
      d.media = linux_header.ide_tape ∧ d.dev_flags.removable = false :=
  classify_atapi_tape_code linux_header false (fresh_drive 0x20 0)
    (sample_id 0x0100 "TAPE" "") (by decide) (by decide) (by decide!)

/-- C3, as stated, fails: type code 5 is the CD-ROM code; a block with type
code 5 leaves the drive with media = CD-ROM, not tape, and sets the
removable flag of a drive that had it clear. -/
theorem classify_atapi_type5_not_tape :
    device_type (sample_id 0x0500 "TAPE" "") = 5 ∧
    (fresh_drive 0x20 0).dev_flags.removable = false ∧
    (ide_classify_atapi_dev linux_header false
        (with_id (fresh_drive 0x20 0) (sample_id 0x0500 "TAPE" ""))).map
      (fun d => (d.media, d.dev_flags.removable)) = some (linux_header.ide_cdrom, true) ∧
    linux_header.ide_cdrom ≠ linux_header.ide_tape := by
  decide!

/-- The switch of `ide_classify_atapi_dev` for a type code other than the
floppy code, without `CONFIG_PPC`. -/
theorem classify_atapi_switch_other (k : Header) (drive : ide_drive_t) (m : List Nat)
    (t : Nat) (ht : t ≠ k.ide_floppy) :
    classify_atapi_switch k false drive m t =
      if t = k.ide_cdrom then
        ({ drive with dev_flags := { drive.dev_flags with removable := true } }, k.ide_cdrom)
      else if t = k.ide_tape then (drive, t)
      else if t = k.ide_optical then
        ({ drive with dev_flags := { drive.dev_flags with removable := true } }, t)
      else (drive, t) := by
  simp [classify_atapi_switch, ht]

/-- C4: for an ATAPI identify block whose device-type code is not the floppy
code, in a build without `CONFIG_PPC`, `ide_classify_atapi_dev` returns with
the media set to exactly that code; the removable flag is set when the code
is the CD-ROM or the optical code and is unchanged for the tape code and for
every other code. -/
theorem classify_atapi_other_codes (k : Header) (drive : ide_drive_t) (id : List Nat)
    (hk : k.DistinctMedia) (htype : device_type id ≠ k.ide_floppy) :
    ∃ d, ide_classify_atapi_dev k false (with_id drive id) = some d ∧
      d.media = device_type id ∧
      (device_type id = k.ide_cdrom ∨ device_type id = k.ide_optical →
        d.dev_flags.removable = true) ∧
      (device_type id ≠ k.ide_cdrom ∧ device_type id ≠ k.ide_optical →
        d.dev_flags.removable = drive.dev_flags.removable) := by
  obtain ⟨d, hd, hmedia, hrem, -, -, -⟩ := ide_classify_atapi_dev_eq k false drive id
  obtain ⟨-, -, -, -, h5, h6⟩ := hk
  rw [classify_atapi_switch_other k _ _ _ htype] at hmedia hrem
  refine ⟨d, hd, ?_, ?_, ?_⟩
  · rw [hmedia]
    split_ifs with c
    · exact c.symm
    all_goals rfl
  · rw [hrem]
    rintro (c | c)
    · rw [if_pos c]
    · have c1 : device_type id ≠ k.ide_cdrom := fun h => h5 (h.symm.trans c)
      have c2 : device_type id ≠ k.ide_tape := fun h => h6 (h.symm.trans c)
      rw [if_neg c1, if_neg c2, if_pos c]
  · rw [hrem]
    rintro ⟨c1, c2⟩
    rw [if_neg c1, if_neg c2]
    split_ifs <;> rfl

/-- C4, witness: the optical code 7 of `include/linux/ide.h`. -/
theorem classify_atapi_other_codes_witness :
    ∃ d, ide_classify_atapi_dev linux_header false
        (with_id (fresh_drive 0x20 0) (sample_id 0x0700 "MO" "")) = some d ∧
      d.media = device_type (sample_id 0x0700 "MO" "") ∧
      (device_type (sample_id 0x0700 "MO" "") = linux_header.ide_cdrom ∨
          device_type (sample_id 0x0700 "MO" "") = linux_header.ide_optical →
        d.dev_flags.removable = true) ∧
      (device_type (sample_id 0x0700 "MO" "") ≠ linux_header.ide_cdrom ∧
          device_type (sample_id 0x0700 "MO" "") ≠ linux_header.ide_optical →
        d.dev_flags.removable = (fresh_drive 0x20 0).dev_flags.removable) :=
  classify_atapi_other_codes linux_header (fresh_drive 0x20 0) (sample_id 0x0700 "MO" "")
    (by decide) (by decide!)

/-- Bit 7 of a word is set exactly when masking with `1 << 7` leaves
something. -/
theorem and_bit7_ne_zero_iff (x : Nat) : x &&& (1 <<< 7) ≠ 0 ↔ x.testBit 7 = true := by
  have h : (1 : Nat) <<< 7 = 2 ^ 7 := by decide
  rw [h, Nat.and_two_pow]
  cases x.testBit 7 <;> simp

/-- C5: for a drive whose removable flag is clear, `ide_classify_ata_dev` sets
media = disk and sets the removable flag if and only if the block does not
carry the CompactFlash signature and bit 7 of the configuration word is set;
a CompactFlash device is never marked removable. -/
theorem classify_ata_removable (k : Header) (drive : ide_drive_t) (id : List Nat)
    (hr : drive.dev_flags.removable = false) :
    ∃ d, ide_classify_ata_dev k (with_id drive id) = some d ∧
      d.media = k.ide_disk ∧
      (d.dev_flags.removable = true ↔
        (k.ata_id_is_cfa id = false ∧ (id.getD ATA_ID_CONFIG 0).testBit 7 = true)) ∧
      (k.ata_id_is_cfa id = true → d.dev_flags.removable = false) := by
  have hb := and_bit7_ne_zero_iff (id.getD ATA_ID_CONFIG 0)
  simp only [ide_classify_ata_dev, with_id]
  generalize id.getD ATA_ID_CONFIG 0 = x at hb ⊢
  have e : (1 : Nat) <<< 7 = 128 := rfl
  rw [e] at hb ⊢
  cases hc : k.ata_id_is_cfa id <;> cases hu : k.ata_id_has_unload id <;>
    by_cases h7 : x &&& 128 = 0 <;>
    simp [h7, hr] <;> (cases ht : x.testBit 7 <;> simp_all)

/-- C5, witness: a CompactFlash block (configuration word 0x848A, bit 7 set)
is classified as a disk that is not removable. -/
theorem classify_ata_removable_witness :
    ∃ d, ide_classify_ata_dev linux_header
        (with_id (fresh_drive 0x20 0) (sample_id 0x848A "CF CARD" "")) = some d ∧
      d.media = linux_header.ide_disk ∧
      (d.dev_flags.removable = true ↔
        (linux_header.ata_id_is_cfa (sample_id 0x848A "CF CARD" "") = false ∧
          ((sample_id 0x848A "CF CARD" "").getD ATA_ID_CONFIG 0).testBit 7 = true)) ∧
      (linux_header.ata_id_is_cfa (sample_id 0x848A "CF CARD" "") = true →
        d.dev_flags.removable = false) :=
  classify_ata_removable linux_header (fresh_drive 0x20 0) (sample_id 0x848A "CF CARD" "")
    (by decide)

/-- C6: after `ide_classify_atapi_dev`, for every drive, identify block and
build, `ready_stat` is 0 and the flags `IDE_DFLAG_DOORLOCKING` and
`IDE_DFLAG_NO_UNLOAD` are set. -/
theorem classify_atapi_common (k : Header) (ppc : Bool) (drive : ide_drive_t)
    (id : List Nat) :
    ∃ d, ide_classify_atapi_dev k ppc (with_id drive id) = some d ∧
      d.ready_stat = 0 ∧ d.dev_flags.doorlocking = true ∧
      d.dev_flags.no_unload = true := by
  obtain ⟨d, hd, -, -, h1, h2, h3⟩ := ide_classify_atapi_dev_eq k ppc drive id
  exact ⟨d, hd, h1, h2, h3⟩

/-! ## Probing one drive (C7, C8) -/

/-- C7 fails on the `return 4` that follows the identify attempts: for the
slave of a port whose status register reads `ATA_BUSY | ATA_DRDY`, `do_probe`
with the ATAPI identify command selects the slave, returns 4, and the latest
write to the device-select register is the slave's select value 0xB0, not
the master's 0xA0. -/
theorem do_probe_leaves_slave_selected :
    (do_probe linux_header false stuck_env
        (sample_port 0 14 [fresh_drive 0x20 0, sample_slave]) sample_slave
        ATA_CMD_ID_ATAPI world0).map (fun r => (r.1, last_select r.2.2.2)) =
      some (4, some 0xB0) ∧
    sample_slave.select = 0xB0 ∧ (fresh_drive 0x20 0).select = 0xA0 ∧
    sample_slave.dn = 1 := by
  decide!

/-- C8: for a drive with `IDE_DFLAG_NOPROBE` set and `IDE_DFLAG_PRESENT` clear,
`probe_for_drive` returns 0, the port is as before, no bus operation is
recorded, and the drive is still absent. -/
theorem probe_for_drive_noprobe (k : Header) (ppc : Bool) (e : Env) (fuel : Nat)
    (hwif : ide_hwif_t) (drive : ide_drive_t) (w : World)
    (hn : drive.dev_flags.noprobe = true) (hp : drive.dev_flags.present = false) :
    ∃ d w', probe_for_drive k ppc e fuel hwif drive w = some (0, hwif, d, w') ∧
      w'.trace = w.trace ∧ w'.jiffies = w.jiffies ∧ w'.calls = w.calls ∧
      d.dev_flags.present = false ∧ d.dev_flags.noprobe = true := by
  unfold probe_for_drive
  by_cases ha : e.alloc_ok w.allocs = false
  · simp only [ha, hp, hn, if_true]
    exact ⟨_, _, rfl, rfl, rfl, rfl, rfl, rfl⟩
  · simp only [ha, hp, hn, if_false, if_true, Bool.true_eq_false, probe_finish]
    exact ⟨_, _, rfl, rfl, rfl, rfl, rfl, rfl⟩

/-- C8, witness: a fresh slave slot with probing suppressed on the stuck bus. -/
theorem probe_for_drive_noprobe_witness :
    ∃ d w', probe_for_drive linux_header false stuck_env 1
        (sample_port 0 14 [])
        { fresh_drive 0x20 1 with
          dev_flags := { (fresh_drive 0x20 1).dev_flags with noprobe := true } } world0 =
        some (0, sample_port 0 14 [], d, w') ∧
      w'.trace = world0.trace ∧ w'.jiffies = world0.jiffies ∧ w'.calls = world0.calls ∧
      d.dev_flags.present = false ∧ d.dev_flags.noprobe = true :=
  probe_for_drive_noprobe linux_header false stuck_env 1 (sample_port 0 14 [])
    { fresh_drive 0x20 1 with
      dev_flags := { (fresh_drive 0x20 1).dev_flags with noprobe := true } } world0
    (by decide) (by decide)

/-! ## The busy wait ends within its fuel -/

theorem msleep_jiffies (k : Header) (e : Env) (ms : Nat) (w : World) :
    w.jiffies + 1 ≤ (msleep k e ms w).jiffies := by
  simp only [msleep]; omega

theorem poll_jiffies (e : Env) (a : Bool) (w : World) :
    (if a then read_altstatus e w else read_status e w).2.jiffies = w.jiffies := by
  cases a <;> rfl

theorem ide_busy_sleep_loop_step (k : Header) (e : Env) (a : Bool) (deadline fuel : Nat)
    (w : World) :
    ide_busy_sleep_loop k e a deadline (fuel + 1) w =
      if (if a then read_altstatus e (msleep k e 50 w) else read_status e (msleep k e 50 w)).1
          &&& ATA_BUSY = 0 then
        (0, (if a then read_altstatus e (msleep k e 50 w) else read_status e (msleep k e 50 w)).2)
      else if (if a then read_altstatus e (msleep k e 50 w)
          else read_status e (msleep k e 50 w)).2.jiffies < deadline then
        ide_busy_sleep_loop k e a deadline fuel
          (if a then read_altstatus e (msleep k e 50 w) else read_status e (msleep k e 50 w)).2
      else
        (1, (if a then read_altstatus e (msleep k e 50 w) else read_status e (msleep k e 50 w)).2) := by
  rw [ide_busy_sleep_loop]

/-- The fuel of the busy-wait loop is never used up: once it covers the time
left until the deadline, more fuel gives the same result. -/
theorem ide_busy_sleep_loop_fuel (k : Header) (e : Env) (a : Bool) (deadline : Nat) :
    ∀ (f : Nat) (w : World) (n : Nat), deadline ≤ f + 1 + w.jiffies →
      ide_busy_sleep_loop k e a deadline (f + 1 + n) w =
        ide_busy_sleep_loop k e a deadline (f + 1) w := by
  intro f
  induction f with
  | zero =>
    intro w n h
    have hj := msleep_jiffies k e 50 w
    have hp := poll_jiffies e a (msleep k e 50 w)
    rw [show 0 + 1 + n = n + 1 by omega, ide_busy_sleep_loop_step, ide_busy_sleep_loop_step]
    have hlt : ¬ (if a then read_altstatus e (msleep k e 50 w)
        else read_status e (msleep k e 50 w)).2.jiffies < deadline := by
      rw [hp]; omega
    simp only [hlt, if_false]
  | succ g ih =>
    intro w n h
    have hj := msleep_jiffies k e 50 w
    have hp := poll_jiffies e a (msleep k e 50 w)
    rw [show g + 1 + 1 + n = (g + 1 + n) + 1 by omega, ide_busy_sleep_loop_step,
      ide_busy_sleep_loop_step k e a deadline (g + 1)]
    rw [ih _ n (by rw [hp]; omega)]

/-- The fuel `ide_busy_sleep` gives its loop is enough: any larger amount gives
the same result. -/
theorem ide_busy_sleep_fuel (k : Header) (e : Env) (timeout : Nat) (a : Bool) (w : World)
    (n : Nat) :
    ide_busy_sleep_loop k e a (timeout + w.jiffies) (timeout + 1 + n) w =
      ide_busy_sleep k e timeout a w :=
  ide_busy_sleep_loop_fuel k e a (timeout + w.jiffies) timeout w n (by omega)

/-! ## Which drive `do_probe` leaves selected -/

theorem last_select_select (w : World) (v : Nat) : last_select (w.op (.select v)) = some v := rfl

theorem last_select_msleep (k : Header) (e : Env) (ms : Nat) (w : World) :
    last_select (msleep k e ms w) = last_select w := rfl

theorem last_select_read_status (e : Env) (w : World) :
    last_select (read_status e w).2 = last_select w := rfl

theorem last_select_read_altstatus (e : Env) (w : World) :
    last_select (read_altstatus e w).2 = last_select w := rfl

theorem last_select_poll (e : Env) (a : Bool) (w : World) :
    last_select (if a then read_altstatus e w else read_status e w).2 = last_select w := by
  cases a <;> rfl

theorem last_select_busy_sleep_loop (k : Header) (e : Env) (a : Bool) (deadline : Nat) :
    ∀ (fuel : Nat) (w : World),
      last_select (ide_busy_sleep_loop k e a deadline fuel w).2 = last_select w := by
  intro fuel
  induction fuel with
  | zero => intro w; rfl
  | succ f ih =>
    intro w
    rw [ide_busy_sleep_loop_step]
    have hp : last_select (if a then read_altstatus e (msleep k e 50 w)
        else read_status e (msleep k e 50 w)).2 = last_select w := by
      rw [last_select_poll, last_select_msleep]
    generalize (if a then read_altstatus e (msleep k e 50 w)
        else read_status e (msleep k e 50 w)) = p at hp ⊢
    split_ifs
    · exact hp
    · rw [ih]; exact hp
    · exact hp

theorem last_select_busy_sleep (k : Header) (e : Env) (timeout : Nat) (a : Bool) (w : World) :
    last_select (ide_busy_sleep k e timeout a w).2 = last_select w :=
  last_select_busy_sleep_loop k e a _ _ w

theorem last_select_identify_send (k : Header) (e : Env) (hwif : ide_hwif_t) (cmd : Nat)
    (w : World) : last_select (identify_send k e hwif cmd w).2 = last_select w := by
  unfold identify_send
  dsimp only
  split_ifs <;> rfl

theorem classify_atapi_switch_select (k : Header) (ppc : Bool) (drive : ide_drive_t)
    (m : List Nat) (t : Nat) :
    (classify_atapi_switch k ppc drive m t).1.select = drive.select ∧
    (classify_atapi_switch k ppc drive m t).1.dn = drive.dn := by
  unfold classify_atapi_switch
  dsimp only
  split_ifs <;> exact ⟨rfl, rfl⟩

theorem ide_classify_atapi_dev_select (k : Header) (ppc : Bool) (drive d : ide_drive_t)
    (h : ide_classify_atapi_dev k ppc drive = some d) :
    d.select = drive.select ∧ d.dn = drive.dn := by
  unfold ide_classify_atapi_dev at h
  cases hid : drive.id with
  | none => rw [hid] at h; cases h
  | some id =>
    rw [hid] at h
    obtain ⟨f1, f2⟩ := classify_atapi_switch_select k ppc drive (id_bytes id ATA_ID_PROD)
      ((id.getD ATA_ID_CONFIG 0 >>> 8) &&& 0x1f)
    dsimp only at h
    split_ifs at h <;>
      (simp only [Option.some.injEq] at h; subst h; exact ⟨f1, f2⟩)

theorem ide_classify_ata_dev_select (k : Header) (drive d : ide_drive_t)
    (h : ide_classify_ata_dev k drive = some d) :
    d.select = drive.select ∧ d.dn = drive.dn := by
  unfold ide_classify_ata_dev at h
  cases hid : drive.id with
  | none => rw [hid] at h; cases h
  | some id =>
    rw [hid] at h
    dsimp only at h
    split_ifs at h <;>
      (simp only [Option.some.injEq] at h; subst h; exact ⟨rfl, rfl⟩)

theorem do_identify_select (k : Header) (ppc : Bool) (e : Env) (drive : ide_drive_t)
    (cmd : Nat) (w : World) (d : ide_drive_t) (w' : World)
    (h : do_identify k ppc e drive cmd w = some (d, w')) :
    last_select w' = last_select w ∧ d.select = drive.select ∧ d.dn = drive.dn := by
  unfold do_identify at h
  cases hid : drive.id with
  | none => rw [hid] at h; cases h
  | some id =>
    rw [hid] at h
    dsimp only at h
    generalize do_identify_fix k cmd (words256 (e.data w.trace.length)) = id1 at h
    split_ifs at h
    · simp only [Option.some.injEq, Prod.mk.injEq] at h
      obtain ⟨h1, h2⟩ := h
      subst h1; subst h2
      exact ⟨rfl, rfl, rfl⟩
    · simp only [Option.map_eq_some', Prod.mk.injEq] at h
      obtain ⟨d2, hd2, h1, h2⟩ := h
      subst h1; subst h2
      obtain ⟨a, b⟩ := ide_classify_atapi_dev_select k ppc _ _ hd2
      exact ⟨rfl, a, b⟩
    · simp only [Option.map_eq_some', Prod.mk.injEq] at h
      obtain ⟨d2, hd2, h1, h2⟩ := h
      subst h1; subst h2
      obtain ⟨a, b⟩ := ide_classify_ata_dev_select k _ _ hd2
      exact ⟨rfl, a, b⟩

theorem actual_try_to_identify_select (k : Header) (ppc : Bool) (e : Env) (hwif : ide_hwif_t)
    (drive : ide_drive_t) (cmd : Nat) (w : World) (rc : Nat) (d : ide_drive_t) (w' : World)
    (h : actual_try_to_identify k ppc e hwif drive cmd w = some (rc, d, w')) :
    last_select w' = last_select w ∧ d.select = drive.select ∧ d.dn = drive.dn ∧ rc ≤ 2 := by
  unfold actual_try_to_identify at h
  dsimp only at h
  have hs := last_select_identify_send k e hwif cmd w
  have hb := last_select_busy_sleep k e (identify_timeout k cmd) (identify_send k e hwif cmd w).1
    (identify_send k e hwif cmd w).2
  generalize identify_send k e hwif cmd w = r at h hs hb
  generalize ide_busy_sleep k e (identify_timeout k cmd) r.1 r.2 = b at h hb
  split_ifs at h
  · simp only [Option.some.injEq, Prod.mk.injEq] at h
    obtain ⟨h1, h2, h3⟩ := h
    subst h1; subst h2; subst h3
    exact ⟨hb.trans hs, rfl, rfl, by omega⟩
  · split at h
    · cases h
    · rename_i d1 w1 heq
      simp only [Option.some.injEq, Prod.mk.injEq] at h
      obtain ⟨h1, h2, h3⟩ := h
      subst h1; subst h2; subst h3
      obtain ⟨a1, a2, a3⟩ := do_identify_select _ _ _ _ _ _ _ _ heq
      refine ⟨?_, a2, a3, by omega⟩
      rw [last_select_read_status, a1, last_select_read_status, last_select_msleep]
      exact hb.trans hs
  · simp only [Option.some.injEq, Prod.mk.injEq] at h
    obtain ⟨h1, h2, h3⟩ := h
    subst h1; subst h2; subst h3
    refine ⟨?_, rfl, rfl, by omega⟩
    rw [last_select_read_status, last_select_msleep]
    exact hb.trans hs

theorem probe_irq_done_frame (e : Env) (hwif : ide_hwif_t) (w : World) :
    last_select (probe_irq_done e hwif w).2 = last_select w ∧
    (probe_irq_done e hwif w).1.devices = hwif.devices := by
  unfold probe_irq_done
  dsimp only
  split_ifs <;> exact ⟨rfl, rfl⟩

theorem try_to_identify_select (k : Header) (ppc : Bool) (e : Env) (hwif : ide_hwif_t)
    (drive : ide_drive_t) (cmd : Nat) (w : World) (rc : Nat) (hw : ide_hwif_t)
    (d : ide_drive_t) (w' : World)
    (h : try_to_identify k ppc e hwif drive cmd w = some (rc, hw, d, w')) :
    last_select w' = last_select w ∧ d.select = drive.select ∧ d.dn = drive.dn ∧ rc ≤ 2 ∧
      hw.devices = hwif.devices := by
  unfold try_to_identify at h
  dsimp only at h
  have hw0 : last_select (if hwif.ctl_addr ≠ 0 then w.op (.set_irq (autoprobe hwif)) else w) =
      last_select w := by
    split_ifs <;> rfl
  generalize (if hwif.ctl_addr ≠ 0 then w.op (.set_irq (autoprobe hwif)) else w) = w0 at h hw0
  split at h
  · cases h
  · rename_i rc1 d1 w1 heq
    obtain ⟨a1, a2, a3, a4⟩ := actual_try_to_identify_select _ _ _ _ _ _ _ _ _ _ heq
    obtain ⟨p1, p2⟩ := probe_irq_done_frame e hwif w1
    split_ifs at h
    · simp only [Option.some.injEq, Prod.mk.injEq] at h
      obtain ⟨h1, h2, h3, h4⟩ := h
      subst h1; subst h2; subst h3; subst h4
      exact ⟨p1.trans (a1.trans hw0), a2, a3, a4, p2⟩
    · simp only [Option.some.injEq, Prod.mk.injEq] at h
      obtain ⟨h1, h2, h3, h4⟩ := h
      subst h1; subst h2; subst h3; subst h4
      exact ⟨a1.trans hw0, a2, a3, a4, rfl⟩

theorem do_probe_after_identify_select (k : Header) (ppc : Bool) (e : Env) (rc : Nat)
    (hwif : ide_hwif_t) (drive : ide_drive_t) (cmd : Nat) (w : World) (r : Option Nat)
    (hw : ide_hwif_t) (d : ide_drive_t) (w' : World)
    (hsel : last_select w = some drive.select) (hrc : rc ≤ 2)
    (h : do_probe_after_identify k ppc e rc hwif drive cmd w = some (r, hw, d, w')) :
    last_select w' = some drive.select ∧ d.select = drive.select ∧ d.dn = drive.dn ∧
      (∀ rc', r = some rc' → rc' ≤ 2) ∧ hw.devices = hwif.devices := by
  unfold do_probe_after_identify at h
  dsimp only at h
  split_ifs at h
  · simp only [Option.some.injEq, Prod.mk.injEq] at h
    obtain ⟨h1, h2, h3, h4⟩ := h
    subst h1; subst h2; subst h3; subst h4
    exact ⟨hsel, rfl, rfl, fun rc' hr => (by cases hr), rfl⟩
  · split at h
    · cases h
    · rename_i rc1 hw1 d1 w1 heq
      simp only [Option.some.injEq, Prod.mk.injEq] at h
      obtain ⟨h1, h2, h3, h4⟩ := h
      subst h1; subst h2; subst h3; subst h4
      obtain ⟨a1, a2, a3, a4, a5⟩ := try_to_identify_select _ _ _ _ _ _ _ _ _ _ _ heq
      refine ⟨?_, a2, a3, fun rc' hr => ?_, a5⟩
      · rw [last_select_read_status, a1, last_select_busy_sleep]
        rfl
      · simp only [Option.some.injEq] at hr; omega
  · simp only [Option.some.injEq, Prod.mk.injEq] at h
    obtain ⟨h1, h2, h3, h4⟩ := h
    subst h1; subst h2; subst h3; subst h4
    refine ⟨hsel, rfl, rfl, fun rc' hr => ?_, rfl⟩
    simp only [Option.some.injEq] at hr; omega

theorem do_probe_identify_select (k : Header) (ppc : Bool) (e : Env)
    (hwif : ide_hwif_t) (drive : ide_drive_t) (cmd : Nat) (w : World) (r : Option Nat)
    (hw : ide_hwif_t) (d : ide_drive_t) (w' : World)
    (hsel : last_select w = some drive.select)
    (h : do_probe_identify k ppc e hwif drive cmd w = some (r, hw, d, w')) :
    last_select w' = some drive.select ∧ d.select = drive.select ∧ d.dn = drive.dn ∧
      (∀ rc', r = some rc' → rc' ≤ 2) ∧ hw.devices = hwif.devices := by
  unfold do_probe_identify at h
  split at h
  · cases h
  · rename_i rc1 hw1 d1 w1 heq
    obtain ⟨a1, a2, a3, a4, a5⟩ := try_to_identify_select _ _ _ _ _ _ _ _ _ _ _ heq
    split_ifs at h
    · split at h
      · cases h
      · rename_i rc2 hw2 d2 w2 heq2
        obtain ⟨b1, b2, b3, b4, b5⟩ := try_to_identify_select _ _ _ _ _ _ _ _ _ _ _ heq2
        obtain ⟨c1, c2, c3, c4, c5⟩ := do_probe_after_identify_select k ppc e rc2 hw2 d2 cmd w2
          r hw d w' (by rw [b1, a1, hsel, b2, a2]) b4 h
        exact ⟨by rw [c1, b2, a2], by rw [c2, b2, a2], by rw [c3, b3, a3], c4,
          by rw [c5, b5, a5]⟩
    · obtain ⟨c1, c2, c3, c4, c5⟩ := do_probe_after_identify_select k ppc e rc1 hw1 d1 cmd w1
        r hw d w' (by rw [a1, hsel, a2]) a4 h
      exact ⟨by rw [c1, a2], by rw [c2, a2], by rw [c3, a3], c4, by rw [c5, a5]⟩

theorem last_select_dev0_select (hwif : ide_hwif_t) (d0 : ide_drive_t)
    (rest : List ide_drive_t) (hdev : hwif.devices = d0 :: rest) (w : World) :
    last_select (dev0_select hwif w) = some d0.select := by
  simp only [dev0_select, hdev, List.head?_cons]
  rfl

theorem last_select_do_probe_exit (k : Header) (e : Env) (hwif : ide_hwif_t)
    (drive : ide_drive_t) (d0 : ide_drive_t) (rest : List ide_drive_t)
    (hdev : hwif.devices = d0 :: rest) (w : World)
    (hsel : last_select w = some drive.select) :
    last_select (do_probe_exit k e hwif drive w) =
      some (if drive.dn &&& 1 ≠ 0 then d0.select else drive.select) := by
  unfold do_probe_exit
  split_ifs
  · dsimp only
    rw [last_select_read_status, last_select_msleep, last_select_dev0_select hwif d0 rest hdev]
  · exact hsel

/-- Where `do_probe` leaves the device-select register.  Either it returns 4
without touching the bus; or it returns 4 after the identify attempts, with
the probed drive still selected; or it returns 0 to 3, with drive 0
selected if the probed drive is a slave (`dn` odd) and the probed drive
itself otherwise. -/
theorem do_probe_last_select (k : Header) (ppc : Bool) (e : Env) (hwif : ide_hwif_t)
    (drive : ide_drive_t) (cmd : Nat) (w : World) (rc : Nat) (hw : ide_hwif_t)
    (d : ide_drive_t) (w' : World) (d0 : ide_drive_t) (rest : List ide_drive_t)
    (hdev : hwif.devices = d0 :: rest)
    (h : do_probe k ppc e hwif drive cmd w = some (rc, hw, d, w')) :
    (rc = 4 ∧ w' = w) ∨
    (rc = 4 ∧ last_select w' = some drive.select) ∨
    (rc ≤ 3 ∧ last_select w' =
      some (if drive.dn &&& 1 ≠ 0 then d0.select else drive.select)) := by
  unfold do_probe at h
  dsimp only at h
  have hsel0 : last_select (msleep k e 50 (SELECT_DRIVE drive (msleep k e 50 w))) =
      some drive.select := rfl
  generalize msleep k e 50 (SELECT_DRIVE drive (msleep k e 50 w)) = w1 at h hsel0
  have hsel1 : last_select (ide_read_device e w1).2 = some drive.select := hsel0
  generalize ide_read_device e w1 = dev at h hsel1
  have hsel2 : last_select (read_status e dev.2).2 = some drive.select := hsel1
  generalize read_status e dev.2 = s at h hsel2
  split_ifs at h with c1 c2 c3 c4
  · simp only [Option.some.injEq, Prod.mk.injEq] at h
    obtain ⟨h1, h2, h3, h4⟩ := h
    exact Or.inl ⟨h1.symm, h4.symm⟩
  · simp only [Option.some.injEq, Prod.mk.injEq] at h
    obtain ⟨h1, h2, h3, h4⟩ := h
    subst h1; subst h4
    refine Or.inr (Or.inr ⟨by omega, ?_⟩)
    rw [if_pos c3, last_select_msleep, last_select_dev0_select hwif d0 rest hdev]
  · simp only [Option.some.injEq, Prod.mk.injEq] at h
    obtain ⟨h1, h2, h3, h4⟩ := h
    subst h1; subst h4
    refine Or.inr (Or.inr ⟨by omega, ?_⟩)
    rw [if_neg c3]; exact hsel1
  · split at h
    · cases h
    · rename_i hw1 d1 w2 heq
      simp only [Option.some.injEq, Prod.mk.injEq] at h
      obtain ⟨h1, h2, h3, h4⟩ := h
      subst h1; subst h4
      obtain ⟨a1, a2, a3, a4, a5⟩ := do_probe_identify_select _ _ _ _ _ _ _ _ _ _ _ hsel2 heq
      exact Or.inr (Or.inl ⟨rfl, a1⟩)
    · rename_i rc1 hw1 d1 w2 heq
      simp only [Option.some.injEq, Prod.mk.injEq] at h
      obtain ⟨h1, h2, h3, h4⟩ := h
      subst h1; subst h2; subst h3; subst h4
      obtain ⟨a1, a2, a3, a4, a5⟩ := do_probe_identify_select _ _ _ _ _ _ _ _ _ _ _ hsel2 heq
      have hr := a4 rc1 rfl
      refine Or.inr (Or.inr ⟨by omega, ?_⟩)
      rw [last_select_do_probe_exit k e hw1 d1 d0 rest (a5.trans hdev) w2 (by rw [a1, a2]),
        a3, a2]
  · split at h
    · cases h
    · rename_i hw1 d1 w2 heq
      simp only [Option.some.injEq, Prod.mk.injEq] at heq
      obtain ⟨h1, -⟩ := heq
      cases h1
    · rename_i rc1 hw1 d1 w2 heq
      simp only [Option.some.injEq, Prod.mk.injEq] at heq h
      obtain ⟨g1, g2, g3, g4⟩ := heq
      obtain ⟨h1, h2, h3, h4⟩ := h
      subst g1; subst g2; subst g3; subst g4
      subst h1; subst h4
      refine Or.inr (Or.inr ⟨by omega, ?_⟩)
      exact last_select_do_probe_exit k e hwif drive d0 rest hdev s.2 hsel2

/-! ## The per-drive probe always returns -/

theorem classify_atapi_switch_frame (k : Header) (ppc : Bool) (drive : ide_drive_t)
    (m : List Nat) (t : Nat) :
    (classify_atapi_switch k ppc drive m t).1.id = drive.id ∧
    (classify_atapi_switch k ppc drive m t).1.dev_flags.present = drive.dev_flags.present := by
  unfold classify_atapi_switch
  dsimp only
  split_ifs <;> exact ⟨rfl, rfl⟩

theorem ide_classify_atapi_dev_frame (k : Header) (ppc : Bool) (drive : ide_drive_t)
    (id : List Nat) (h : drive.id = some id) :
    ∃ d, ide_classify_atapi_dev k ppc drive = some d ∧ d.id = some id ∧
      d.dev_flags.present = drive.dev_flags.present := by
  obtain ⟨f1, f2⟩ := classify_atapi_switch_frame k ppc drive (id_bytes id ATA_ID_PROD)
    ((id.getD ATA_ID_CONFIG 0 >>> 8) &&& 0x1f)
  simp only [ide_classify_atapi_dev, h]
  split_ifs <;> exact ⟨_, rfl, f1.trans h, f2⟩

theorem ide_classify_ata_dev_frame (k : Header) (drive : ide_drive_t)
    (id : List Nat) (h : drive.id = some id) :
    ∃ d, ide_classify_ata_dev k drive = some d ∧ d.id = some id ∧
      d.dev_flags.present = drive.dev_flags.present := by
  simp only [ide_classify_ata_dev, h]
  split_ifs <;> first | exact ⟨_, rfl, h, rfl⟩ | exact ⟨_, rfl, rfl, rfl⟩

theorem do_identify_inv (k : Header) (ppc : Bool) (e : Env) (drive : ide_drive_t) (cmd : Nat)
    (w : World) (h : drive.id ≠ none) :
    ∃ d w', do_identify k ppc e drive cmd w = some (d, w') ∧ probe_inv d := by
  obtain ⟨id0, hid⟩ := Option.ne_none_iff_exists'.1 h
  unfold do_identify
  rw [hid]
  dsimp only
  generalize do_identify_fix k cmd (words256 (e.data w.trace.length)) = id1
  split_ifs with hn hc
  · exact ⟨_, _, rfl, _, rfl, fun hp => by simp at hp⟩
  · obtain ⟨d, hd, hid', hp'⟩ := ide_classify_atapi_dev_frame k ppc
      { drive with
        dev_flags := { drive.dev_flags with id_read := true, present := true, dead := false },
        id := some id1 } id1 rfl
    refine ⟨d, w.op .input_data, ?_, id1, hid', fun _ => ?_⟩
    · exact congrArg (Option.map fun d => (d, w.op .input_data)) hd
    · simpa using hn
  · obtain ⟨d, hd, hid', hp'⟩ := ide_classify_ata_dev_frame k
      { drive with
        dev_flags := { drive.dev_flags with id_read := true, present := true, dead := false },
        id := some id1 } id1 rfl
    refine ⟨d, w.op .input_data, ?_, id1, hid', fun _ => ?_⟩
    · exact congrArg (Option.map fun d => (d, w.op .input_data)) hd
    · simpa using hn

theorem do_identify_ne_none (k : Header) (ppc : Bool) (e : Env) (drive : ide_drive_t)
    (cmd : Nat) (w : World) (h : drive.id ≠ none) :
    do_identify k ppc e drive cmd w ≠ none := by
  obtain ⟨d, w', hd, -⟩ := do_identify_inv k ppc e drive cmd w h
  rw [hd]; simp

theorem do_identify_some_inv (k : Header) (ppc : Bool) (e : Env) (drive : ide_drive_t)
    (cmd : Nat) (w : World) (d : ide_drive_t) (w' : World)
    (h : do_identify k ppc e drive cmd w = some (d, w')) : probe_inv d := by
  have hid : drive.id ≠ none := by
    intro hn
    simp [do_identify, hn] at h
  obtain ⟨d2, w2, hd, hinv⟩ := do_identify_inv k ppc e drive cmd w hid
  rw [h] at hd
  simp only [Option.some.injEq, Prod.mk.injEq] at hd
  rw [hd.1]
  exact hinv

theorem probe_inv_id (drive : ide_drive_t) (h : probe_inv drive) : drive.id ≠ none := by
  obtain ⟨id, hid, -⟩ := h
  rw [hid]; simp

theorem actual_try_to_identify_inv (k : Header) (ppc : Bool) (e : Env) (hwif : ide_hwif_t)
    (drive : ide_drive_t) (cmd : Nat) (w : World) (h : probe_inv drive) :
    ∃ rc d w', actual_try_to_identify k ppc e hwif drive cmd w = some (rc, d, w') ∧
      probe_inv d := by
  have hid := probe_inv_id drive h
  unfold actual_try_to_identify
  dsimp only
  split_ifs
  · exact ⟨_, _, _, rfl, h⟩
  · split
    · rename_i heq
      exact absurd heq (do_identify_ne_none k ppc e drive cmd _ hid)
    · rename_i heq
      exact ⟨_, _, _, rfl, do_identify_some_inv _ _ _ _ _ _ _ _ heq⟩
  · exact ⟨_, _, _, rfl, h⟩

theorem try_to_identify_inv (k : Header) (ppc : Bool) (e : Env) (hwif : ide_hwif_t)
    (drive : ide_drive_t) (cmd : Nat) (w : World) (h : probe_inv drive) :
    ∃ rc hw d w', try_to_identify k ppc e hwif drive cmd w = some (rc, hw, d, w') ∧
      probe_inv d ∧ hw.devices = hwif.devices := by
  unfold try_to_identify
  dsimp only
  obtain ⟨rc, d, w', hd, hinv⟩ := actual_try_to_identify_inv k ppc e hwif drive cmd
    (if hwif.ctl_addr ≠ 0 then w.op (.set_irq (autoprobe hwif)) else w) h
  rw [hd]
  dsimp only
  split_ifs
  · refine ⟨_, _, _, _, rfl, hinv, ?_⟩
    unfold probe_irq_done
    dsimp only
    split_ifs <;> rfl
  · exact ⟨_, _, _, _, rfl, hinv, rfl⟩

theorem do_probe_after_identify_inv (k : Header) (ppc : Bool) (e : Env) (rc : Nat)
    (hwif : ide_hwif_t) (drive : ide_drive_t) (cmd : Nat) (w : World) (h : probe_inv drive) :
    ∃ r hw d w', do_probe_after_identify k ppc e rc hwif drive cmd w = some (r, hw, d, w') ∧
      probe_inv d ∧ hw.devices = hwif.devices := by
  unfold do_probe_after_identify
  dsimp only
  split_ifs
  · exact ⟨_, _, _, _, rfl, h, rfl⟩
  · obtain ⟨rc', hw, d, w', hd, hinv, hdev⟩ := try_to_identify_inv k ppc e hwif drive cmd
      (ide_busy_sleep k e (WAIT_WORSTCASE k) false
        ((msleep k e 50 (SELECT_DRIVE drive (msleep k e 50 (read_status e w).2))).op
          (.exec_command ATA_CMD_DEV_RESET))).2 h
    rw [hd]
    exact ⟨_, _, _, _, rfl, hinv, hdev⟩
  · exact ⟨_, _, _, _, rfl, h, rfl⟩

theorem do_probe_identify_inv (k : Header) (ppc : Bool) (e : Env)
    (hwif : ide_hwif_t) (drive : ide_drive_t) (cmd : Nat) (w : World) (h : probe_inv drive) :
    ∃ r hw d w', do_probe_identify k ppc e hwif drive cmd w = some (r, hw, d, w') ∧
      probe_inv d ∧ hw.devices = hwif.devices := by
  unfold do_probe_identify
  obtain ⟨rc1, hw1, d1, w1, e1, i1, v1⟩ := try_to_identify_inv k ppc e hwif drive cmd w h
  rw [e1]
  dsimp only
  split_ifs
  · obtain ⟨rc2, hw2, d2, w2, e2, i2, v2⟩ := try_to_identify_inv k ppc e hw1 d1 cmd w1 i1
    rw [e2]
    dsimp only
    obtain ⟨r, hw, d, w', e3, i3, v3⟩ := do_probe_after_identify_inv k ppc e rc2 hw2 d2 cmd w2 i2
    exact ⟨r, hw, d, w', e3, i3, v3.trans (v2.trans v1)⟩
  · obtain ⟨r, hw, d, w', e3, i3, v3⟩ := do_probe_after_identify_inv k ppc e rc1 hw1 d1 cmd w1 i1
    exact ⟨r, hw, d, w', e3, i3, v3.trans v1⟩

theorem do_probe_inv (k : Header) (ppc : Bool) (e : Env)
    (hwif : ide_hwif_t) (drive : ide_drive_t) (cmd : Nat) (w : World) (h : probe_inv drive) :
    ∃ rc hw d w', do_probe k ppc e hwif drive cmd w = some (rc, hw, d, w') ∧
      probe_inv d ∧ hw.devices = hwif.devices := by
  unfold do_probe
  dsimp only
  split_ifs
  · exact ⟨_, _, _, _, rfl, h, rfl⟩
  · exact ⟨_, _, _, _, rfl, h, rfl⟩
  · exact ⟨_, _, _, _, rfl, h, rfl⟩
  · obtain ⟨r, hw, d, w', e3, i3, v3⟩ := do_probe_identify_inv k ppc e hwif drive cmd
      (read_status e (ide_read_device e (msleep k e 50 (SELECT_DRIVE drive (msleep k e 50 w)))).2).2 h
    rw [e3]
    cases r with
    | none => exact ⟨_, _, _, _, rfl, i3, v3⟩
    | some rc => exact ⟨_, _, _, _, rfl, i3, v3⟩
  · exact ⟨_, _, _, _, rfl, h, rfl⟩

theorem probe_both_inv (k : Header) (ppc : Bool) (e : Env)
    (hwif : ide_hwif_t) (drive : ide_drive_t) (w : World) (h : probe_inv drive) :
    ∃ hw d w', probe_both k ppc e hwif drive w = some (hw, d, w') ∧
      probe_inv d ∧ hw.devices = hwif.devices := by
  unfold probe_both
  obtain ⟨rc1, hw1, d1, w1, e1, i1, v1⟩ := do_probe_inv k ppc e hwif drive ATA_CMD_ID_ATA w h
  rw [e1]
  dsimp only
  split_ifs
  · obtain ⟨rc2, hw2, d2, w2, e2, i2, v2⟩ := do_probe_inv k ppc e hw1 d1 ATA_CMD_ID_ATAPI w1 i1
    rw [e2]
    exact ⟨_, _, _, rfl, i2, v2.trans v1⟩
  · exact ⟨_, _, _, rfl, i1, v1⟩

/-- Under the invariant the `goto retry` is never taken: one pass is enough. -/
theorem probe_retry_once (k : Header) (ppc : Bool) (e : Env) (fuel : Nat)
    (hwif : ide_hwif_t) (drive : ide_drive_t) (w : World) (h : probe_inv drive) :
    ∃ b hw d w', probe_retry k ppc e (fuel + 1) hwif drive w = some (b, hw, d, w') ∧
      d.id ≠ none ∧ hw.devices = hwif.devices ∧
      probe_retry k ppc e (fuel + 1) hwif drive w = probe_retry k ppc e 1 hwif drive w := by
  obtain ⟨hw, d, w', e1, ⟨id, hid, hn⟩, v1⟩ := probe_both_inv k ppc e hwif drive w h
  have hne : d.id ≠ none := by rw [hid]; simp
  simp only [probe_retry, e1]
  by_cases hp : d.dev_flags.present = false
  · simp only [hp, if_true]
    exact ⟨_, _, _, _, rfl, hne, v1, trivial⟩
  · have hp' : d.dev_flags.present = true := by simpa using hp
    have hs := hn hp'
    simp only [hp, if_false, hid, hs, Bool.false_eq_true]
    refine ⟨_, _, _, _, rfl, ?_, v1, trivial⟩
    unfold probe_unidentified
    split_ifs <;> simpa using hne

theorem generic_id_some (drive : ide_drive_t) (h : drive.id ≠ none) :
    ∃ d, generic_id drive = some d := by
  obtain ⟨id, hid⟩ := Option.ne_none_iff_exists'.1 h
  simp only [generic_id, hid]
  exact ⟨_, rfl⟩

theorem ide_disk_init_chs_some (k : Header) (drive : ide_drive_t) (h : drive.id ≠ none) :
    ∃ d, ide_disk_init_chs k drive = some d ∧ d.id ≠ none := by
  obtain ⟨id, hid⟩ := Option.ne_none_iff_exists'.1 h
  simp only [ide_disk_init_chs, hid]
  refine ⟨_, rfl, ?_⟩
  split_ifs <;> simp [hid]

theorem ide_disk_init_mult_count_some (drive : ide_drive_t) (h : drive.id ≠ none) :
    ∃ d, ide_disk_init_mult_count drive = some d := by
  obtain ⟨id, hid⟩ := Option.ne_none_iff_exists'.1 h
  simp only [ide_disk_init_mult_count, hid]
  split_ifs <;> exact ⟨_, rfl⟩

theorem probe_finish_some (k : Header) (hwif : ide_hwif_t) (drive : ide_drive_t) (w : World)
    (h : drive.id ≠ none) :
    ∃ rc d, probe_finish k hwif drive w = some (rc, hwif, d, w) := by
  unfold probe_finish
  split_ifs
  · exact ⟨_, _, rfl⟩
  · obtain ⟨d, hd⟩ := generic_id_some drive h
    rw [hd]; exact ⟨_, _, rfl⟩
  · obtain ⟨d, hd, hd2⟩ := ide_disk_init_chs_some k drive h
    obtain ⟨d', hd'⟩ := ide_disk_init_mult_count_some d hd2
    simp only [hd, Option.some_bind, hd']
    exact ⟨_, _, rfl⟩
  · exact ⟨_, _, rfl⟩

theorem probe_inv_unknown (drive : ide_drive_t) :
    probe_inv { drive with id := some unknown_id } :=
  ⟨unknown_id, rfl, fun _ => by decide!⟩

/-- `probe_for_drive` returns for every drive and every behaviour of the bus as
soon as `fuel` allows one pass, and more fuel does not change the result. -/
theorem probe_for_drive_total (k : Header) (ppc : Bool) (e : Env) (fuel : Nat)
    (hwif : ide_hwif_t) (drive : ide_drive_t) (w : World) :
    (∃ rc hw d w', probe_for_drive k ppc e (fuel + 1) hwif drive w = some (rc, hw, d, w') ∧
      hw.devices = hwif.devices) ∧
    probe_for_drive k ppc e (fuel + 1) hwif drive w = probe_for_drive k ppc e 1 hwif drive w := by
  unfold probe_for_drive
  dsimp only
  split_ifs with ha hn
  · exact ⟨⟨_, _, _, _, rfl, rfl⟩, rfl⟩
  · obtain ⟨b, hw, d, w', e1, hne, hdev, e2⟩ := probe_retry_once k ppc e fuel hwif
      { drive with dev_flags := { drive.dev_flags with id_read := false }, id := some unknown_id }
      { w with allocs := w.allocs + 1 } (probe_inv_unknown _)
    rw [← e2, e1]
    refine ⟨?_, rfl⟩
    cases b with
    | true => exact ⟨_, _, _, _, rfl, hdev⟩
    | false =>
      obtain ⟨rc, d', hf⟩ := probe_finish_some k hw d w' hne
      exact ⟨_, _, _, _, hf, hdev⟩
  · refine ⟨?_, rfl⟩
    obtain ⟨rc, d', hf⟩ := probe_finish_some k hwif
      { drive with dev_flags := { drive.dev_flags with id_read := false }, id := some unknown_id }
      { w with allocs := w.allocs + 1 } (by simp)
    exact ⟨_, _, _, _, hf, rfl⟩

theorem probe_devices_total (k : Header) (ppc : Bool) (e : Env) (fuel : Nat)
    (devs : List ide_drive_t) :
    ∀ (hwif : ide_hwif_t) (w : World),
    (∃ ds found hw w', probe_devices k ppc e (fuel + 1) devs hwif w = some (ds, found, hw, w')) ∧
    probe_devices k ppc e (fuel + 1) devs hwif w = probe_devices k ppc e 1 devs hwif w := by
  induction devs with
  | nil => intro hwif w; exact ⟨⟨_, _, _, _, rfl⟩, rfl⟩
  | cons x xs ih =>
    intro hwif w
    obtain ⟨⟨rc, hw, d, w', e1, -⟩, e2⟩ := probe_for_drive_total k ppc e fuel hwif x w
    obtain ⟨⟨ds, found, hw2, w2, e3⟩, e4⟩ := ih hw w'
    simp only [probe_devices, ← e2, e1, ← e4, e3]
    exact ⟨⟨_, _, _, _, rfl⟩, trivial⟩

/-- `ide_probe_port` returns for every port that is not yet marked present and
has its two drive slots, as soon as `fuel` allows one pass. -/
theorem ide_probe_port_total (k : Header) (ppc : Bool) (e : Env) (fuel : Nat)
    (hwif : ide_hwif_t) (w : World) (hp : hwif.present = false)
    (hd : 2 ≤ hwif.devices.length) :
    ∃ r, ide_probe_port k ppc e (fuel + 1) hwif w = some r := by
  obtain ⟨d0, hd0⟩ : ∃ d0, hwif.devices[0]? = some d0 :=
    ⟨hwif.devices[0], List.getElem?_eq_getElem (by omega)⟩
  obtain ⟨d1, hd1⟩ : ∃ d1, hwif.devices[1]? = some d1 :=
    ⟨hwif.devices[1], List.getElem?_eq_getElem (by omega)⟩
  simp only [ide_probe_port, hp, hd0, hd1, Bool.false_eq_true, if_false]
  split_ifs
  · exact ⟨_, rfl⟩
  · obtain ⟨⟨ds, found, hw2, w2, e3⟩, -⟩ := probe_devices_total k ppc e fuel hwif.devices hwif
      (ide_port_wait_ready e hwif (w.call (.disable_irq hwif.irq))).2
    rw [e3]; exact ⟨_, rfl⟩
  · obtain ⟨⟨ds, found, hw2, w2, e3⟩, -⟩ := probe_devices_total k ppc e fuel hwif.devices hwif
      (ide_port_wait_ready e hwif w).2
    rw [e3]; exact ⟨_, rfl⟩

theorem ide_probe_port_fuel (k : Header) (ppc : Bool) (e : Env) (fuel : Nat)
    (hwif : ide_hwif_t) (w : World) :
    ide_probe_port k ppc e (fuel + 1) hwif w = ide_probe_port k ppc e 1 hwif w := by
  unfold ide_probe_port
  simp only [(probe_devices_total k ppc e fuel hwif.devices hwif _).2]

/-- More fuel than one pass does not change what the first two loops of
`ide_host_register` do. -/
theorem host_probe_fuel (k : Header) (ppc : Bool) (e : Env) (fuel : Nat)
    (d : Option ide_port_info) (hws : List (Option hw_regs_t)) (host : ide_host) (w : World) :
    host_probe k ppc e (fuel + 1) d hws host w = host_probe k ppc e 1 d hws host w := by
  have hstep : host_probe_port k ppc e (fuel + 1) = host_probe_port k ppc e 1 := by
    funext acc i
    unfold host_probe_port
    simp only [ide_probe_port_fuel k ppc e fuel]
  unfold host_probe
  rw [hstep]

/-! ## Port and host bring-up (C9, C10) -/

theorem init_irq_indep (e : Env) (a : Nat) (h : ide_hwif_t) (w w2 : World) :
    (init_irq e a h w).1 = (init_irq e a h w2).1 ∧
    (init_irq e a h w).2.1 = (init_irq e a h w2).2.1 := by
  unfold init_irq
  split_ifs <;> exact ⟨rfl, rfl⟩

theorem init_irq_frame (e : Env) (a : Nat) (h : ide_hwif_t) (w : World) :
    (init_irq e a h w).2.1.present = h.present ∧
    (init_irq e a h w).2.1.devices = h.devices ∧
    (init_irq e a h w).2.1.index = h.index := by
  unfold init_irq
  split_ifs <;> exact ⟨rfl, rfl, rfl⟩

theorem hwif_init_irqs_indep (e : Env) (h : ide_hwif_t) (w w2 : World) :
    (hwif_init_irqs e h w).1 = (hwif_init_irqs e h w2).1 ∧
    (hwif_init_irqs e h w).2.1 = (hwif_init_irqs e h w2).2.1 := by
  unfold hwif_init_irqs
  obtain ⟨a1, a2⟩ := init_irq_indep e 0 h w w2
  obtain ⟨b1, b2⟩ := init_irq_indep e 1
      { (init_irq e 0 h w2).2.1 with irq := e.ide_default_irq (init_irq e 0 h w2).2.1.data_addr }
      (init_irq e 0 h w).2.2 (init_irq e 0 h w2).2.2
  simp only [a1, a2, b1, b2]
  split_ifs <;> exact ⟨rfl, rfl⟩

theorem hwif_init_irqs_frame (e : Env) (h : ide_hwif_t) (w : World) :
    (hwif_init_irqs e h w).2.1.present = h.present ∧
    (hwif_init_irqs e h w).2.1.devices = h.devices ∧
    (hwif_init_irqs e h w).2.1.index = h.index := by
  unfold hwif_init_irqs
  obtain ⟨a1, a2, a3⟩ := init_irq_frame e 0 h w
  obtain ⟨b1, b2, b3⟩ := init_irq_frame e 1
      { (init_irq e 0 h w).2.1 with irq := e.ide_default_irq (init_irq e 0 h w).2.1.data_addr }
      (init_irq e 0 h w).2.2
  dsimp only
  split_ifs
  · exact ⟨a1, a2, a3⟩
  · exact ⟨a1, a2, a3⟩
  · exact ⟨b1.trans a1, b2.trans a2, b3.trans a3⟩
  · exact ⟨b1.trans a1, b2.trans a2, b3.trans a3⟩

theorem hwif_init_blkdev_indep (k : Header) (e : Env) (h : ide_hwif_t) (w w2 : World) :
    (hwif_init_blkdev k e h w).1 = (hwif_init_blkdev k e h w2).1 ∧
    (hwif_init_blkdev k e h w).2.1 = (hwif_init_blkdev k e h w2).2.1 := by
  unfold hwif_init_blkdev
  dsimp only
  split_ifs <;> first | exact ⟨rfl, rfl⟩ | exact hwif_init_irqs_indep e _ w w2

theorem hwif_init_blkdev_frame (k : Header) (e : Env) (h : ide_hwif_t) (w : World) :
    (hwif_init_blkdev k e h w).2.1.present = h.present ∧
    (hwif_init_blkdev k e h w).2.1.devices = h.devices ∧
    (hwif_init_blkdev k e h w).2.1.index = h.index := by
  unfold hwif_init_blkdev
  dsimp only
  split_ifs <;> first | exact ⟨rfl, rfl, rfl⟩ | exact hwif_init_irqs_frame e _ w

theorem hwif_init_indep (k : Header) (e : Env) (h : ide_hwif_t) (w w2 : World) :
    (hwif_init k e h w).1 = (hwif_init k e h w2).1 ∧
    (hwif_init k e h w).2.1 = (hwif_init k e h w2).2.1 := by
  unfold hwif_init
  dsimp only
  split_ifs <;> first | exact ⟨rfl, rfl⟩ | exact hwif_init_blkdev_indep k e _ w w2

theorem hwif_init_frame (k : Header) (e : Env) (h : ide_hwif_t) (w : World) :
    (hwif_init k e h w).2.1.present = h.present ∧
    (hwif_init k e h w).2.1.devices = h.devices ∧
    (hwif_init k e h w).2.1.index = h.index := by
  unfold hwif_init
  dsimp only
  split_ifs <;> first | exact ⟨rfl, rfl, rfl⟩ | exact hwif_init_blkdev_frame k e _ w

theorem ide_port_setup_devices_loop_cons (e : Env) (index : Nat) (d : ide_drive_t)
    (rest : List ide_drive_t) (i : Nat) :
    ide_port_setup_devices_loop e index (d :: rest) i =
      if d.dev_flags.present = false then
        (d :: (ide_port_setup_devices_loop e index rest (i + 1)).1,
          (ide_port_setup_devices_loop e index rest (i + 1)).2)
      else
        match e.blk_init_queue_node index i with
        | none =>
          (absent { d with id := none } :: (ide_port_setup_devices_loop e index rest (i + 1)).1,
            (ide_port_setup_devices_loop e index rest (i + 1)).2)
        | some q =>
          ({ d with queue := some q } :: (ide_port_setup_devices_loop e index rest (i + 1)).1,
            (ide_port_setup_devices_loop e index rest (i + 1)).2 + 1) := by
  rw [ide_port_setup_devices_loop]
  by_cases hp : d.dev_flags.present = false
  · simp [hp]
  · cases hq : e.blk_init_queue_node index i <;> simp [hp, hq, absent, ide_init_queue]

theorem ide_port_setup_devices_loop_spec (e : Env) (index : Nat) (devs : List ide_drive_t) :
    ∀ i : Nat,
    (ide_port_setup_devices_loop e index devs i).1.length = devs.length ∧
    (ide_port_setup_devices_loop e index devs i).2 =
      (ide_port_setup_devices_loop e index devs i).1.countP (fun d => d.dev_flags.present) ∧
    ∀ n d, devs[n]? = some d →
      ∃ d', (ide_port_setup_devices_loop e index devs i).1[n]? = some d' ∧
        (d.dev_flags.present = false → d' = d) ∧
        (d.dev_flags.present = true → e.blk_init_queue_node index (i + n) = none →
          d' = absent { d with id := none }) ∧
        (d.dev_flags.present = true → ∀ q, e.blk_init_queue_node index (i + n) = some q →
          d' = { d with queue := some q }) := by
  induction devs with
  | nil => intro i; simp [ide_port_setup_devices_loop]
  | cons x xs ih =>
    intro i
    obtain ⟨h1, h2, h3⟩ := ih (i + 1)
    rw [ide_port_setup_devices_loop_cons]
    have key : ∀ (x' : ide_drive_t) (n : Nat) (d : ide_drive_t),
        (x :: xs)[n]? = some d →
        (d.dev_flags.present = false → x = d → x' = d) →
        (d.dev_flags.present = true → x = d → e.blk_init_queue_node index i = none →
          x' = absent { d with id := none }) →
        (d.dev_flags.present = true → x = d → ∀ q, e.blk_init_queue_node index i = some q →
          x' = { d with queue := some q }) →
        ∃ d', (x' :: (ide_port_setup_devices_loop e index xs (i + 1)).1)[n]? = some d' ∧
          (d.dev_flags.present = false → d' = d) ∧
          (d.dev_flags.present = true → e.blk_init_queue_node index (i + n) = none →
            d' = absent { d with id := none }) ∧
          (d.dev_flags.present = true → ∀ q, e.blk_init_queue_node index (i + n) = some q →
            d' = { d with queue := some q }) := by
      intro x' n d hd a b c
      cases n with
      | zero =>
        simp only [List.getElem?_cons_zero, Option.some.injEq] at hd
        exact ⟨x', by simp, fun h => a h hd, fun h hq => b h hd hq, fun h q hq => c h hd q hq⟩
      | succ m =>
        simp only [List.getElem?_cons_succ] at hd
        obtain ⟨d', e1, e2, e3, e4⟩ := h3 m d hd
        refine ⟨d', by simpa using e1, e2, ?_, ?_⟩
        · intro hp hq; exact e3 hp (by rw [← hq]; congr 1; omega)
        · intro hp q hq; exact e4 hp q (by rw [← hq]; congr 1; omega)
    by_cases hp : x.dev_flags.present = false
    · rw [if_pos hp]
      refine ⟨by simp [h1], ?_, ?_⟩
      · simp [List.countP_cons, hp, h2]
      · intro n d hd
        exact key x n d hd (fun _ h => h) (fun h hx => by rw [hx] at hp; simp [hp] at h)
          (fun h hx => by rw [hx] at hp; simp [hp] at h)
    · rw [if_neg hp]
      have hp' : x.dev_flags.present = true := by simpa using hp
      cases hq : e.blk_init_queue_node index i with
      | none =>
        refine ⟨by simp [h1], ?_, ?_⟩
        · simp [List.countP_cons, absent, h2]
        · intro n d hd
          exact key _ n d hd (fun h hx => by rw [hx] at hp'; simp [hp'] at h)
            (fun _ hx _ => by rw [hx]) (fun _ _ q hq' => by rw [hq] at hq'; cases hq')
      | some q =>
        refine ⟨by simp [h1], ?_, ?_⟩
        · simp [List.countP_cons, hp', h2]
        · intro n d hd
          exact key _ n d hd (fun h hx => by rw [hx] at hp'; simp [hp'] at h)
            (fun _ _ hq' => by rw [hq] at hq'; cases hq')
            (fun _ hx q' hq' => by
              rw [hq] at hq'; simp only [Option.some.injEq] at hq'; rw [hx, hq'])

theorem ide_port_setup_devices_count (e : Env) (p : ide_hwif_t) :
    (ide_port_setup_devices e p).1 = present_drives (ide_port_setup_devices e p).2 ∧
    (ide_port_setup_devices e p).2.present = p.present := by
  obtain ⟨-, h2, -⟩ := ide_port_setup_devices_loop_spec e p.index p.devices 0
  unfold ide_port_setup_devices present_drives
  exact ⟨h2, rfl⟩

/-- The third loop body, in terms of `hwif_init` and `ide_port_setup_devices`. -/
theorem host_init_port_eq (k : Header) (e : Env) (p : ide_hwif_t) (w : World) :
    ((host_init_port k e p w).1, (host_init_port k e p w).2.1) =
      if (hwif_init k e p w).1 = 0 then
        ({ (hwif_init k e p w).2.1 with present := false }, false)
      else if p.present = true then
        if (ide_port_setup_devices e (hwif_init k e p w).2.1).1 = 0 then
          ({ (ide_port_setup_devices e (hwif_init k e p w).2.1).2 with present := false }, false)
        else ((ide_port_setup_devices e (hwif_init k e p w).2.1).2, true)
      else ((hwif_init k e p w).2.1, true) := by
  obtain ⟨f1, -, -⟩ := hwif_init_frame k e p w
  unfold host_init_port
  rcases hh : hwif_init k e p w with ⟨ok, h', w'⟩
  rw [hh] at f1
  simp only at f1
  simp only [f1]
  split_ifs <;> rfl

theorem host_init_port_indep (k : Header) (e : Env) (p : ide_hwif_t) (w w2 : World) :
    (host_init_port k e p w).1 = (host_init_port k e p w2).1 ∧
    (host_init_port k e p w).2.1 = (host_init_port k e p w2).2.1 := by
  have h1 := host_init_port_eq k e p w
  have h2 := host_init_port_eq k e p w2
  obtain ⟨a, b⟩ := hwif_init_indep k e p w w2
  rw [a, b] at h1
  have h := Prod.mk.inj (h1.trans h2.symm)
  exact ⟨h.1, h.2⟩

theorem host_init_port_counted_iff (k : Header) (e : Env) (p : ide_hwif_t) (w : World) :
    (host_init_port k e p w).2.1 = true ↔ port_counted k e p w := by
  have h1 := congrArg Prod.snd (host_init_port_eq k e p w)
  simp only at h1
  rw [h1]
  unfold port_counted
  by_cases c1 : (hwif_init k e p w).1 = 0
  · simp [c1]
  · by_cases c2 : p.present = true
    · by_cases c3 : (ide_port_setup_devices e (hwif_init k e p w).2.1).1 = 0
      · simp [c1, c2, c3]
      · simp [c1, c2, c3]
    · simp [c1, c2]

theorem host_init_port_present (k : Header) (e : Env) (p : ide_hwif_t) (w : World)
    (h : (host_init_port k e p w).1.present = true) :
    (host_init_port k e p w).2.1 = true ∧ 0 < present_drives (host_init_port k e p w).1 := by
  have h1 := host_init_port_eq k e p w
  obtain ⟨f1, -, -⟩ := hwif_init_frame k e p w
  obtain ⟨g1, g2⟩ := ide_port_setup_devices_count e (hwif_init k e p w).2.1
  by_cases c1 : (hwif_init k e p w).1 = 0
  · rw [if_pos c1] at h1
    have := congrArg Prod.fst h1
    simp only at this
    rw [this] at h
    simp at h
  · rw [if_neg c1] at h1
    by_cases c2 : p.present = true
    · rw [if_pos c2] at h1
      by_cases c3 : (ide_port_setup_devices e (hwif_init k e p w).2.1).1 = 0
      · rw [if_pos c3] at h1
        have := congrArg Prod.fst h1
        simp only at this
        rw [this] at h
        simp at h
      · rw [if_neg c3] at h1
        have e1 := congrArg Prod.fst h1
        have e2 := congrArg Prod.snd h1
        simp only at e1 e2
        refine ⟨e2, ?_⟩
        rw [e1, ← g1]
        omega
    · rw [if_neg c2] at h1
      have e1 := congrArg Prod.fst h1
      simp only at e1
      rw [e1, f1] at h
      exact absurd h c2

theorem host_init_port_demoted (k : Header) (e : Env) (p : ide_hwif_t) (w : World)
    (hp : p.present = true) (hi : (hwif_init k e p w).1 ≠ 0)
    (hs : (ide_port_setup_devices e (hwif_init k e p w).2.1).1 = 0) :
    (host_init_port k e p w).1.present = false ∧ (host_init_port k e p w).2.1 = false := by
  have h1 := host_init_port_eq k e p w
  rw [if_neg hi, if_pos hp, if_pos hs] at h1
  have e1 := congrArg Prod.fst h1
  have e2 := congrArg Prod.snd h1
  simp only at e1 e2
  rw [e1]
  exact ⟨rfl, e2⟩

theorem host_init_ports_spec (k : Header) (e : Env) (w0 : World)
    (ports : List (Option ide_hwif_t)) :
    ∀ w : World,
    (host_init_ports k e ports w).1 =
      ports.map (Option.map fun p => (host_init_port k e p w0).1) ∧
    ((host_init_ports k e ports w).2.1 ≠ 0 ↔
      ∃ p, some p ∈ ports ∧ port_counted k e p w0) := by
  induction ports with
  | nil => intro w; simp [host_init_ports]
  | cons x xs ih =>
    intro w
    cases x with
    | none =>
      obtain ⟨a, b⟩ := ih w
      simp only [host_init_ports, List.map_cons, Option.map_none', a, true_and, b]
      simp
    | some p =>
      obtain ⟨a, b⟩ := ih (host_init_port k e p w).2.2
      obtain ⟨i1, i2⟩ := host_init_port_indep k e p w w0
      have hc := host_init_port_counted_iff k e p w0
      simp only [host_init_ports, List.map_cons, Option.map_some', a, i1, true_and]
      by_cases c : (host_init_port k e p w0).2.1 = true
      · rw [i2, if_pos c]
        constructor
        · intro _; exact ⟨p, by simp, hc.1 c⟩
        · intro _; omega
      · rw [i2, if_neg c, b]
        constructor
        · rintro ⟨q, hq, hq2⟩; exact ⟨q, by simp [hq], hq2⟩
        · rintro ⟨q, hq, hq2⟩
          simp only [List.mem_cons, Option.some.injEq] at hq
          rcases hq with rfl | hq
          · exact absurd (hc.2 hq2) c
          · exact ⟨q, hq, hq2⟩

/-- C9, as the code has it: when the first two loops of `ide_host_register`
(hardware bind and probe) run to their end, the function returns 0 or -1; it
returns 0 if and only if for at least one port `hwif_init` succeeds and the
port either was not marked present by the probe or keeps at least one drive
in `ide_port_setup_devices`.  Every port that ends marked present has at
least one present drive and makes the result 0. -/
theorem ide_host_register_result (k : Header) (ppc : Bool) (e : Env) (fuel : Nat)
    (d : Option ide_port_info) (hws : List (Option hw_regs_t)) (host : ide_host)
    (w : World) (h : (host_probe k ppc e fuel d hws host w).isSome = true) :
    ∃ host2 w2 rc host' w',
      host_probe k ppc e fuel d hws host w = some (host2, w2) ∧
      ide_host_register k ppc e fuel d hws host w = some (rc, host', w') ∧
      (rc = 0 ∨ rc = -1) ∧
      (rc = 0 ↔ ∃ p, some p ∈ host2.ports ∧ port_counted k e p w2) ∧
      (∀ p', some p' ∈ host'.ports → p'.present = true →
        rc = 0 ∧ 0 < present_drives p') := by
  rcases hp : host_probe k ppc e fuel d hws host w with _ | ⟨host2, w2⟩
  · rw [hp] at h; simp at h
  · obtain ⟨s1, s2⟩ := host_init_ports_spec k e w2 host2.ports w2
    refine ⟨host2, w2, (if (host_init_ports k e host2.ports w2).2.1 ≠ 0 then 0 else -1),
      { host2 with ports := (host_init_ports k e host2.ports w2).1 },
      host_register_ports (host_init_ports k e host2.ports w2).1
        (host_init_ports k e host2.ports w2).2.2, rfl, ?_, ?_, ?_, ?_⟩
    · simp only [ide_host_register, hp]
    · by_cases c : (host_init_ports k e host2.ports w2).2.1 = 0 <;> simp [c]
    · rw [← s2]
      by_cases c : (host_init_ports k e host2.ports w2).2.1 = 0 <;> simp [c]
    · intro p' hmem hpres
      simp only at hmem
      rw [s1, List.mem_map] at hmem
      obtain ⟨x, hx, hx2⟩ := hmem
      cases x with
      | none => simp at hx2
      | some p =>
        simp only [Option.map_some', Option.some.injEq] at hx2
        subst hx2
        obtain ⟨c1, c2⟩ := host_init_port_present k e p w2 hpres
        have hc := (host_init_port_counted_iff k e p w2).1 c1
        have hj := s2.2 ⟨p, hx, hc⟩
        exact ⟨by simp [hj], c2⟩

/-- C9, witness: two ports with one disk each; the queue of the disk on port 0
cannot be set up. -/
theorem ide_host_register_result_witness :
    ∃ host2 w2 rc host' w',
      host_probe linux_header false (two_disks_env queue_fails_on_port0) 1 none
        [some sample_hw, some sample_hw] (sample_host [0, 1]) world0 = some (host2, w2) ∧
      ide_host_register linux_header false (two_disks_env queue_fails_on_port0) 1 none
        [some sample_hw, some sample_hw] (sample_host [0, 1]) world0 = some (rc, host', w') ∧
      (rc = 0 ∨ rc = -1) ∧
      (rc = 0 ↔ ∃ p, some p ∈ host2.ports ∧
        port_counted linux_header (two_disks_env queue_fails_on_port0) p w2) ∧
      (∀ p', some p' ∈ host'.ports → p'.present = true →
        rc = 0 ∧ 0 < present_drives p') :=
  ide_host_register_result linux_header false (two_disks_env queue_fails_on_port0) 1 none
    [some sample_hw, some sample_hw] (sample_host [0, 1]) world0 (by decide!)

/-- C9, as stated, fails: on a host with one port and no device on the bus
`ide_host_register` returns 0 although the port does not end marked present
and has no present drive. -/
theorem ide_host_register_succeeds_without_drive :
    (ide_host_register linux_header false silent_env 1 none [some sample_hw]
        (sample_host [0]) world0).map
      (fun r => (r.1, r.2.1.ports.map (Option.map fun p => (p.present, present_drives p)))) =
      some (0, [some (false, 0)]) := by
  decide!

/-- C10: `ide_port_setup_devices` keeps the number of drive slots; a drive that
was absent is unchanged; a present drive whose queue cannot be set up loses
its PRESENT flag and its identify buffer (`id = NULL`); a present drive
whose queue is set up stays present, with the queue assigned; the value
returned is the number of drives present afterwards.  In the third loop of
`ide_host_register` a present port for which this number is 0 (after a
successful `hwif_init`) becomes not present and is not counted, and the
loop treats every port of the host, whatever happened to the ports before
it: the ports `ide_host_register` ends with are the ports after the probe,
each taken through its own round of that loop. -/
theorem ide_port_setup_devices_spec (k : Header) (e : Env) (hwif : ide_hwif_t)
    (ports : List (Option ide_hwif_t)) (w : World) :
    ((ide_port_setup_devices e hwif).2.devices.length = hwif.devices.length ∧
     (ide_port_setup_devices e hwif).1 = present_drives (ide_port_setup_devices e hwif).2 ∧
     ∀ i drive, hwif.devices[i]? = some drive →
      ∃ drive', (ide_port_setup_devices e hwif).2.devices[i]? = some drive' ∧
        (drive.dev_flags.present = false → drive' = drive) ∧
        (drive.dev_flags.present = true → e.blk_init_queue_node hwif.index i = none →
          drive' = absent { drive with id := none } ∧
          drive'.dev_flags.present = false ∧ drive'.id = none) ∧
        (drive.dev_flags.present = true → ∀ q, e.blk_init_queue_node hwif.index i = some q →
          drive' = { drive with queue := some q } ∧ drive'.dev_flags.present = true)) ∧
    (hwif.present = true → (hwif_init k e hwif w).1 ≠ 0 →
      (ide_port_setup_devices e (hwif_init k e hwif w).2.1).1 = 0 →
      (host_init_port k e hwif w).1.present = false ∧
      (host_init_port k e hwif w).2.1 = false) ∧
    (host_init_ports k e ports w).1 =
      ports.map (Option.map fun p => (host_init_port k e p w).1) ∧
    (∀ ppc fuel d hws host w0 host2 w2,
      host_probe k ppc e fuel d hws host w0 = some (host2, w2) →
      ∃ rc host' w', ide_host_register k ppc e fuel d hws host w0 = some (rc, host', w') ∧
        host'.ports = host2.ports.map (Option.map fun p => (host_init_port k e p w2).1)) := by
  refine ⟨⟨?_, ?_, ?_⟩, ?_, ?_, ?_⟩
  · exact (ide_port_setup_devices_loop_spec e hwif.index hwif.devices 0).1
  · exact (ide_port_setup_devices_count e hwif).1
  · intro i drive hd
    obtain ⟨d', h1, h2, h3, h4⟩ :=
      (ide_port_setup_devices_loop_spec e hwif.index hwif.devices 0).2.2 i drive hd
    rw [Nat.zero_add] at h3 h4
    refine ⟨d', h1, h2, ?_, ?_⟩
    · intro hp hq
      have := h3 hp hq
      subst this
      exact ⟨rfl, rfl, rfl⟩
    · intro hp q hq
      have := h4 hp q hq
      subst this
      exact ⟨rfl, hp⟩
  · exact host_init_port_demoted k e hwif w
  · exact (host_init_ports_spec k e w ports w).1
  · intro ppc fuel d hws host w0 host2 w2 hp
    simp only [ide_host_register, hp]
    exact ⟨_, _, _, rfl, (host_init_ports_spec k e w2 host2.ports w2).1⟩

/-- C10 on the scenario of the specification: of two ports with one disk each,
port 0 loses its only drive because the queue cannot be set up and ends not
present with no present drive and a NULL identify buffer; port 1 is still
brought up and ends present with one present drive; the call returns 0. -/
theorem ide_host_register_scenario :
    (ide_host_register linux_header false (two_disks_env queue_fails_on_port0) 1 none
        [some sample_hw, some sample_hw] (sample_host [0, 1]) world0).map
      (fun r => (r.1, r.2.1.ports.map (Option.map fun p => (p.present, present_drives p)))) =
      some (0, [some (false, 0), some (true, 1)]) ∧
    (ide_host_register linux_header false (two_disks_env queue_fails_on_port0) 1 none
        [some sample_hw, some sample_hw] (sample_host [0, 1]) world0).map
      (fun r => r.2.1.ports.map (Option.map fun p => p.devices.map fun d => d.id.isSome)) =
      some [some [false, true], some [true, true]] := by
  decide!

/-! ## The identify block after normalisation (C11, C12) -/

theorem flatMap_bytes_getD (l : List Nat) :
    ∀ j : Nat, (l.flatMap fun x => [x % 256, x / 256 % 256]).getD j 0 =
      if j % 2 = 0 then l.getD (j / 2) 0 % 256 else l.getD (j / 2) 0 / 256 % 256 := by
  induction l with
  | nil => intro j; simp
  | cons x xs ih =>
    intro j
    match j with
    | 0 => simp
    | 1 => simp
    | j + 2 =>
      have h1 : (j + 2) % 2 = j % 2 := by omega
      have h2 : (j + 2) / 2 = j / 2 + 1 := by omega
      simp only [List.flatMap_cons, List.cons_append, List.nil_append, List.getD_cons_succ,
        h1, h2]
      exact ih j

/-- Byte `j` of the memory behind `(char *)&id[w]`. -/
theorem id_bytes_getD (id : List Nat) (w j : Nat) :
    (id_bytes id w).getD j 0 =
      if j % 2 = 0 then id.getD (w + j / 2) 0 % 256 else id.getD (w + j / 2) 0 / 256 % 256 := by
  unfold id_bytes
  rw [flatMap_bytes_getD]
  have : ∀ n, (id.drop w).getD n 0 = id.getD (w + n) 0 := by
    intro n
    simp [List.getD_eq_getElem?_getD, List.getElem?_drop]
  rw [this]

theorem write_bytes_getD (id : List Nat) (off len : Nat) (bs : List Nat) (i : Nat) :
    (write_bytes id off len bs).getD i 0 =
      if i < id.length then
        if off ≤ i ∧ i < off + len / 2 then
          bs.getD (2 * (i - off)) 0 % 256 + 256 * (bs.getD (2 * (i - off) + 1) 0 % 256)
        else id.getD i 0
      else 0 := by
  unfold write_bytes
  by_cases h : i < id.length
  · simp [List.getD_eq_getElem?_getD, h]
  · have hn : (List.range id.length)[i]? = none :=
      List.getElem?_eq_none (by simp; omega)
    simp [List.getD_eq_getElem?_getD, h, hn]

/-- After `m[ATA_ID_PROD_LEN - 1] = 0` the last byte of the model field is NUL. -/
theorem do_identify_fix_last_byte (k : Header) (cmd : Nat) (id : List Nat) :
    (id_bytes (do_identify_fix k cmd id) ATA_ID_PROD).getD (ATA_ID_PROD_LEN - 1) 0 = 0 := by
  unfold do_identify_fix
  dsimp only
  generalize fixstring_at k (fixstring_at k (fixstring_at k (k.ide_fix_driveid id) ATA_ID_PROD
    ATA_ID_PROD_LEN (do_identify_bswap cmd (id_bytes (k.ide_fix_driveid id) ATA_ID_PROD)))
    ATA_ID_FW_REV ATA_ID_FW_REV_LEN _) ATA_ID_SERNO ATA_ID_SERNO_LEN _ = id3
  rw [id_bytes_getD, write_bytes_getD]
  simp only [ATA_ID_PROD, ATA_ID_PROD_LEN]
  norm_num
  have hX : ∀ l : List Nat, ((List.take 40 l).set 39 0)[39]?.getD 0 = 0 := by
    intro l
    rw [List.getElem?_set]
    split_ifs <;> simp_all
  rw [hX]
  split_ifs <;> omega

theorem cstr_length_le (n : Nat) : ∀ bs : List Nat, bs.getD n 0 = 0 → (cstr bs).length ≤ n := by
  induction n with
  | zero =>
    intro bs h
    rw [(first_byte_zero_iff bs).1 h]; simp
  | succ n ih =>
    intro bs h
    cases bs with
    | nil => simp [cstr_nil]
    | cons x xs =>
      by_cases hx : x = 0
      · subst hx; simp [cstr_cons_zero]
      · rw [cstr_cons_pos x xs hx]
        simp only [List.getD_cons_succ] at h
        have := ih xs h
        simp; omega

theorem classify_atapi_switch_id_read (k : Header) (ppc : Bool) (drive : ide_drive_t)
    (m : List Nat) (t : Nat) :
    (classify_atapi_switch k ppc drive m t).1.dev_flags.id_read = drive.dev_flags.id_read := by
  unfold classify_atapi_switch
  dsimp only
  split_ifs <;> rfl

theorem ide_classify_atapi_dev_id_read (k : Header) (ppc : Bool) (drive d : ide_drive_t)
    (h : ide_classify_atapi_dev k ppc drive = some d) :
    d.dev_flags.id_read = drive.dev_flags.id_read := by
  unfold ide_classify_atapi_dev at h
  cases hid : drive.id with
  | none => rw [hid] at h; cases h
  | some id =>
    rw [hid] at h
    have f := classify_atapi_switch_id_read k ppc drive (id_bytes id ATA_ID_PROD)
      ((id.getD ATA_ID_CONFIG 0 >>> 8) &&& 0x1f)
    dsimp only at h
    split_ifs at h <;>
      (simp only [Option.some.injEq] at h; subst h; exact f)

theorem ide_classify_ata_dev_id_read (k : Header) (drive d : ide_drive_t)
    (h : ide_classify_ata_dev k drive = some d) :
    d.dev_flags.id_read = drive.dev_flags.id_read := by
  unfold ide_classify_ata_dev at h
  cases hid : drive.id with
  | none => rw [hid] at h; cases h
  | some id =>
    rw [hid] at h
    dsimp only at h
    split_ifs at h <;>
      (simp only [Option.some.injEq] at h; subst h; rfl)

theorem ide_classify_atapi_dev_id (k : Header) (ppc : Bool) (drive d : ide_drive_t)
    (h : ide_classify_atapi_dev k ppc drive = some d) : d.id = drive.id := by
  cases hid : drive.id with
  | none => simp [ide_classify_atapi_dev, hid] at h
  | some id =>
    obtain ⟨d3, hd3, a, -⟩ := ide_classify_atapi_dev_frame k ppc drive id hid
    rw [h] at hd3
    simp only [Option.some.injEq] at hd3
    rw [hd3]; exact a

theorem ide_classify_ata_dev_id (k : Header) (drive d : ide_drive_t)
    (h : ide_classify_ata_dev k drive = some d) : d.id = drive.id := by
  cases hid : drive.id with
  | none => simp [ide_classify_ata_dev, hid] at h
  | some id =>
    obtain ⟨d3, hd3, a, -⟩ := ide_classify_ata_dev_frame k drive id hid
    rw [h] at hd3
    simp only [Option.some.injEq] at hd3
    rw [hd3]; exact a

/-- What `do_identify` leaves behind: the buffer holds the normalised response,
one data transfer was made, and `IDE_DFLAG_ID_READ` is set. -/
theorem do_identify_result (k : Header) (ppc : Bool) (e : Env) (drive : ide_drive_t)
    (cmd : Nat) (w : World) (d : ide_drive_t) (w' : World)
    (h : do_identify k ppc e drive cmd w = some (d, w')) :
    d.id = some (do_identify_fix k cmd (words256 (e.data w.trace.length))) ∧
    w' = w.op .input_data ∧ d.dev_flags.id_read = true := by
  unfold do_identify at h
  cases hid : drive.id with
  | none => rw [hid] at h; cases h
  | some id =>
    rw [hid] at h
    dsimp only at h
    generalize do_identify_fix k cmd (words256 (e.data w.trace.length)) = id1 at h ⊢
    split_ifs at h
    · simp only [Option.some.injEq, Prod.mk.injEq] at h
      obtain ⟨h1, h2⟩ := h
      subst h1; subst h2
      exact ⟨rfl, rfl, rfl⟩
    · simp only [Option.map_eq_some', Prod.mk.injEq] at h
      obtain ⟨d2, hd2, h1, h2⟩ := h
      subst h1; subst h2
      exact ⟨ide_classify_atapi_dev_id k ppc _ _ hd2, rfl,
        ide_classify_atapi_dev_id_read k ppc _ _ hd2⟩
    · simp only [Option.map_eq_some', Prod.mk.injEq] at h
      obtain ⟨d2, hd2, h1, h2⟩ := h
      subst h1; subst h2
      exact ⟨ide_classify_ata_dev_id k _ _ hd2, rfl,
        ide_classify_ata_dev_id_read k _ _ hd2⟩

/-- C11: for every response of the device and every command, `do_identify` on a
drive with an identify buffer returns, and whenever it leaves the drive
present the last byte of the model field (offset `ATA_ID_PROD_LEN - 1`) is 0,
so that the model string is at most `ATA_ID_PROD_LEN - 1` bytes long. -/
theorem do_identify_model_terminated (k : Header) (ppc : Bool) (e : Env)
    (drive : ide_drive_t) (cmd : Nat) (w : World) (hid : drive.id ≠ none) :
    ∃ d w' id, do_identify k ppc e drive cmd w = some (d, w') ∧ d.id = some id ∧
      (d.dev_flags.present = true →
        (id_bytes id ATA_ID_PROD).getD (ATA_ID_PROD_LEN - 1) 0 = 0 ∧
        (model_string id).length ≤ ATA_ID_PROD_LEN - 1) := by
  obtain ⟨d, w', hd, -⟩ := do_identify_inv k ppc e drive cmd w hid
  obtain ⟨h1, -, -⟩ := do_identify_result k ppc e drive cmd w d w' hd
  refine ⟨d, w', _, hd, h1, fun _ => ?_⟩
  have hb := do_identify_fix_last_byte k cmd (words256 (e.data w.trace.length))
  exact ⟨hb, cstr_length_le _ _ hb⟩

theorem do_identify_model_terminated_witness :
    ∃ d w' id, do_identify linux_header false silent_env sample_slave ATA_CMD_ID_ATA world0 =
        some (d, w') ∧ d.id = some id ∧
      (d.dev_flags.present = true →
        (id_bytes id ATA_ID_PROD).getD (ATA_ID_PROD_LEN - 1) 0 = 0 ∧
        (model_string id).length ≤ ATA_ID_PROD_LEN - 1) :=
  do_identify_model_terminated linux_header false silent_env sample_slave ATA_CMD_ID_ATA world0
    (fun h => Option.noConfusion h)

theorem two_bytes_at_head (a b : Nat) (ha : a ≠ 0) (hb : b ≠ 0) (m : List Nat) :
    (m.getD 0 0 = a ∧ m.getD 1 0 = b) ↔ [a, b] <+: m := by
  match m with
  | [] => simp; intro h; exact absurd h.symm ha
  | [x] => simp; intro _ h; exact absurd h.symm hb
  | x :: y :: rest => simp [List.cons_prefix_cons, eq_comm]

theorem do_identify_bswap_eq (cmd : Nat) (m : List Nat) :
    do_identify_bswap cmd m = if cmd = ATA_CMD_ID_ATAPI ∧ vendor_signature m then 0 else 1 := by
  have hN := two_bytes_at_head 'N'.toNat 'E'.toNat (by decide) (by decide) m
  have hF := two_bytes_at_head 'F'.toNat 'X'.toNat (by decide) (by decide) m
  have hP := two_bytes_at_head 'P'.toNat 'i'.toNat (by decide) (by decide) m
  have e1 : lit "NE" = ['N'.toNat, 'E'.toNat] := rfl
  have e2 : lit "FX" = ['F'.toNat, 'X'.toNat] := rfl
  have e3 : lit "Pi" = ['P'.toNat, 'i'.toNat] := rfl
  have hv : ((m.getD 0 0 = 'N'.toNat ∧ m.getD 1 0 = 'E'.toNat) ∨
      (m.getD 0 0 = 'F'.toNat ∧ m.getD 1 0 = 'X'.toNat) ∨
      (m.getD 0 0 = 'P'.toNat ∧ m.getD 1 0 = 'i'.toNat)) ↔ vendor_signature m := by
    unfold vendor_signature
    rw [hN, hF, hP, e1, e2, e3]
  unfold do_identify_bswap
  by_cases h : cmd = ATA_CMD_ID_ATAPI ∧ vendor_signature m
  · rw [if_pos h, if_pos ⟨h.1, hv.2 h.2⟩]; rfl
  · rw [if_neg h, if_neg (fun h2 => h ⟨h2.1, hv.1 h2.2⟩)]

/-- C12: the three calls of `ide_fixstring` in `do_identify` (model, firmware
revision, serial number) receive one and the same flag `bswap`; the flag is
0 (do not swap) exactly when the command is the ATAPI identify and the model
field, as it is before the strings are normalised, starts with "NE", "FX" or
"Pi", and it is 1 otherwise, so always 1 for the ATA identify command. -/
theorem do_identify_fix_bswap (k : Header) (cmd : Nat) (raw : List Nat) :
    ∃ bswap : Nat,
      (bswap = 0 ↔
        cmd = ATA_CMD_ID_ATAPI ∧
          vendor_signature (id_bytes (k.ide_fix_driveid raw) ATA_ID_PROD)) ∧
      (bswap ≠ 0 → bswap = 1) ∧
      (cmd = ATA_CMD_ID_ATA → bswap = 1) ∧
      ∃ id1 id2 id3,
        id1 = fixstring_at k (k.ide_fix_driveid raw) ATA_ID_PROD ATA_ID_PROD_LEN bswap ∧
        id2 = fixstring_at k id1 ATA_ID_FW_REV ATA_ID_FW_REV_LEN bswap ∧
        id3 = fixstring_at k id2 ATA_ID_SERNO ATA_ID_SERNO_LEN bswap ∧
        do_identify_fix k cmd raw =
          write_bytes id3 ATA_ID_PROD ATA_ID_PROD_LEN
            (((id_bytes id3 ATA_ID_PROD).take ATA_ID_PROD_LEN).set (ATA_ID_PROD_LEN - 1) 0) := by
  refine ⟨do_identify_bswap cmd (id_bytes (k.ide_fix_driveid raw) ATA_ID_PROD), ?_, ?_, ?_,
    _, _, _, rfl, rfl, rfl, rfl⟩
  · rw [do_identify_bswap_eq]
    split_ifs with h
    · simp [h]
    · simp [h]
  · rw [do_identify_bswap_eq]
    split_ifs with h
    · simp
    · simp
  · intro hc
    rw [do_identify_bswap_eq]
    have : ¬ cmd = ATA_CMD_ID_ATAPI := by rw [hc]; decide
    simp [this]

/-- An ATAPI response whose model field starts with "NE" is left unswapped by
the sample `ide_fixstring`, the same response to the ATA command is swapped. -/
theorem do_identify_fix_vendor_example :
    model_string (do_identify_fix linux_header ATA_CMD_ID_ATAPI (sample_id 0x8500 "NEC CD" "S1")) =
      lit "NEC CD" ∧
    model_string (do_identify_fix linux_header ATA_CMD_ID_ATA (sample_id 0x8500 "NEC CD" "S1")) =
      lit "EN CDC" := by
  decide!

/-! ## The busy wait and one identify attempt (C18, C14) -/

theorem poll_facts (k : Header) (e : Env) (a : Bool) (w : World) :
    (if a then read_altstatus e (msleep k e 50 w) else read_status e (msleep k e 50 w)).1 =
      poll_status e w 0 ∧
    (if a then read_altstatus e (msleep k e 50 w) else read_status e (msleep k e 50 w)).2.trace =
      poll_op a :: w.trace ∧
    w.jiffies + 1 ≤
      (if a then read_altstatus e (msleep k e 50 w) else read_status e (msleep k e 50 w)).2.jiffies := by
  have hj := msleep_jiffies k e 50 w
  cases a
  · exact ⟨rfl, rfl, hj⟩
  · exact ⟨rfl, rfl, hj⟩

theorem ide_busy_sleep_loop_spec (k : Header) (e : Env) (a : Bool) (deadline : Nat) :
    ∀ (fuel : Nat) (w : World), deadline ≤ fuel + 1 + w.jiffies →
      ∃ n, 1 ≤ n ∧ n ≤ max 1 (deadline - w.jiffies) ∧
        (ide_busy_sleep_loop k e a deadline (fuel + 1) w).2.trace =
          List.replicate n (poll_op a) ++ w.trace ∧
        (∀ i, i + 1 < n → poll_status e w i &&& ATA_BUSY ≠ 0) ∧
        (((ide_busy_sleep_loop k e a deadline (fuel + 1) w).1 = 0 ∧
            poll_status e w (n - 1) &&& ATA_BUSY = 0) ∨
         ((ide_busy_sleep_loop k e a deadline (fuel + 1) w).1 = 1 ∧
            poll_status e w (n - 1) &&& ATA_BUSY ≠ 0 ∧
            deadline ≤ (ide_busy_sleep_loop k e a deadline (fuel + 1) w).2.jiffies)) := by
  intro fuel
  induction fuel with
  | zero =>
    intro w h
    obtain ⟨p1, p2, p3⟩ := poll_facts k e a w
    rw [ide_busy_sleep_loop_step]
    generalize (if a then read_altstatus e (msleep k e 50 w)
      else read_status e (msleep k e 50 w)) = P at p1 p2 p3 ⊢
    refine ⟨1, le_refl 1, le_max_left _ _, ?_⟩
    split_ifs with hb hd
    · exact ⟨p2, fun i hi => absurd hi (by omega), Or.inl ⟨rfl, by rw [← p1]; exact hb⟩⟩
    · omega
    · exact ⟨p2, fun i hi => absurd hi (by omega),
        Or.inr ⟨rfl, by rw [← p1]; exact hb, by show deadline ≤ P.2.jiffies; omega⟩⟩
  | succ g ih =>
    intro w h
    obtain ⟨p1, p2, p3⟩ := poll_facts k e a w
    rw [ide_busy_sleep_loop_step]
    generalize (if a then read_altstatus e (msleep k e 50 w)
      else read_status e (msleep k e 50 w)) = P at p1 p2 p3 ⊢
    split_ifs with hb hd
    · exact ⟨1, le_refl 1, le_max_left _ _, p2, fun i hi => absurd hi (by omega),
        Or.inl ⟨rfl, by rw [← p1]; exact hb⟩⟩
    · obtain ⟨n, n1, n2, n3, n4, n5⟩ := ih P.2 (by omega)
      have hps : ∀ i, poll_status e P.2 i = poll_status e w (i + 1) := by
        intro i
        unfold poll_status
        rw [p2, List.length_cons]
        congr 2
        omega
      refine ⟨n + 1, by omega, ?_, ?_, ?_, ?_⟩
      · rw [Nat.max_def] at n2 ⊢
        split_ifs at n2 ⊢ <;> omega
      · rw [n3, p2, List.replicate_succ']
        simp
      · intro i hi
        match i with
        | 0 => rw [← p1]; exact hb
        | j + 1 => rw [← hps]; exact n4 j (by omega)
      · have hn : n + 1 - 1 = (n - 1) + 1 := by omega
        rw [hn, ← hps]
        exact n5
    · exact ⟨1, le_refl 1, le_max_left _ _, p2, fun i hi => absurd hi (by omega),
        Or.inr ⟨rfl, by rw [← p1]; exact hb, by show deadline ≤ P.2.jiffies; omega⟩⟩

/-- The contract of `ide_busy_sleep`: it makes `n` polls, at least one and at
most `timeout` (one when `timeout` is 0), every poll but the last shows
`ATA_BUSY`, and it returns 0 when the last poll shows the flag clear and 1
when the last poll shows it set and the deadline has passed. -/
theorem ide_busy_sleep_spec (k : Header) (e : Env) (timeout : Nat) (a : Bool) (w : World) :
    ∃ n, 1 ≤ n ∧ n ≤ max 1 timeout ∧
      (ide_busy_sleep k e timeout a w).2.trace = List.replicate n (poll_op a) ++ w.trace ∧
      (∀ i, i + 1 < n → poll_status e w i &&& ATA_BUSY ≠ 0) ∧
      (((ide_busy_sleep k e timeout a w).1 = 0 ∧ poll_status e w (n - 1) &&& ATA_BUSY = 0) ∨
       ((ide_busy_sleep k e timeout a w).1 = 1 ∧ poll_status e w (n - 1) &&& ATA_BUSY ≠ 0 ∧
          timeout + w.jiffies ≤ (ide_busy_sleep k e timeout a w).2.jiffies)) := by
  have h := ide_busy_sleep_loop_spec k e a (timeout + w.jiffies) timeout w (by omega)
  rw [Nat.add_sub_cancel] at h
  exact h

/-- C18: the busy wait of `actual_try_to_identify`, `ide_busy_sleep` with the
timeout `WAIT_WORSTCASE / 2` for the ATA command and `WAIT_PIDENTIFY / 2` for
any other (the ATAPI) command, returns for every sequence of status values:
it polls the status `n` times with `1 ≤ n ≤ max 1 timeout` and does nothing
else on the bus, every poll before the last shows `ATA_BUSY`, and the result
is 0 with the last poll not busy, or 1 with the last poll busy and the clock
at or past the deadline. -/
theorem identify_busy_wait_terminates (k : Header) (e : Env) (cmd : Nat) (a : Bool)
    (w : World) :
    identify_timeout k cmd =
      (if cmd = ATA_CMD_ID_ATA then WAIT_WORSTCASE k / 2 else WAIT_PIDENTIFY k / 2) ∧
    ∃ n, 1 ≤ n ∧ n ≤ max 1 (identify_timeout k cmd) ∧
      (ide_busy_sleep k e (identify_timeout k cmd) a w).2.trace =
        List.replicate n (poll_op a) ++ w.trace ∧
      (∀ i, i + 1 < n → poll_status e w i &&& ATA_BUSY ≠ 0) ∧
      (((ide_busy_sleep k e (identify_timeout k cmd) a w).1 = 0 ∧
          poll_status e w (n - 1) &&& ATA_BUSY = 0) ∨
       ((ide_busy_sleep k e (identify_timeout k cmd) a w).1 = 1 ∧
          poll_status e w (n - 1) &&& ATA_BUSY ≠ 0 ∧
          identify_timeout k cmd + w.jiffies ≤
            (ide_busy_sleep k e (identify_timeout k cmd) a w).2.jiffies)) := by
  refine ⟨?_, ide_busy_sleep_spec k e (identify_timeout k cmd) a w⟩
  unfold identify_timeout
  split_ifs <;> rfl

/-- A drive that stays busy for ever, on a 100 Hz clock with no scheduling
delay: the ATAPI wait of 500 jiffies ends with the timed-out result after 84
polls, 6 jiffies apart. -/
theorem identify_busy_wait_stuck_example :
    (ide_busy_sleep linux_header (sample_env (fun _ => 0xC0) [] 0 (fun _ _ => none))
        (identify_timeout linux_header ATA_CMD_ID_ATAPI) false world0).1 = 1 ∧
    (ide_busy_sleep linux_header (sample_env (fun _ => 0xC0) [] 0 (fun _ _ => none))
        (identify_timeout linux_header ATA_CMD_ID_ATAPI) false world0).2.trace.length = 84 := by
  decide!

theorem ops_op (o o' : BusOp) (w : World) :
    ops o (w.op o') = ops o w + if o' = o then 1 else 0 := by
  unfold ops World.op
  simp only [List.count_cons, beq_iff_eq]

theorem ops_msleep (k : Header) (e : Env) (ms : Nat) (o : BusOp) (w : World) :
    ops o (msleep k e ms w) = ops o w := rfl

theorem ops_read_status (e : Env) (o : BusOp) (w : World) (h : o ≠ .read_status) :
    ops o (read_status e w).2 = ops o w := by
  unfold read_status
  rw [ops_op, if_neg (fun h2 => h h2.symm)]
  rfl

theorem ops_read_altstatus (e : Env) (o : BusOp) (w : World) (h : o ≠ .read_altstatus) :
    ops o (read_altstatus e w).2 = ops o w := by
  unfold read_altstatus
  rw [ops_op, if_neg (fun h2 => h h2.symm)]
  rfl

theorem ops_busy_sleep (k : Header) (e : Env) (timeout : Nat) (a : Bool) (o : BusOp)
    (w : World) (h1 : o ≠ .read_status) (h2 : o ≠ .read_altstatus) :
    ops o (ide_busy_sleep k e timeout a w).2 = ops o w := by
  obtain ⟨n, -, -, ht, -, -⟩ := ide_busy_sleep_spec k e timeout a w
  unfold ops
  rw [ht, List.count_append, List.count_replicate]
  have : ¬ (poll_op a == o) = true := by
    rw [beq_iff_eq]
    cases a
    · exact fun h => h1 h.symm
    · exact fun h => h2 h.symm
  simp [this]

theorem ops_identify_send (k : Header) (e : Env) (hwif : ide_hwif_t) (cmd : Nat) (o : BusOp)
    (w : World) (h1 : o ≠ .read_status) (h2 : o ≠ .read_altstatus)
    (h3 : o ≠ .tf_load_feature) :
    ops o (identify_send k e hwif cmd w).2 = ops o w + if BusOp.exec_command cmd = o then 1 else 0 := by
  unfold identify_send
  dsimp only
  rw [ops_op]
  congr 1
  have hr : ∀ x : World, ops o (read_status e (read_altstatus e x).2).2 = ops o x := by
    intro x
    rw [ops_read_status e o _ h1, ops_read_altstatus e o _ h2]
  have h3' : ¬ BusOp.tf_load_feature = o := fun h => h3 h.symm
  split_ifs <;>
    simp only [ops_op, hr, ops_msleep, if_neg h3', Nat.add_zero]

theorem ok_stat_drq : ∀ s, s < 256 →
    (OK_STAT s ATA_DRQ BAD_R_STAT = true ↔
      s &&& ATA_DRQ ≠ 0 ∧ s &&& ATA_BUSY = 0 ∧ s &&& ATA_ERR = 0) := by
  decide!

theorem read_status_lt (e : Env) (w : World) : (read_status e w).1 < 256 :=
  Nat.mod_lt _ (by decide)

/-- C14: `actual_try_to_identify` on a drive with an identify buffer returns 0,
1 or 2.  With `b` the result of the busy wait that follows the identify
command and `s` the status read after it: the result is 1 exactly when the
wait returns non-zero, which is when its last poll still shows `ATA_BUSY`;
it is 0 exactly when the wait succeeded and `s` has `ATA_DRQ` set and
`ATA_BUSY` and `ATA_ERR` clear; it is 2 otherwise.  One identify block is
transferred when the result is 0, and then the drive is the one `do_identify`
makes of it; none is transferred and the drive is unchanged otherwise. -/
theorem actual_try_to_identify_result (k : Header) (ppc : Bool) (e : Env)
    (hwif : ide_hwif_t) (drive : ide_drive_t) (cmd : Nat) (w : World)
    (hid : drive.id ≠ none) (b s : Nat × World)
    (hb : b = ide_busy_sleep k e (identify_timeout k cmd) (identify_send k e hwif cmd w).1
      (identify_send k e hwif cmd w).2)
    (hs : s = read_status e (msleep k e 50 b.2)) :
    ∃ rc d w', actual_try_to_identify k ppc e hwif drive cmd w = some (rc, d, w') ∧
      (rc = 0 ∨ rc = 1 ∨ rc = 2) ∧
      (rc = 1 ↔ b.1 ≠ 0) ∧
      (∃ n, 1 ≤ n ∧
        b.2.trace = List.replicate n (poll_op (identify_send k e hwif cmd w).1) ++
          (identify_send k e hwif cmd w).2.trace ∧
        (b.1 ≠ 0 ↔ poll_status e (identify_send k e hwif cmd w).2 (n - 1) &&& ATA_BUSY ≠ 0)) ∧
      (rc = 0 ↔ b.1 = 0 ∧ s.1 &&& ATA_DRQ ≠ 0 ∧ s.1 &&& ATA_BUSY = 0 ∧ s.1 &&& ATA_ERR = 0) ∧
      data_reads w' = data_reads w + (if rc = 0 then 1 else 0) ∧
      (rc = 0 → ∃ w0, do_identify k ppc e drive cmd s.2 = some (d, w0)) ∧
      (rc ≠ 0 → d = drive) := by
  have hpoll : ∃ n, 1 ≤ n ∧
      b.2.trace = List.replicate n (poll_op (identify_send k e hwif cmd w).1) ++
        (identify_send k e hwif cmd w).2.trace ∧
      (b.1 ≠ 0 ↔ poll_status e (identify_send k e hwif cmd w).2 (n - 1) &&& ATA_BUSY ≠ 0) := by
    obtain ⟨n, n1, -, n3, -, n5⟩ := ide_busy_sleep_spec k e (identify_timeout k cmd)
      (identify_send k e hwif cmd w).1 (identify_send k e hwif cmd w).2
    rw [← hb] at n3 n5
    refine ⟨n, n1, n3, ?_⟩
    rcases n5 with ⟨a1, a2⟩ | ⟨a1, a2, -⟩
    · simp [a1, a2]
    · simp [a1, a2]
  have hdb : data_reads b.2 = data_reads w := by
    rw [hb]
    unfold data_reads
    rw [ops_busy_sleep _ _ _ _ _ _ (by decide) (by decide),
      ops_identify_send _ _ _ _ _ _ (by decide) (by decide) (by decide)]
    simp
  have hds : data_reads s.2 = data_reads w := by
    rw [hs, ← hdb]
    unfold data_reads
    rw [ops_read_status _ _ _ (by decide), ops_msleep]
  have hok := ok_stat_drq s.1 (by rw [hs]; exact read_status_lt _ _)
  obtain ⟨d0, w0, hd0, -⟩ := do_identify_inv k ppc e drive cmd s.2 hid
  obtain ⟨-, hw0, -⟩ := do_identify_result k ppc e drive cmd s.2 d0 w0 hd0
  unfold actual_try_to_identify
  dsimp only
  rw [← hb, ← hs]
  by_cases h1 : b.1 ≠ 0
  · rw [if_pos h1]
    refine ⟨1, drive, b.2, rfl, by simp, by simp [h1], hpoll, ?_, by simp [hdb], by simp, by simp⟩
    simp only [ne_eq] at h1
    simp [h1]
  · rw [if_neg h1]
    simp only [ne_eq, not_not] at h1
    by_cases h2 : OK_STAT s.1 ATA_DRQ BAD_R_STAT = true
    · rw [if_pos h2, hd0]
      refine ⟨0, d0, (read_status e w0).2, rfl, by simp, by simp [h1], hpoll, ?_, ?_,
        fun _ => ⟨w0, rfl⟩, by simp⟩
      · simp only [true_iff]
        exact ⟨h1, hok.1 h2⟩
      · unfold data_reads
        rw [ops_read_status _ _ _ (by decide), hw0, ops_op]
        unfold data_reads at hds
        rw [hds]
        simp
    · rw [if_neg h2]
      refine ⟨2, drive, s.2, rfl, by simp, by simp [h1], hpoll, ?_, by simp [hds], by simp,
        by simp⟩
      constructor
      · intro h; cases h
      · intro h; exact absurd (hok.2 h.2) h2

theorem actual_try_to_identify_result_witness :
    sample_slave.id ≠ none ∧
    ∃ rc d w', actual_try_to_identify linux_header false (two_disks_env fun _ _ => none)
        (sample_port 0 14 []) sample_slave ATA_CMD_ID_ATA world0 = some (rc, d, w') ∧
      (rc = 0 ∨ rc = 1 ∨ rc = 2) ∧
      data_reads w' = data_reads world0 + (if rc = 0 then 1 else 0) := by
  obtain ⟨rc, d, w', h1, h2, -, -, -, h3, -⟩ :=
    actual_try_to_identify_result linux_header false (two_disks_env fun _ _ => none)
      (sample_port 0 14 []) sample_slave ATA_CMD_ID_ATA world0
      (fun h => Option.noConfusion h) _ _ rfl rfl
  exact ⟨fun h => Option.noConfusion h, rc, d, w', h1, h2, h3⟩

/-- On a bus whose status reads `DRDY | DRQ` the ATA identify attempt returns
0 after one data transfer. -/
theorem actual_try_to_identify_example :
    (actual_try_to_identify linux_header false (two_disks_env fun _ _ => none)
        (sample_port 0 14 []) sample_slave ATA_CMD_ID_ATA world0).map
      (fun r => (r.1, data_reads r.2.2)) = some (0, 1) := by
  decide!

/-! ## The identify attempts of one probe (C13) -/

theorem ops_op_uncounted (o o' : BusOp) (w : World) (ho : counted o) (hn : ¬ counted o') :
    ops o (w.op o') = ops o w := by
  rw [ops_op, if_neg (fun h : o' = o => hn (h ▸ ho))]
  rfl

theorem ops_read_status_counted (e : Env) (o : BusOp) (w : World) (ho : counted o) :
    ops o (read_status e w).2 = ops o w :=
  ops_op_uncounted o .read_status w ho (fun h : False => h)

theorem ops_probe_irq_done (e : Env) (hwif : ide_hwif_t) (o : BusOp) (w : World)
    (ho : counted o) : ops o (probe_irq_done e hwif w).2 = ops o w := by
  have h : ops o (read_status e (w.op (.set_irq 0))).2 = ops o w := by
    rw [ops_read_status_counted e o _ ho, ops_op_uncounted o (.set_irq 0) w ho (fun h : False => h)]
  unfold probe_irq_done
  dsimp only
  split_ifs <;> exact h

/-- One identify exchange: it returns 0, 1 or 2, sends the command once, and
transfers one block exactly when it returns 0; a failed exchange leaves the
drive as it was. -/
theorem actual_try_to_identify_ops (k : Header) (ppc : Bool) (e : Env) (hwif : ide_hwif_t)
    (drive : ide_drive_t) (cmd : Nat) (w : World) (hid : drive.id ≠ none) :
    ∃ rc d w', actual_try_to_identify k ppc e hwif drive cmd w = some (rc, d, w') ∧
      rc ≤ 2 ∧ d.id ≠ none ∧ (rc ≠ 0 → d = drive) ∧
      (rc = 0 → d.dev_flags.id_read = true) ∧
      ∀ o, counted o → ops o w' = ops o w + (if BusOp.exec_command cmd = o then 1 else 0) +
        (if rc = 0 ∧ o = .input_data then 1 else 0) := by
  have hb : ∀ o, counted o →
      ops o (ide_busy_sleep k e (identify_timeout k cmd) (identify_send k e hwif cmd w).1
        (identify_send k e hwif cmd w).2).2 =
      ops o w + (if BusOp.exec_command cmd = o then 1 else 0) := by
    intro o ho
    rw [ops_busy_sleep _ _ _ _ _ _ (fun h => by rw [h] at ho; exact ho)
        (fun h => by rw [h] at ho; exact ho),
      ops_identify_send _ _ _ _ _ _ (fun h => by rw [h] at ho; exact ho)
        (fun h => by rw [h] at ho; exact ho) (fun h => by rw [h] at ho; exact ho)]
  unfold actual_try_to_identify
  dsimp only
  generalize ide_busy_sleep k e (identify_timeout k cmd) (identify_send k e hwif cmd w).1
    (identify_send k e hwif cmd w).2 = b at hb
  split_ifs with h1 h2
  · refine ⟨1, drive, b.2, rfl, by omega, hid, fun _ => rfl, fun h => (by cases h), ?_⟩
    intro o ho
    rw [hb o ho]
    simp
  · obtain ⟨d0, w0, hd0, -⟩ := do_identify_inv k ppc e drive cmd
      (read_status e (msleep k e 50 b.2)).2 hid
    obtain ⟨hi, hw0, hr⟩ := do_identify_result k ppc e drive cmd _ d0 w0 hd0
    rw [hd0]
    refine ⟨0, d0, _, rfl, by omega, by rw [hi]; simp, fun h => absurd rfl h, fun _ => hr, ?_⟩
    intro o ho
    rw [ops_read_status_counted e o _ ho, hw0, ops_op, ops_read_status_counted e o _ ho,
      ops_msleep, hb o ho]
    simp [eq_comm]
  · refine ⟨2, drive, _, rfl, by omega, hid, fun _ => rfl, fun h => (by cases h), ?_⟩
    intro o ho
    rw [ops_read_status_counted e o _ ho, ops_msleep, hb o ho]
    simp

/-- One call of `try_to_identify`: as `actual_try_to_identify`, and the port
keeps its drives. -/
theorem try_to_identify_ops (k : Header) (ppc : Bool) (e : Env) (hwif : ide_hwif_t)
    (drive : ide_drive_t) (cmd : Nat) (w : World) (hid : drive.id ≠ none) :
    ∃ rc hw d w', try_to_identify k ppc e hwif drive cmd w = some (rc, hw, d, w') ∧
      rc ≤ 2 ∧ d.id ≠ none ∧ (rc ≠ 0 → d = drive) ∧
      (rc = 0 → d.dev_flags.id_read = true) ∧
      ∀ o, counted o → ops o w' = ops o w + (if BusOp.exec_command cmd = o then 1 else 0) +
        (if rc = 0 ∧ o = .input_data then 1 else 0) := by
  unfold try_to_identify
  dsimp only
  have h0 : ∀ o, counted o →
      ops o (if hwif.ctl_addr ≠ 0 then w.op (.set_irq (autoprobe hwif)) else w) = ops o w := by
    intro o ho
    split_ifs
    · exact ops_op_uncounted o (.set_irq (autoprobe hwif)) w ho (fun h : False => h)
    · rfl
  obtain ⟨rc, d, w', hd, a1, a2, a3, a4, a5⟩ := actual_try_to_identify_ops k ppc e hwif drive cmd
    (if hwif.ctl_addr ≠ 0 then w.op (.set_irq (autoprobe hwif)) else w) hid
  rw [hd]
  dsimp only
  split_ifs
  · refine ⟨rc, _, d, _, rfl, a1, a2, a3, a4, ?_⟩
    intro o ho
    rw [ops_probe_irq_done e hwif o w' ho, a5 o ho, h0 o ho]
  · refine ⟨rc, _, d, _, rfl, a1, a2, a3, a4, ?_⟩
    intro o ho
    rw [a5 o ho, h0 o ho]

/-- The world in which the third identify attempt of `do_probe` starts, when
the second ended in world `w`: after the status read, the reselection of the
drive, the `ATA_CMD_DEV_RESET` command and the busy wait of `WAIT_WORSTCASE`. -/
theorem reset_world_ops (k : Header) (e : Env) (drive : ide_drive_t) (w : World) (o : BusOp)
    (ho : counted o) :
    ops o (ide_busy_sleep k e (WAIT_WORSTCASE k) false
      ((msleep k e 50 (SELECT_DRIVE drive (msleep k e 50 (read_status e w).2))).op
        (.exec_command ATA_CMD_DEV_RESET))).2 =
      ops o w + if BusOp.exec_command ATA_CMD_DEV_RESET = o then 1 else 0 := by
  rw [ops_busy_sleep _ _ _ _ _ _ (fun h => by rw [h] at ho; exact ho)
    (fun h => by rw [h] at ho; exact ho), ops_op, ops_msleep]
  unfold SELECT_DRIVE
  rw [ops_op_uncounted o (.select drive.select) _ ho (fun h : False => h), ops_msleep,
    ops_read_status_counted e o _ ho]

/-- What follows the first two identify attempts in `do_probe`: either no
further attempt is made, and then no command is sent at all, or the last
result was 1 for the ATAPI command, and then the drive is reset and a third
attempt is made in the world after the reset and the worst-case wait. -/
theorem do_probe_after_identify_ops (k : Header) (ppc : Bool) (e : Env) (rc : Nat)
    (hwif : ide_hwif_t) (drive : ide_drive_t) (cmd : Nat) (w : World)
    (hid : drive.id ≠ none) :
    ∃ res, do_probe_after_identify k ppc e rc hwif drive cmd w = some res ∧
      ((res.2.2.1 = drive ∧ (res.1 = none ∨ res.1 = some rc) ∧
          ∀ o, counted o → ops o res.2.2.2 = ops o w) ∨
       (rc = 1 ∧ cmd = ATA_CMD_ID_ATAPI ∧
          ∃ r3, try_to_identify k ppc e hwif drive cmd
              (ide_busy_sleep k e (WAIT_WORSTCASE k) false
                ((msleep k e 50 (SELECT_DRIVE drive (msleep k e 50 (read_status e w).2))).op
                  (.exec_command ATA_CMD_DEV_RESET))).2 = some r3 ∧
            res = (some r3.1, r3.2.1, r3.2.2.1, (read_status e r3.2.2.2).2) ∧
            r3.1 ≤ 2 ∧ r3.2.2.1.id ≠ none ∧ (r3.1 ≠ 0 → r3.2.2.1 = drive) ∧
            (r3.1 = 0 → r3.2.2.1.dev_flags.id_read = true) ∧
            ∀ o, counted o → ops o res.2.2.2 =
              ops o w + (if BusOp.exec_command ATA_CMD_DEV_RESET = o then 1 else 0) +
                (if BusOp.exec_command cmd = o then 1 else 0) +
                (if r3.1 = 0 ∧ o = .input_data then 1 else 0))) := by
  unfold do_probe_after_identify
  dsimp only
  split_ifs with h1 h2
  · exact ⟨_, rfl, Or.inl ⟨rfl, Or.inl rfl, fun o ho => ops_read_status_counted e o w ho⟩⟩
  · obtain ⟨rc3, hw3, d3, w3, h3, a1, a2, a3, a4, a5⟩ := try_to_identify_ops k ppc e hwif drive cmd
      (ide_busy_sleep k e (WAIT_WORSTCASE k) false
        ((msleep k e 50 (SELECT_DRIVE drive (msleep k e 50 (read_status e w).2))).op
          (.exec_command ATA_CMD_DEV_RESET))).2 hid
    rw [h3]
    refine ⟨_, rfl, Or.inr ⟨h2.1, h2.2, _, rfl, rfl, a1, a2, a3, a4, ?_⟩⟩
    intro o ho
    show ops o (read_status e w3).2 = _
    rw [ops_read_status_counted e o _ ho, a5 o ho, reset_world_ops k e drive w o ho]
  · refine ⟨_, rfl, Or.inl ⟨rfl, Or.inr rfl, fun o ho => ?_⟩⟩
    show ops o (read_status e (read_status e w).2).2 = _
    rw [ops_read_status_counted e o _ ho, ops_read_status_counted e o _ ho]

/-- C13: the identify stage of `do_probe`, for a drive with an identify buffer
and a command other than the reset command, returns, and sends the identify
command `n` times with `1 ≤ n ≤ 3`.  A second attempt is made exactly when
the first did not return 0; for a command other than the ATAPI identify
`n ≤ 2`; with at most two attempts no reset command is sent; and a third
attempt is made only for the ATAPI identify after a second attempt that
returned 1, and it starts after one `ATA_CMD_DEV_RESET` command and the busy
wait with timeout `WAIT_WORSTCASE`. -/
theorem do_probe_identify_attempts (k : Header) (ppc : Bool) (e : Env) (hwif : ide_hwif_t)
    (drive : ide_drive_t) (cmd : Nat) (w : World) (hid : drive.id ≠ none)
    (hc : cmd ≠ ATA_CMD_DEV_RESET) :
    ∃ rc1 hw1 d1 w1 res n,
      try_to_identify k ppc e hwif drive cmd w = some (rc1, hw1, d1, w1) ∧
      do_probe_identify k ppc e hwif drive cmd w = some res ∧
      ops (.exec_command cmd) res.2.2.2 = ops (.exec_command cmd) w + n ∧
      1 ≤ n ∧ n ≤ 3 ∧ (2 ≤ n ↔ rc1 ≠ 0) ∧ (cmd ≠ ATA_CMD_ID_ATAPI → n ≤ 2) ∧
      (n ≤ 2 → ops (.exec_command ATA_CMD_DEV_RESET) res.2.2.2 =
        ops (.exec_command ATA_CMD_DEV_RESET) w) ∧
      (n = 3 → cmd = ATA_CMD_ID_ATAPI ∧
        ∃ hw2 d2 w2 r3, try_to_identify k ppc e hw1 d1 cmd w1 = some (1, hw2, d2, w2) ∧
          try_to_identify k ppc e hw2 d2 cmd
            (ide_busy_sleep k e (WAIT_WORSTCASE k) false
              ((msleep k e 50 (SELECT_DRIVE d2 (msleep k e 50 (read_status e w2).2))).op
                (.exec_command ATA_CMD_DEV_RESET))).2 = some r3 ∧
          res = (some r3.1, r3.2.1, r3.2.2.1, (read_status e r3.2.2.2).2) ∧
          ops (.exec_command ATA_CMD_DEV_RESET) res.2.2.2 =
            ops (.exec_command ATA_CMD_DEV_RESET) w + 1) := by
  have hc' : ¬ ATA_CMD_DEV_RESET = cmd := fun h => hc h.symm
  obtain ⟨rc1, hw1, d1, w1, h1, -, i1, -, -, c1⟩ := try_to_identify_ops k ppc e hwif drive cmd w hid
  have c1c := c1 (.exec_command cmd) trivial
  have c1r := c1 (.exec_command ATA_CMD_DEV_RESET) trivial
  simp only [BusOp.exec_command.injEq, hc, if_false, if_true, and_false, Nat.add_zero,
    reduceCtorEq] at c1c c1r
  unfold do_probe_identify
  rw [h1]
  dsimp only
  split_ifs with hrc
  · obtain ⟨rc2, hw2, d2, w2, h2, -, i2, -, -, c2⟩ := try_to_identify_ops k ppc e hw1 d1 cmd w1 i1
    have c2c := c2 (.exec_command cmd) trivial
    have c2r := c2 (.exec_command ATA_CMD_DEV_RESET) trivial
    simp only [BusOp.exec_command.injEq, hc, if_false, if_true, and_false, Nat.add_zero,
      reduceCtorEq] at c2c c2r
    rw [h2]
    dsimp only
    obtain ⟨res, hres, hcase⟩ := do_probe_after_identify_ops k ppc e rc2 hw2 d2 cmd w2 i2
    rcases hcase with ⟨-, -, c3⟩ | ⟨r1, r2, r3, t3, e3, -, -, -, -, c3⟩
    · refine ⟨rc1, hw1, d1, w1, res, 2, rfl, hres, ?_, by omega, by omega, by simp [hrc],
        fun _ => le_refl 2, fun _ => ?_, fun h => absurd h (by omega)⟩
      · rw [c3 (.exec_command cmd) trivial, c2c, c1c]
      · rw [c3 (.exec_command ATA_CMD_DEV_RESET) trivial, c2r, c1r]
    · have c3c := c3 (.exec_command cmd) trivial
      have c3r := c3 (.exec_command ATA_CMD_DEV_RESET) trivial
      simp only [BusOp.exec_command.injEq, hc, hc', if_false, if_true, and_false, Nat.add_zero,
        reduceCtorEq] at c3c c3r
      refine ⟨rc1, hw1, d1, w1, res, 3, rfl, hres, ?_, by omega, by omega, by simp [hrc],
        fun h => absurd r2 h, fun h => absurd h (by omega),
        fun _ => ⟨r2, hw2, d2, w2, r3, ?_, t3, e3, ?_⟩⟩
      · rw [c3c, c2c, c1c]
      · rw [h2, r1]
      · rw [c3r, c2r, c1r]
  · simp only [ne_eq, not_not] at hrc
    obtain ⟨res, hres, hcase⟩ := do_probe_after_identify_ops k ppc e rc1 hw1 d1 cmd w1 i1
    rcases hcase with ⟨-, -, c3⟩ | ⟨r1, -⟩
    · refine ⟨rc1, hw1, d1, w1, res, 1, rfl, hres, ?_, by omega, by omega, by simp [hrc],
        fun _ => by omega, fun _ => ?_, fun h => absurd h (by omega)⟩
      · rw [c3 (.exec_command cmd) trivial, c1c]
      · rw [c3 (.exec_command ATA_CMD_DEV_RESET) trivial, c1r]
    · omega

/-- A device that shows `ATA_BUSY` alone for ever gets three ATAPI identify
attempts and one reset. -/
theorem do_probe_identify_attempts_witness :
    ∃ rc1 hw1 d1 w1 res n,
      try_to_identify linux_header false (sample_env (fun _ => 0x80) [] 10000 fun _ _ => none)
        (sample_port 0 14 []) sample_slave ATA_CMD_ID_ATAPI world0 = some (rc1, hw1, d1, w1) ∧
      do_probe_identify linux_header false (sample_env (fun _ => 0x80) [] 10000 fun _ _ => none)
        (sample_port 0 14 []) sample_slave ATA_CMD_ID_ATAPI world0 = some res ∧
      ops (.exec_command ATA_CMD_ID_ATAPI) res.2.2.2 =
        ops (.exec_command ATA_CMD_ID_ATAPI) world0 + n ∧
      1 ≤ n ∧ n ≤ 3 ∧ (2 ≤ n ↔ rc1 ≠ 0) := by
  obtain ⟨rc1, hw1, d1, w1, res, n, h1, h2, h3, h4, h5, h6, -⟩ :=
    do_probe_identify_attempts linux_header false
      (sample_env (fun _ => 0x80) [] 10000 fun _ _ => none)
      (sample_port 0 14 []) sample_slave ATA_CMD_ID_ATAPI world0
      (fun h => Option.noConfusion h) (by decide)
  exact ⟨rc1, hw1, d1, w1, res, n, h1, h2, h3, h4, h5, h6⟩

/-- The three attempts and the reset of a device that stays busy, and the
single attempt of a device that answers at once. -/
theorem do_probe_identify_attempts_example :
    (do_probe_identify linux_header false (sample_env (fun _ => 0x80) [] 10000 fun _ _ => none)
        (sample_port 0 14 []) sample_slave ATA_CMD_ID_ATAPI world0).map
      (fun r => (r.1, ops (.exec_command ATA_CMD_ID_ATAPI) r.2.2.2,
        ops (.exec_command ATA_CMD_DEV_RESET) r.2.2.2)) = some (some 1, 3, 1) ∧
    (do_probe_identify linux_header false (two_disks_env fun _ _ => none)
        (sample_port 0 14 []) sample_slave ATA_CMD_ID_ATA world0).map
      (fun r => (r.1, ops (.exec_command ATA_CMD_ID_ATA) r.2.2.2,
        ops (.exec_command ATA_CMD_DEV_RESET) r.2.2.2)) = some (some 0, 1, 0) := by
  decide!

/-! ## What the probe of a drive does to the drive and the bus (C15, C17) -/

theorem probe_rel_same (drive : ide_drive_t) (w w' : World) (hid : drive.id ≠ none)
    (h : ∀ o, counted o → ops o w' = ops o w) : probe_rel drive w drive w' :=
  ⟨hid, h _ trivial, Or.inl ⟨rfl, h .input_data trivial⟩⟩

theorem probe_rel_trans (a b c : ide_drive_t) (w1 w2 w3 : World)
    (h1 : probe_rel a w1 b w2) (h2 : probe_rel b w2 c w3) : probe_rel a w1 c w3 := by
  obtain ⟨-, o1, d1⟩ := h1
  obtain ⟨i2, o2, d2⟩ := h2
  refine ⟨i2, o2.trans o1, ?_⟩
  rcases d1 with ⟨e1, r1⟩ | ⟨f1, r1⟩ <;> rcases d2 with ⟨e2, r2⟩ | ⟨f2, r2⟩
  · exact Or.inl ⟨e2.trans e1, r2.trans r1⟩
  · exact Or.inr ⟨f2, by omega⟩
  · exact Or.inr ⟨by rw [e2]; exact f1, by omega⟩
  · exact Or.inr ⟨f2, by omega⟩

theorem try_to_identify_rel (k : Header) (ppc : Bool) (e : Env) (hwif : ide_hwif_t)
    (drive : ide_drive_t) (cmd : Nat) (w : World) (rc : Nat) (hw : ide_hwif_t)
    (d : ide_drive_t) (w' : World) (hid : drive.id ≠ none)
    (hc : cmd ≠ ATA_EXABYTE_ENABLE_NEST)
    (h : try_to_identify k ppc e hwif drive cmd w = some (rc, hw, d, w')) :
    probe_rel drive w d w' := by
  obtain ⟨rc1, hw1, d1, w1, h1, -, a2, a3, a4, a5⟩ := try_to_identify_ops k ppc e hwif drive cmd w hid
  rw [h] at h1
  simp only [Option.some.injEq, Prod.mk.injEq] at h1
  obtain ⟨g1, g2, g3, g4⟩ := h1
  subst g1; subst g2; subst g3; subst g4
  have c1 := a5 (.exec_command ATA_EXABYTE_ENABLE_NEST) trivial
  have c2 := a5 .input_data trivial
  simp only [BusOp.exec_command.injEq, hc, if_false, and_false, Nat.add_zero, reduceCtorEq,
    and_true] at c1 c2
  refine ⟨a2, c1, ?_⟩
  by_cases h0 : rc = 0
  · refine Or.inr ⟨a4 h0, ?_⟩
    unfold data_reads
    rw [c2, if_pos h0]
    omega
  · refine Or.inl ⟨a3 h0, ?_⟩
    unfold data_reads
    rw [c2, if_neg h0]
    rfl

theorem do_probe_after_identify_rel (k : Header) (ppc : Bool) (e : Env) (rc : Nat)
    (hwif : ide_hwif_t) (drive : ide_drive_t) (cmd : Nat) (w : World) (r : Option Nat)
    (hw : ide_hwif_t) (d : ide_drive_t) (w' : World) (hid : drive.id ≠ none)
    (hc : cmd ≠ ATA_EXABYTE_ENABLE_NEST)
    (h : do_probe_after_identify k ppc e rc hwif drive cmd w = some (r, hw, d, w')) :
    probe_rel drive w d w' := by
  obtain ⟨res, hres, hcase⟩ := do_probe_after_identify_ops k ppc e rc hwif drive cmd w hid
  rw [h] at hres
  simp only [Option.some.injEq] at hres
  subst hres
  rcases hcase with ⟨a1, -, a3⟩ | ⟨-, -, r3, -, e3, -, b2, b3, b4, b5⟩
  · dsimp only at a1 a3
    subst a1
    exact probe_rel_same _ _ _ hid a3
  · have c1 := b5 (.exec_command ATA_EXABYTE_ENABLE_NEST) trivial
    have c2 := b5 .input_data trivial
    have hr : ¬ ATA_CMD_DEV_RESET = ATA_EXABYTE_ENABLE_NEST := by decide
    simp only [BusOp.exec_command.injEq, hc, hr, if_false, and_false, Nat.add_zero,
      reduceCtorEq, and_true] at c1 c2
    simp only [Prod.mk.injEq] at e3
    obtain ⟨-, -, g3, -⟩ := e3
    rw [← g3] at b2 b3 b4
    refine ⟨b2, c1, ?_⟩
    by_cases h0 : r3.1 = 0
    · refine Or.inr ⟨b4 h0, ?_⟩
      unfold data_reads
      rw [c2, if_pos h0]
      omega
    · refine Or.inl ⟨b3 h0, ?_⟩
      unfold data_reads
      rw [c2, if_neg h0]
      rfl

theorem do_probe_identify_rel (k : Header) (ppc : Bool) (e : Env)
    (hwif : ide_hwif_t) (drive : ide_drive_t) (cmd : Nat) (w : World) (r : Option Nat)
    (hw : ide_hwif_t) (d : ide_drive_t) (w' : World) (hid : drive.id ≠ none)
    (hc : cmd ≠ ATA_EXABYTE_ENABLE_NEST)
    (h : do_probe_identify k ppc e hwif drive cmd w = some (r, hw, d, w')) :
    probe_rel drive w d w' := by
  unfold do_probe_identify at h
  split at h
  · cases h
  · rename_i rc1 hw1 d1 w1 heq
    have a := try_to_identify_rel _ _ _ _ _ _ _ _ _ _ _ hid hc heq
    split_ifs at h
    · split at h
      · cases h
      · rename_i rc2 hw2 d2 w2 heq2
        have b := try_to_identify_rel _ _ _ _ _ _ _ _ _ _ _ a.1 hc heq2
        have c := do_probe_after_identify_rel _ _ _ _ _ _ _ _ _ _ _ _ b.1 hc h
        exact probe_rel_trans _ _ _ _ _ _ (probe_rel_trans _ _ _ _ _ _ a b) c
    · have c := do_probe_after_identify_rel _ _ _ _ _ _ _ _ _ _ _ _ a.1 hc h
      exact probe_rel_trans _ _ _ _ _ _ a c

theorem ops_dev0_select (hwif : ide_hwif_t) (o : BusOp) (w : World) (ho : counted o) :
    ops o (dev0_select hwif w) = ops o w := by
  unfold dev0_select
  split
  · exact ops_op_uncounted o (.select _) w ho (fun h : False => h)
  · rfl

theorem ops_do_probe_exit (k : Header) (e : Env) (hwif : ide_hwif_t) (drive : ide_drive_t)
    (o : BusOp) (w : World) (ho : counted o) :
    ops o (do_probe_exit k e hwif drive w) = ops o w := by
  unfold do_probe_exit
  split_ifs
  · dsimp only
    rw [ops_read_status_counted e o _ ho, ops_msleep, ops_dev0_select hwif o w ho]
  · rfl

theorem do_probe_rel (k : Header) (ppc : Bool) (e : Env)
    (hwif : ide_hwif_t) (drive : ide_drive_t) (cmd : Nat) (w : World) (rc : Nat)
    (hw : ide_hwif_t) (d : ide_drive_t) (w' : World) (hid : drive.id ≠ none)
    (hc : cmd ≠ ATA_EXABYTE_ENABLE_NEST)
    (h : do_probe k ppc e hwif drive cmd w = some (rc, hw, d, w')) :
    probe_rel drive w d w' := by
  unfold do_probe at h
  dsimp only at h
  have h1 : ∀ o, counted o →
      ops o (ide_read_device e (msleep k e 50 (SELECT_DRIVE drive (msleep k e 50 w)))).2 =
        ops o w := by
    intro o ho
    unfold ide_read_device SELECT_DRIVE
    rw [ops_op_uncounted o .tf_read_device _ ho (fun h : False => h), ops_msleep,
      ops_op_uncounted o (.select _) _ ho (fun h : False => h), ops_msleep]
  generalize ide_read_device e (msleep k e 50 (SELECT_DRIVE drive (msleep k e 50 w))) = dev
    at h h1
  have h2 : ∀ o, counted o → ops o (read_status e dev.2).2 = ops o w := by
    intro o ho
    rw [ops_read_status_counted e o _ ho, h1 o ho]
  generalize read_status e dev.2 = s at h h2
  split_ifs at h with c1 c2 c3 c4
  · simp only [Option.some.injEq, Prod.mk.injEq] at h
    obtain ⟨-, -, g3, g4⟩ := h
    subst g3; subst g4
    exact probe_rel_same _ _ _ hid (fun _ _ => rfl)
  · simp only [Option.some.injEq, Prod.mk.injEq] at h
    obtain ⟨-, -, g3, g4⟩ := h
    subst g3; subst g4
    refine probe_rel_same _ _ _ hid (fun o ho => ?_)
    rw [ops_msleep, ops_dev0_select hwif o _ ho, h1 o ho]
  · simp only [Option.some.injEq, Prod.mk.injEq] at h
    obtain ⟨-, -, g3, g4⟩ := h
    subst g3; subst g4
    exact probe_rel_same _ _ _ hid h1
  · split at h
    · cases h
    · rename_i hw1 d1 w2 heq
      simp only [Option.some.injEq, Prod.mk.injEq] at h
      obtain ⟨-, -, g3, g4⟩ := h
      subst g3; subst g4
      have a := do_probe_identify_rel _ _ _ _ _ _ _ _ _ _ _ hid hc heq
      exact probe_rel_trans _ _ _ _ _ _ (probe_rel_same _ _ _ hid h2) a
    · rename_i rc1 hw1 d1 w2 heq
      simp only [Option.some.injEq, Prod.mk.injEq] at h
      obtain ⟨-, -, g3, g4⟩ := h
      subst g3; subst g4
      have a := do_probe_identify_rel _ _ _ _ _ _ _ _ _ _ _ hid hc heq
      exact probe_rel_trans _ _ _ _ _ _ (probe_rel_trans _ _ _ _ _ _ (probe_rel_same _ _ _ hid h2) a)
        (probe_rel_same _ _ _ a.1 (fun o ho => ops_do_probe_exit k e _ _ o _ ho))
  · split at h
    · cases h
    · rename_i hw1 d1 w2 heq
      simp only [Option.some.injEq, Prod.mk.injEq] at heq
      obtain ⟨g1, -⟩ := heq
      cases g1
    · rename_i rc1 hw1 d1 w2 heq
      simp only [Option.some.injEq, Prod.mk.injEq] at heq h
      obtain ⟨g1, g2, g3, g4⟩ := heq
      obtain ⟨-, -, k3, k4⟩ := h
      subst g3; subst g4; subst k3; subst k4
      refine probe_rel_same _ _ _ hid (fun o ho => ?_)
      rw [ops_do_probe_exit k e _ _ o _ ho, h2 o ho]

theorem probe_both_rel (k : Header) (ppc : Bool) (e : Env)
    (hwif : ide_hwif_t) (drive : ide_drive_t) (w : World)
    (hw : ide_hwif_t) (d : ide_drive_t) (w' : World) (hid : drive.id ≠ none)
    (h : probe_both k ppc e hwif drive w = some (hw, d, w')) :
    probe_rel drive w d w' := by
  unfold probe_both at h
  split at h
  · cases h
  · rename_i rc1 hw1 d1 w1 heq
    have a := do_probe_rel _ _ _ _ _ _ _ _ _ _ _ hid (by decide) heq
    split_ifs at h
    · simp only [Option.map_eq_some'] at h
      obtain ⟨⟨rc2, hw2, d2, w2⟩, h2, g⟩ := h
      simp only [Prod.mk.injEq] at g
      obtain ⟨g1, g2, g3⟩ := g
      subst g1; subst g2; subst g3
      have b := do_probe_rel _ _ _ _ _ _ _ _ _ _ _ a.1 (by decide) h2
      exact probe_rel_trans _ _ _ _ _ _ a b
    · simp only [Option.some.injEq, Prod.mk.injEq] at h
      obtain ⟨g1, g2, g3⟩ := h
      subst g1; subst g2; subst g3
      exact a

/-- One pass through the probe block of `probe_for_drive`: the drive comes out
of the two `do_probe` calls as `d1`; the function leaves through `return 0`
when `d1` is not present and goes on with `probe_unidentified` otherwise. -/
theorem probe_retry_rel (k : Header) (ppc : Bool) (e : Env)
    (hwif : ide_hwif_t) (drive : ide_drive_t) (w : World) (b : Bool)
    (hw : ide_hwif_t) (d : ide_drive_t) (w' : World) (hid : drive.id ≠ none)
    (h : probe_retry k ppc e 1 hwif drive w = some (b, hw, d, w')) :
    ∃ d1, probe_rel drive w d1 w' ∧
      ((b = true ∧ d = d1 ∧ d1.dev_flags.present = false) ∨
       (b = false ∧ d = probe_unidentified k d1)) := by
  unfold probe_retry at h
  split at h
  · cases h
  · rename_i hw1 d1 w1 heq
    have a := probe_both_rel _ _ _ _ _ _ _ _ _ hid heq
    split_ifs at h with hp
    · simp only [Option.some.injEq, Prod.mk.injEq] at h
      obtain ⟨g1, g2, g3, g4⟩ := h
      subst g1; subst g2; subst g3; subst g4
      exact ⟨_, a, Or.inl ⟨rfl, rfl, hp⟩⟩
    · split at h
      · cases h
      · split_ifs at h
        · simp only [probe_retry] at h
          cases h
        · simp only [Option.some.injEq, Prod.mk.injEq] at h
          obtain ⟨g1, g2, g3, g4⟩ := h
          subst g1; subst g2; subst g3; subst g4
          exact ⟨_, a, Or.inr ⟨rfl, rfl⟩⟩

theorem probe_unidentified_flags (k : Header) (drive : ide_drive_t) :
    (probe_unidentified k drive).dev_flags.id_read = drive.dev_flags.id_read ∧
    ((probe_unidentified k drive).dev_flags.present = true → drive.dev_flags.present = true) := by
  unfold probe_unidentified
  split_ifs
  · exact ⟨rfl, fun h => h⟩
  · exact ⟨rfl, fun h => h⟩
  · exact ⟨rfl, fun h => by cases h⟩
  · exact ⟨rfl, fun h => h⟩

theorem generic_id_flags (drive d : ide_drive_t) (h : generic_id drive = some d) :
    d.dev_flags = drive.dev_flags := by
  unfold generic_id at h
  split at h
  · cases h
  · simp only [Option.some.injEq] at h
    subst h; rfl

theorem ide_disk_init_chs_flags (k : Header) (drive d : ide_drive_t)
    (h : ide_disk_init_chs k drive = some d) : d.dev_flags = drive.dev_flags := by
  unfold ide_disk_init_chs at h
  split at h
  · cases h
  · simp only [Option.some.injEq] at h
    subst h
    split_ifs <;> rfl

theorem ide_disk_init_mult_count_flags (drive d : ide_drive_t)
    (h : ide_disk_init_mult_count drive = some d) : d.dev_flags = drive.dev_flags := by
  unfold ide_disk_init_mult_count at h
  split at h
  · cases h
  · dsimp only at h
    split_ifs at h <;> (simp only [Option.some.injEq] at h; subst h; rfl)

theorem probe_finish_flags (k : Header) (hwif : ide_hwif_t) (drive : ide_drive_t) (w : World)
    (rc : Nat) (hw : ide_hwif_t) (d : ide_drive_t) (w' : World)
    (h : probe_finish k hwif drive w = some (rc, hw, d, w')) :
    d.dev_flags = drive.dev_flags ∧ w' = w := by
  unfold probe_finish at h
  split_ifs at h
  · simp only [Option.some.injEq, Prod.mk.injEq] at h
    obtain ⟨-, -, g3, g4⟩ := h
    subst g3; subst g4
    exact ⟨rfl, rfl⟩
  · simp only [Option.map_eq_some', Prod.mk.injEq] at h
    obtain ⟨d2, h2, -, -, g3, g4⟩ := h
    subst g3; subst g4
    exact ⟨generic_id_flags _ _ h2, rfl⟩
  · simp only [Option.map_eq_some', Prod.mk.injEq, Option.bind_eq_some] at h
    obtain ⟨d2, ⟨d3, h3, h2⟩, -, -, g3, g4⟩ := h
    subst g3; subst g4
    exact ⟨(ide_disk_init_mult_count_flags _ _ h2).trans (ide_disk_init_chs_flags _ _ _ h3), rfl⟩
  · simp only [Option.map_eq_some', Prod.mk.injEq] at h
    obtain ⟨d2, h2, -, -, g3, g4⟩ := h
    simp only [Option.some.injEq] at h2
    subst g3; subst g4; subst h2
    exact ⟨rfl, rfl⟩

/-- What `probe_for_drive` does to a drive, for every bus: it returns, it never
sends the `ATA_EXABYTE_ENABLE_NEST` command, and either no identify block was
transferred, `IDE_DFLAG_ID_READ` is clear and the drive is present only if it
was so at entry, or a block was transferred and `IDE_DFLAG_ID_READ` is set. -/
theorem probe_for_drive_rel (k : Header) (ppc : Bool) (e : Env) (fuel : Nat)
    (hwif : ide_hwif_t) (drive : ide_drive_t) (w : World) :
    ∃ rc hw d w', probe_for_drive k ppc e (fuel + 1) hwif drive w = some (rc, hw, d, w') ∧
      ops (.exec_command ATA_EXABYTE_ENABLE_NEST) w' =
        ops (.exec_command ATA_EXABYTE_ENABLE_NEST) w ∧
      (((d.dev_flags.present = true → drive.dev_flags.present = true) ∧
          d.dev_flags.id_read = false ∧ data_reads w' = data_reads w) ∨
       (d.dev_flags.id_read = true ∧ data_reads w < data_reads w')) := by
  obtain ⟨⟨rc, hw, d, w', h, -⟩, hf⟩ := probe_for_drive_total k ppc e fuel hwif drive w
  refine ⟨rc, hw, d, w', h, ?_⟩
  rw [hf] at h
  unfold probe_for_drive at h
  dsimp only at h
  split_ifs at h with ha hn
  · simp only [Option.some.injEq, Prod.mk.injEq] at h
    obtain ⟨-, -, g3, g4⟩ := h
    subst g3; subst g4
    exact ⟨rfl, Or.inl ⟨fun h => h, rfl, rfl⟩⟩
  · split at h
    · cases h
    · rename_i hw1 d1 w1 heq
      obtain ⟨d0, ⟨-, r2, r3⟩, hcase⟩ := probe_retry_rel _ _ _ _ _ _ _ _ _ _
        (by simp) heq
      simp only [Option.some.injEq, Prod.mk.injEq] at h
      obtain ⟨-, -, g3, g4⟩ := h
      subst g3; subst g4
      rcases hcase with ⟨-, c2, c3⟩ | ⟨c1, -⟩
      · subst c2
        refine ⟨r2, ?_⟩
        rcases r3 with ⟨e1, e2⟩ | ⟨f1, f2⟩
        · exact Or.inl ⟨fun h => (by rw [c3] at h; cases h), (by rw [e1]), e2⟩
        · exact Or.inr ⟨f1, f2⟩
      · cases c1
    · rename_i hw1 d1 w1 heq
      obtain ⟨d0, ⟨-, r2, r3⟩, hcase⟩ := probe_retry_rel _ _ _ _ _ _ _ _ _ _
        (by simp) heq
      obtain ⟨p1, p2⟩ := probe_finish_flags _ _ _ _ _ _ _ _ h
      subst p2
      rcases hcase with ⟨c1, -⟩ | ⟨-, c2⟩
      · cases c1
      · subst c2
        obtain ⟨u1, u2⟩ := probe_unidentified_flags k d0
        refine ⟨r2, ?_⟩
        rw [p1]
        rcases r3 with ⟨e1, e2⟩ | ⟨f1, f2⟩
        · refine Or.inl ⟨fun h => ?_, by rw [u1, e1], e2⟩
          have := u2 h
          rw [e1] at this
          exact this
        · exact Or.inr ⟨by rw [u1]; exact f1, f2⟩
  · obtain ⟨p1, p2⟩ := probe_finish_flags _ _ _ _ _ _ _ _ h
    subst p2
    rw [p1]
    exact ⟨rfl, Or.inl ⟨fun h => h, rfl, rfl⟩⟩

/-- C15: `probe_for_drive` never runs the vendor enable sequence.  For every
drive and every behaviour of the bus, so also when an identify response
with "E X A B Y T E N E S T" in its model string is read, the function
returns without a single `ATA_EXABYTE_ENABLE_NEST` command on the bus:
`do_identify` clears `IDE_DFLAG_PRESENT` for such a response, and
`probe_for_drive` returns 0 before it looks at the model string. -/
theorem probe_for_drive_never_enables_nest (k : Header) (ppc : Bool) (e : Env) (fuel : Nat)
    (hwif : ide_hwif_t) (drive : ide_drive_t) (w : World) :
    ∃ rc hw d w', probe_for_drive k ppc e (fuel + 1) hwif drive w = some (rc, hw, d, w') ∧
      ops (.exec_command ATA_EXABYTE_ENABLE_NEST) w' =
        ops (.exec_command ATA_EXABYTE_ENABLE_NEST) w := by
  obtain ⟨rc, hw, d, w', h, hn, -⟩ := probe_for_drive_rel k ppc e fuel hwif drive w
  exact ⟨rc, hw, d, w', h, hn⟩

/-- A master that answers the ATA identify command with a block whose
normalised model string is " E X A B Y T E N E S T": the probe sends the
identify command once, reads the block, returns 0 with the drive not
present, and sends no `ATA_EXABYTE_ENABLE_NEST` command. -/
theorem probe_for_drive_nest_example :
    (probe_for_drive linux_header false
        (sample_env (fun n => if n = 1 then 0xA0 else 0x48)
          (sample_id 0x0040 "E X A B Y T E N E S T " "SN0001") 0 fun _ _ => none)
        1 (sample_port 0 14 []) (fresh_drive 0x20 0) world0).map
      (fun r => (r.1, r.2.2.1.dev_flags.present, data_reads r.2.2.2,
        ops (.exec_command ATA_CMD_ID_ATA) r.2.2.2,
        ops (.exec_command ATA_EXABYTE_ENABLE_NEST) r.2.2.2)) = some (0, false, 1, 1, 0) ∧
    (probe_for_drive linux_header false
        (sample_env (fun n => if n = 1 then 0xA0 else 0x48)
          (sample_id 0x0040 "E X A B Y T E N E S T " "SN0001") 0 fun _ _ => none)
        1 (sample_port 0 14 []) (fresh_drive 0x20 0) world0).map
      (fun r => r.2.2.1.id.map model_string) = some (some (lit " E X A B Y T E N E S T")) := by
  decide!

/-- A tape slot that is marked present before the probe, on a bus without any
device, loses `IDE_DFLAG_PRESENT`; a present disk slot for which the
identify buffer cannot be allocated stays present, without a buffer, and
the result is 0. -/
theorem probe_for_drive_present_examples :
    (probe_for_drive linux_header false silent_env 1 (sample_port 0 14 [])
        { present_drive 0 with media := 0x1 } world0).map
      (fun r => (r.1, r.2.2.1.dev_flags.present, r.2.2.1.dev_flags.id_read,
        data_reads r.2.2.2)) = some (0, false, false, 0) ∧
    (probe_for_drive linux_header false { silent_env with alloc_ok := fun _ => false } 1
        (sample_port 0 14 []) (present_drive 0) world0).map
      (fun r => (r.1, r.2.2.1.dev_flags.present, r.2.2.1.id, data_reads r.2.2.2)) =
      some (0, true, none, 0) := by
  decide!

theorem init_irq_irq (e : Env) (a : Nat) (h : ide_hwif_t) (w : World) :
    (init_irq e a h w).2.1.irq = h.irq ∧
    (init_irq e a h w).2.1.data_addr = h.data_addr ∧
    ((init_irq e a h w).1 = 0 ↔ e.request_irq h.irq h.index a = 0) := by
  unfold init_irq
  dsimp only
  by_cases h1 : e.request_irq h.irq h.index a = 0
  · rw [if_neg (not_not.2 h1)]
    refine ⟨?_, ?_, fun _ => h1, fun _ => rfl⟩
    · split_ifs <;> rfl
    · split_ifs <;> rfl
  · rw [if_pos h1]
    exact ⟨rfl, rfl, fun h0 => absurd h0 (Nat.succ_ne_zero 0), fun h0 => absurd h0 h1⟩

theorem hwif_init_irqs_irq (e : Env) (h : ide_hwif_t) (w : World) :
    (hwif_init_irqs e h w).2.1.irq =
      if e.request_irq h.irq h.index 0 ≠ 0 then e.ide_default_irq h.data_addr else h.irq := by
  obtain ⟨a1, a2, a3⟩ := init_irq_irq e 0 h w
  obtain ⟨b1, -, -⟩ := init_irq_irq e 1
    { (init_irq e 0 h w).2.1 with irq := e.ide_default_irq (init_irq e 0 h w).2.1.data_addr }
    (init_irq e 0 h w).2.2
  unfold hwif_init_irqs
  dsimp only
  by_cases hq : e.request_irq h.irq h.index 0 = 0
  · rw [if_pos (a3.2 hq), if_neg (not_not.2 hq)]
    exact a1
  · rw [if_neg (fun h0 => hq (a3.1 h0)), if_pos hq]
    split_ifs
    · rw [a2]
    · rw [b1, a2]
    · rw [b1, a2]

theorem hwif_init_blkdev_irq (k : Header) (e : Env) (h : ide_hwif_t) (w : World) :
    (hwif_init_blkdev k e h w).2.1.irq =
      if e.register_blkdev h.major = 0 ∧ e.kmalloc_sg h.index = true ∧
          e.request_irq h.irq h.index 0 ≠ 0 then e.ide_default_irq h.data_addr
      else h.irq := by
  have key : ∀ x : ide_hwif_t, x.irq = h.irq → x.index = h.index →
      x.data_addr = h.data_addr →
      (if ({ x with has_sg_table := e.kmalloc_sg x.index } : ide_hwif_t).has_sg_table = false then
          ((0 : Nat), ({ x with has_sg_table := e.kmalloc_sg x.index } : ide_hwif_t),
            w.call (.unregister_blkdev
              ({ x with has_sg_table := e.kmalloc_sg x.index } : ide_hwif_t).major))
        else hwif_init_irqs e { x with has_sg_table := e.kmalloc_sg x.index } w).2.1.irq =
      if e.kmalloc_sg h.index = true ∧ e.request_irq h.irq h.index 0 ≠ 0 then
        e.ide_default_irq h.data_addr
      else h.irq := by
    intro x x1 x2 x3
    by_cases h2 : e.kmalloc_sg x.index = true
    · have n2 : ¬ ({ x with has_sg_table := e.kmalloc_sg x.index } : ide_hwif_t).has_sg_table =
          false := by
        show ¬ e.kmalloc_sg x.index = false
        rw [h2]; simp
      rw [if_neg n2, hwif_init_irqs_irq]
      show (if e.request_irq x.irq x.index 0 ≠ 0 then e.ide_default_irq x.data_addr else x.irq) = _
      rw [x1, x2, x3]
      rw [x2] at h2
      by_cases h3 : e.request_irq h.irq h.index 0 = 0
      · rw [if_neg (not_not.2 h3), if_neg (fun c => c.2 h3)]
      · rw [if_pos h3, if_pos ⟨h2, h3⟩]
    · have p2 : ({ x with has_sg_table := e.kmalloc_sg x.index } : ide_hwif_t).has_sg_table =
          false := by
        show e.kmalloc_sg x.index = false
        simpa using h2
      rw [if_pos p2]
      rw [x2] at h2
      rw [if_neg (fun c => h2 c.1)]
      exact x1
  unfold hwif_init_blkdev
  dsimp only
  by_cases h1 : e.register_blkdev h.major = 0
  · rw [if_neg (not_not.2 h1)]
    have hk := key (if h.sg_max_nents = 0 then { h with sg_max_nents := k.PRD_ENTRIES } else h)
      (by split_ifs <;> rfl) (by split_ifs <;> rfl) (by split_ifs <;> rfl)
    rw [hk]
    simp only [h1, true_and]
  · rw [if_pos h1, if_neg (fun c => h1 c.1)]

theorem hwif_init_irq (k : Header) (e : Env) (h : ide_hwif_t) (w : World) (hirq : h.irq ≠ 0) :
    (hwif_init k e h w).2.1.irq =
      if e.register_blkdev h.major = 0 ∧ e.kmalloc_sg h.index = true ∧
          e.request_irq h.irq h.index 0 ≠ 0 then e.ide_default_irq h.data_addr
      else h.irq := by
  unfold hwif_init
  dsimp only
  rw [if_neg hirq, if_neg hirq]
  exact hwif_init_blkdev_irq k e h w

theorem probe_irq_done_irq (e : Env) (hwif : ide_hwif_t) (w : World) (h0 : hwif.irq = 0) :
    ∃ n, (probe_irq_done e hwif w).1 =
      { hwif with irq := if 0 < e.probe_irq_off n then (e.probe_irq_off n).toNat else 0 } := by
  have eta : hwif = { hwif with irq := 0 } := by
    cases hwif
    simp only at h0
    subst h0
    rfl
  refine ⟨(read_status e (w.op (.set_irq 0))).2.trace.length, ?_⟩
  unfold probe_irq_done
  dsimp only
  rw [if_pos h0]
  by_cases hp : e.probe_irq_off (read_status e (w.op (.set_irq 0))).2.trace.length > 0
  · rw [if_pos hp, if_pos hp]
  · rw [if_neg hp, if_neg hp]
    exact eta

theorem try_to_identify_irq (k : Header) (ppc : Bool) (e : Env) (hwif : ide_hwif_t)
    (drive : ide_drive_t) (cmd : Nat) (w : World) (rc : Nat) (hw : ide_hwif_t)
    (d : ide_drive_t) (w' : World)
    (h : try_to_identify k ppc e hwif drive cmd w = some (rc, hw, d, w')) :
    (hwif.irq ≠ 0 → hw = hwif) ∧
    (hwif.irq = 0 → ∃ n, hw =
      { hwif with irq :=
          if hwif.ctl_addr ≠ 0 ∧ 0 < e.probe_irq_off n then (e.probe_irq_off n).toNat else 0 }) := by
  have eta : hwif.irq = 0 → hwif = { hwif with irq := 0 } := by
    intro h0
    cases hwif
    simp only at h0
    subst h0
    rfl
  unfold try_to_identify at h
  dsimp only at h
  split at h
  · cases h
  · rename_i rc1 d1 w1 heq
    split_ifs at h with ha
    · have hauto : hwif.ctl_addr ≠ 0 ∧ hwif.irq = 0 := by
        unfold autoprobe at ha
        by_contra hn
        rw [if_neg hn] at ha
        exact ha rfl
      simp only [Option.some.injEq, Prod.mk.injEq] at h
      obtain ⟨-, g2, -, -⟩ := h
      subst g2
      refine ⟨fun hne => absurd hauto.2 hne, fun h0 => ?_⟩
      obtain ⟨n, hn⟩ := probe_irq_done_irq e hwif w1 h0
      refine ⟨n, ?_⟩
      rw [hn]
      by_cases hp : 0 < e.probe_irq_off n
      · rw [if_pos hp, if_pos ⟨hauto.1, hp⟩]
      · rw [if_neg hp, if_neg (fun c => hp c.2)]
    · have hauto : ¬ (hwif.ctl_addr ≠ 0 ∧ hwif.irq = 0) := by
        unfold autoprobe at ha
        intro hn
        rw [if_pos hn] at ha
        exact ha (by decide)
      simp only [Option.some.injEq, Prod.mk.injEq] at h
      obtain ⟨-, g2, -, -⟩ := h
      subst g2
      refine ⟨fun _ => rfl, fun h0 => ⟨0, ?_⟩⟩
      rw [if_neg (fun c => hauto ⟨c.1, h0⟩)]
      exact eta h0

/-- C19: `try_to_identify` leaves an assigned interrupt line, and the whole
port record, as it is; when the line is 0 it changes nothing but the line,
which becomes the result of `probe_irq_off` if the port has a control
register and that result is positive, and stays 0 otherwise.  The function
`hwif_init` keeps an assigned line unless `init_irq` is reached and fails:
then the line is replaced by `__ide_default_irq(data_addr)`, whether or not
the second `init_irq` succeeds. -/
theorem hwif_irq_assignment (k : Header) (ppc : Bool) (e : Env) (hwif : ide_hwif_t)
    (drive : ide_drive_t) (cmd : Nat) (w : World) (hid : drive.id ≠ none) :
    (∃ rc hw d w', try_to_identify k ppc e hwif drive cmd w = some (rc, hw, d, w') ∧
      (hwif.irq ≠ 0 → hw = hwif) ∧
      (hwif.irq = 0 → ∃ n, hw =
        { hwif with irq :=
            if hwif.ctl_addr ≠ 0 ∧ 0 < e.probe_irq_off n then (e.probe_irq_off n).toNat
            else 0 })) ∧
    (hwif.irq ≠ 0 →
      (hwif_init k e hwif w).2.1.irq =
        if e.register_blkdev hwif.major = 0 ∧ e.kmalloc_sg hwif.index = true ∧
            e.request_irq hwif.irq hwif.index 0 ≠ 0 then e.ide_default_irq hwif.data_addr
        else hwif.irq) := by
  obtain ⟨rc, hw, d, w', h, -⟩ := try_to_identify_ops k ppc e hwif drive cmd w hid
  exact ⟨⟨rc, hw, d, w', h, try_to_identify_irq k ppc e hwif drive cmd w rc hw d w' h⟩,
    hwif_init_irq k e hwif w⟩

theorem hwif_irq_assignment_witness :
    sample_slave.id ≠ none ∧
    (∃ rc hw d w', try_to_identify linux_header false irq5_taken_env (sample_port 0 5 [])
        sample_slave ATA_CMD_ID_ATA world0 = some (rc, hw, d, w') ∧
      ((sample_port 0 5 []).irq ≠ 0 → hw = sample_port 0 5 [])) ∧
    ((sample_port 0 5 []).irq ≠ 0 →
      (hwif_init linux_header irq5_taken_env (sample_port 0 5 []) world0).2.1.irq =
        if irq5_taken_env.register_blkdev (sample_port 0 5 []).major = 0 ∧
            irq5_taken_env.kmalloc_sg (sample_port 0 5 []).index = true ∧
            irq5_taken_env.request_irq (sample_port 0 5 []).irq (sample_port 0 5 []).index 0 ≠ 0
        then irq5_taken_env.ide_default_irq (sample_port 0 5 []).data_addr
        else (sample_port 0 5 []).irq) := by
  obtain ⟨⟨rc, hw, d, w', h1, h2, -⟩, h3⟩ :=
    hwif_irq_assignment linux_header false irq5_taken_env (sample_port 0 5 []) sample_slave
      ATA_CMD_ID_ATA world0 (fun h => Option.noConfusion h)
  exact ⟨fun h => Option.noConfusion h, ⟨rc, hw, d, w', h1, h2⟩, h3⟩

/-- A port with interrupt line 5 assigned, for which `request_irq` fails:
`hwif_init` succeeds with the default line 14 and the port record then holds
14, not 5. -/
theorem hwif_init_replaces_irq :
    (sample_port 0 5 []).irq = 5 ∧
    (hwif_init linux_header irq5_taken_env (sample_port 0 5 []) world0).1 = 1 ∧
    (hwif_init linux_header irq5_taken_env (sample_port 0 5 []) world0).2.1.irq = 14 := by
  decide!

/-! ## The pool of port slots (C16, C20) -/

theorem first_zero_from_spec (x : Nat) :
    ∀ (fuel i n : Nat), n ≤ fuel → x.testBit (i + n) = false →
      (∀ j, j < n → x.testBit (i + j) = true) → first_zero_from x fuel i = i + n := by
  intro fuel
  induction fuel with
  | zero =>
    intro i n hn _ _
    have : n = 0 := by omega
    subst this
    rfl
  | succ f ih =>
    intro i n hn h0 h1
    match n with
    | 0 =>
      simp only [first_zero_from]
      rw [Nat.add_zero] at h0
      rw [h0]
      rfl
    | m + 1 =>
      have hi : x.testBit i = true := h1 0 (by omega)
      simp only [first_zero_from, hi, if_true]
      rw [ih (i + 1) m (by omega) (by rw [← h0]; congr 1; omega)
        (fun j hj => by rw [← h1 (j + 1) (by omega)]; congr 1; omega)]
      omega

theorem first_zero_isFfz : IsFfz first_zero := by
  intro x i hi h0 h1
  have := first_zero_from_spec x 32 0 i (by omega) (by rw [Nat.zero_add]; exact h0)
    (fun j hj => by rw [Nat.zero_add]; exact h1 j hj)
  rw [Nat.zero_add] at this
  exact this

/-- A word below `2 ^ m` other than `2 ^ m - 1` has a lowest zero bit below
`m`. -/
theorem exists_first_zero (m y : Nat) (hy : y < 2 ^ m) (hne : y ≠ 2 ^ m - 1) :
    ∃ s, s < m ∧ y.testBit s = false ∧ ∀ j, j < s → y.testBit j = true := by
  have hex : ∃ s, s < m ∧ y.testBit s = false := by
    by_contra hcon
    apply hne
    apply Nat.eq_of_testBit_eq
    intro j
    rw [Nat.testBit_two_pow_sub_one]
    by_cases hj : j < m
    · have : y.testBit j = true := by
        by_contra hb
        exact hcon ⟨j, hj, by simpa using hb⟩
      simp [this, hj]
    · have : y.testBit j = false :=
        Nat.testBit_eq_false_of_lt (lt_of_lt_of_le hy (Nat.pow_le_pow_right (by decide) (by omega)))
      simp [this, hj]
  refine ⟨Nat.find hex, (Nat.find_spec hex).1, (Nat.find_spec hex).2, fun j hj => ?_⟩
  have := Nat.find_min hex hj
  by_contra hb
  exact this ⟨by have := (Nat.find_spec hex).1; omega, by simpa using hb⟩

theorem testBit_full (m s : Nat) (hs : s < m) : (2 ^ m - 1).testBit s = true := by
  rw [Nat.testBit_two_pow_sub_one]
  simp [hs]

theorem testBit_one_eq (s : Nat) : (1 : Nat).testBit s = decide (s < 1) :=
  Nat.testBit_two_pow_sub_one 1 s

theorem testBit_three_eq (s : Nat) : (3 : Nat).testBit s = decide (s < 2) :=
  Nat.testBit_two_pow_sub_one 2 s

theorem slot_result_some (s x : Nat) :
    (((s : Nat) : Int), if ((s : Nat) : Int) ≥ 0 then x ||| 1 <<< ((s : Nat) : Int).toNat else x) =
      ((s : Int), x ||| 1 <<< s) := by
  simp

theorem slot_result_none (x : Nat) :
    ((-ENOENT : Int), if (-ENOENT : Int) ≥ 0 then x ||| 1 <<< (-ENOENT : Int).toNat else x) =
      (-ENOENT, x) := by
  simp [ENOENT]

/-- The branch of `ide_find_port_slot` for a bootable host; `i` is 1 when slot
0 is to be left alone and 0 otherwise. -/
theorem find_slot_bootable (m : Nat) (ffz : Nat → Nat) (x i : Nat) (hf : IsFfz ffz)
    (h2 : 2 ≤ m) (hm : m < 32) (hx : x < 2 ^ m) (hi : i = 0 ∨ i = 1) :
    ((x ||| i) = 2 ^ m - 1 ∧ ∀ s, s < m → (i = 1 → s ≠ 0) → x.testBit s = true) ∨
    (∃ s, s < m ∧ x.testBit s = false ∧ (i = 1 → s ≠ 0) ∧ (x ||| i) ≠ 2 ^ m - 1 ∧
      ffz (x ||| i) = s) := by
  have hil : i < 2 ^ m := by
    have : 2 ^ 1 ≤ 2 ^ m := Nat.pow_le_pow_right (by decide) (by omega)
    omega
  have hy : x ||| i < 2 ^ m := Nat.or_lt_two_pow hx hil
  by_cases hne : (x ||| i) = 2 ^ m - 1
  · refine Or.inl ⟨hne, fun s hs h0 => ?_⟩
    have hb := testBit_full m s hs
    rw [← hne, Nat.testBit_or] at hb
    have hib : i.testBit s = false := by
      rcases hi with hi | hi
      · rw [hi]; simp
      · rw [hi, testBit_one_eq]
        have := h0 hi
        simp; omega
    rw [hib] at hb
    simpa using hb
  · obtain ⟨s, s1, s2, s3⟩ := exists_first_zero m _ hy hne
    refine Or.inr ⟨s, s1, ?_, ?_, hne, hf _ s (by omega) s2 s3⟩
    · rw [Nat.testBit_or] at s2
      simp only [Bool.or_eq_false_iff] at s2
      exact s2.1
    · intro hi1 hs0
      rw [Nat.testBit_or, hi1, hs0] at s2
      simp at s2

/-- The branch of `ide_find_port_slot` for a host that is not bootable. -/
theorem find_slot_non_bootable (m : Nat) (ffz : Nat → Nat) (x : Nat) (hf : IsFfz ffz)
    (h2 : 2 ≤ m) (hm : m < 32) (hx : x < 2 ^ m) :
    ((x ||| 3) = 2 ^ m - 1 ∧ x &&& 3 = 3 ∧ ∀ s, s < m → x.testBit s = true) ∨
    (∃ s, s < m ∧ x.testBit s = false ∧
      (((x ||| 3) ≠ 2 ^ m - 1 ∧ ffz (x ||| 3) = s) ∨
       ((x ||| 3) = 2 ^ m - 1 ∧ x &&& 3 ≠ 3 ∧ ffz x = s))) := by
  have h3l : 3 < 2 ^ m := by
    have : 2 ^ 2 ≤ 2 ^ m := Nat.pow_le_pow_right (by decide) h2
    omega
  have hy : x ||| 3 < 2 ^ m := Nat.or_lt_two_pow hx h3l
  by_cases hne : (x ||| 3) = 2 ^ m - 1
  · by_cases h3 : x &&& 3 = 3
    · refine Or.inl ⟨hne, h3, fun s hs => ?_⟩
      by_cases hs2 : s < 2
      · have hb : (x &&& 3).testBit s = true := by
          rw [h3, testBit_three_eq]; simp [hs2]
        rw [Nat.testBit_and] at hb
        simp only [Bool.and_eq_true] at hb
        exact hb.1
      · have hb := testBit_full m s hs
        rw [← hne, Nat.testBit_or, testBit_three_eq] at hb
        simpa [hs2] using hb
    · have hxne : x ≠ 2 ^ m - 1 := by
        intro hfull
        apply h3
        apply Nat.eq_of_testBit_eq
        intro j
        rw [Nat.testBit_and, hfull, Nat.testBit_two_pow_sub_one, testBit_three_eq]
        by_cases hj : j < 2
        · have : j < m := by omega
          simp [hj, this]
        · simp [hj]
      obtain ⟨s, s1, s2, s3⟩ := exists_first_zero m x hx hxne
      exact Or.inr ⟨s, s1, s2, Or.inr ⟨hne, h3, hf _ s (by omega) s2 s3⟩⟩
  · obtain ⟨s, s1, s2, s3⟩ := exists_first_zero m _ hy hne
    refine Or.inr ⟨s, s1, ?_, Or.inl ⟨hne, hf _ s (by omega) s2 s3⟩⟩
    rw [Nat.testBit_or] at s2
    simp only [Bool.or_eq_false_iff] at s2
    exact s2.1

/-- The two outcomes of `ide_find_port_slot` on a bitmask without bits at or
above `MAX_HWIFS`: either every slot the host may use is taken, the result is
`-ENOENT` and the bitmask is unchanged; or the result is a free slot below
`MAX_HWIFS` that the host may use, and its bit is added to the bitmask. -/
theorem ide_find_port_slot_cases (m : Nat) (ffz : Nat → Nat) (d : Option ide_port_info)
    (x : Nat) (hf : IsFfz ffz) (h2 : 2 ≤ m) (hm : m < 32) (hx : x < 2 ^ m) :
    (ide_find_port_slot m ffz d x = (-ENOENT, x) ∧
      ∀ s, s < m → (skips_slot0 d = true → s ≠ 0) → x.testBit s = true) ∨
    (∃ s, s < m ∧ x.testBit s = false ∧ (skips_slot0 d = true → s ≠ 0) ∧
      ide_find_port_slot m ffz d x = ((s : Int), x ||| 1 <<< s)) := by
  have hsk : skips_slot0 d =
      (!(match d with
          | some d => d.host_flags.non_bootable
          | none => false) &&
        (match d with
          | some d => d.host_flags.qd_2nd_port
          | none => false)) := by
    cases d <;> rfl
  unfold ide_find_port_slot
  dsimp only
  rw [hsk, Nat.one_shiftLeft]
  generalize (match d with
    | some d => d.host_flags.non_bootable
    | none => false) = nb
  generalize (match d with
    | some d => d.host_flags.qd_2nd_port
    | none => false) = q
  cases nb
  · have hi : (if q = true then 1 else 0) = 0 ∨ (if q = true then 1 else 0) = 1 := by
      cases q
      · exact Or.inl rfl
      · exact Or.inr rfl
    have hq : ∀ s : Nat, ((!false && q) = true → s ≠ 0) ↔
        ((if q = true then 1 else 0) = 1 → s ≠ 0) := by
      intro s
      cases q <;> simp
    simp only [hq]
    generalize (if q = true then 1 else 0) = i at hi ⊢
    simp only [Bool.false_eq_true, if_false, ne_eq, Nat.succ_ne_zero, not_false_eq_true, if_true]
    rcases find_slot_bootable m ffz x i hf h2 hm hx hi with ⟨a1, a2⟩ | ⟨s, s1, s2, s3, s4, s5⟩
    · rw [if_neg (not_not.2 a1)]
      exact Or.inl ⟨slot_result_none x, a2⟩
    · rw [if_pos s4, s5]
      exact Or.inr ⟨s, s1, s2, s3, slot_result_some s x⟩
  · simp only [if_true, ne_eq, not_true_eq_false, if_false, Bool.not_true, Bool.false_and,
      Bool.false_eq_true, false_implies, implies_true]
    rcases find_slot_non_bootable m ffz x hf h2 hm hx with
      ⟨a1, a2, a3⟩ | ⟨s, s1, s2, ⟨b1, b2⟩ | ⟨b1, b2, b3⟩⟩
    · rw [if_neg (not_not.2 a1), if_neg (not_not.2 a2)]
      exact Or.inl ⟨slot_result_none x, fun s hs _ => a3 s hs⟩
    · rw [if_pos b1, b2]
      exact Or.inr ⟨s, s1, s2, trivial, slot_result_some s x⟩
    · rw [if_neg (not_not.2 b1), if_pos b2, b3]
      exact Or.inr ⟨s, s1, s2, trivial, slot_result_some s x⟩

/-- C16: on a bitmask without bits at or above `MAX_HWIFS`, with `ffz` giving
the lowest zero bit and `2 ≤ MAX_HWIFS < 32`, `ide_find_port_slot` returns
`-ENOENT` if and only if every slot the host may use is taken, where a
bootable host with `IDE_HFLAG_QD_2ND_PORT` may not use slot 0 and every
other host (a NULL port info and a host that is not bootable included) may
use all `MAX_HWIFS` slots; otherwise it returns the index of a free slot
below `MAX_HWIFS`. -/
theorem ide_find_port_slot_enoent (m : Nat) (ffz : Nat → Nat) (d : Option ide_port_info)
    (x : Nat) (hf : IsFfz ffz) (h2 : 2 ≤ m) (hm : m < 32) (hx : x < 2 ^ m) :
    ((ide_find_port_slot m ffz d x).1 = -ENOENT ↔
      ∀ s, s < m → (skips_slot0 d = true → s ≠ 0) → x.testBit s = true) ∧
    (skips_slot0 d = false →
      ((ide_find_port_slot m ffz d x).1 = -ENOENT ↔ ∀ s, s < m → x.testBit s = true)) ∧
    ((ide_find_port_slot m ffz d x).1 ≠ -ENOENT →
      ∃ s : Nat, (ide_find_port_slot m ffz d x).1 = (s : Int) ∧ s < m ∧ x.testBit s = false ∧
        (skips_slot0 d = true → s ≠ 0)) := by
  have hneg : ∀ s : Nat, ((s : Nat) : Int) ≠ -ENOENT := by
    intro s
    unfold ENOENT
    omega
  have main : ((ide_find_port_slot m ffz d x).1 = -ENOENT ↔
      ∀ s, s < m → (skips_slot0 d = true → s ≠ 0) → x.testBit s = true) ∧
      ((ide_find_port_slot m ffz d x).1 ≠ -ENOENT →
        ∃ s : Nat, (ide_find_port_slot m ffz d x).1 = (s : Int) ∧ s < m ∧ x.testBit s = false ∧
          (skips_slot0 d = true → s ≠ 0)) := by
    rcases ide_find_port_slot_cases m ffz d x hf h2 hm hx with ⟨a1, a2⟩ | ⟨s, s1, s2, s3, s4⟩
    · rw [a1]
      exact ⟨⟨fun _ => a2, fun _ => rfl⟩, fun h => absurd rfl h⟩
    · rw [s4]
      refine ⟨⟨fun h => absurd h (hneg s), fun h => ?_⟩, fun _ => ⟨s, rfl, s1, s2, s3⟩⟩
      have := h s s1 s3
      rw [s2] at this
      cases this
  refine ⟨main.1, fun hsk => ?_, main.2⟩
  rw [main.1, hsk]
  simp

theorem ide_find_port_slot_enoent_witness :
    IsFfz first_zero ∧ 2 ≤ linux_MAX_HWIFS ∧ linux_MAX_HWIFS < 32 ∧
    0x3FB < 2 ^ linux_MAX_HWIFS ∧
    ((ide_find_port_slot linux_MAX_HWIFS first_zero none 0x3FB).1 = -ENOENT ↔
      ∀ s, s < linux_MAX_HWIFS → (skips_slot0 none = true → s ≠ 0) →
        (0x3FB).testBit s = true) :=
  ⟨first_zero_isFfz, by decide, by decide, by decide,
    (ide_find_port_slot_enoent linux_MAX_HWIFS first_zero none 0x3FB first_zero_isFfz
      (by decide) (by decide) (by decide)).1⟩

/-- With `MAX_HWIFS` 10 and the slots 1 to 9 taken, slot 0 is free, and yet a
bootable host with `IDE_HFLAG_QD_2ND_PORT` gets `-ENOENT`. -/
theorem ide_find_port_slot_leaves_slot0 :
    0x3FE < 2 ^ linux_MAX_HWIFS ∧ (0x3FE).testBit 0 = false ∧
    ide_find_port_slot linux_MAX_HWIFS first_zero (some qd_2nd_port_info) 0x3FE =
      (-ENOENT, 0x3FE) := by
  decide!

theorem free_after_find (m s x : Nat) (hm : m < 32) (hx : x < 2 ^ m) (hs : s < m)
    (hb : x.testBit s = false) : ide_free_port_slot s (x ||| 1 <<< s) = x := by
  unfold ide_free_port_slot
  apply Nat.eq_of_testBit_eq
  intro j
  rw [Nat.testBit_and, Nat.testBit_or, Nat.testBit_xor, Nat.one_shiftLeft, Nat.testBit_two_pow,
    Nat.testBit_two_pow_sub_one]
  by_cases hj : s = j
  · subst hj
    have hs32 : s < 32 := by omega
    simp [hb, hs32]
  · by_cases hj32 : j < 32
    · simp [hj, hj32]
    · have : x.testBit j = false :=
        Nat.testBit_eq_false_of_lt (lt_of_lt_of_le hx (Nat.pow_le_pow_right (by decide) (by omega)))
      simp [hj, hj32, this]

/-- Either function keeps `ide_indexes` without bits at or above `MAX_HWIFS`. -/
theorem slot_step_lt (m : Nat) (ffz : Nat → Nat) (hf : IsFfz ffz) (h2 : 2 ≤ m) (hm : m < 32)
    (x : Nat) (hx : x < 2 ^ m) (c : SlotOp) : slot_step m ffz x c < 2 ^ m := by
  cases c with
  | find d =>
    show (ide_find_port_slot m ffz d x).2 < 2 ^ m
    rcases ide_find_port_slot_cases m ffz d x hf h2 hm hx with ⟨a1, -⟩ | ⟨s, s1, -, -, s4⟩
    · rw [a1]; exact hx
    · rw [s4]
      show x ||| 1 <<< s < 2 ^ m
      rw [Nat.one_shiftLeft]
      exact Nat.or_lt_two_pow hx (Nat.pow_lt_pow_right (by decide) s1)
  | free idx =>
    show ide_free_port_slot idx x < 2 ^ m
    unfold ide_free_port_slot
    exact lt_of_le_of_lt Nat.and_le_left hx

theorem slot_foldl_lt (m : Nat) (ffz : Nat → Nat) (hf : IsFfz ffz) (h2 : 2 ≤ m) (hm : m < 32) :
    ∀ (calls : List SlotOp) (x : Nat), x < 2 ^ m →
      calls.foldl (slot_step m ffz) x < 2 ^ m := by
  intro calls
  induction calls with
  | nil => intro x hx; exact hx
  | cons c rest ih =>
    intro x hx
    exact ih _ (slot_step_lt m ffz hf h2 hm x hx c)

/-- Every value that `ide_indexes` takes, starting from 0 and written only by
`ide_find_port_slot` and `ide_free_port_slot`, has no bit at or above
`MAX_HWIFS`. -/
theorem slot_run_lt (m : Nat) (ffz : Nat → Nat) (hf : IsFfz ffz) (h2 : 2 ≤ m) (hm : m < 32)
    (calls : List SlotOp) : slot_run m ffz calls < 2 ^ m :=
  slot_foldl_lt m ffz hf h2 hm calls 0 (Nat.two_pow_pos m)

/-- C20: for every value `x` that `ide_indexes` can hold, that is, every value
reached from the initial 0 by calls of `ide_find_port_slot` and
`ide_free_port_slot`, and more generally every value without bits at or
above `MAX_HWIFS`, and for every port info, with `ffz` giving the lowest
zero bit and `2 ≤ MAX_HWIFS < 32`: `x` has no bit at or above `MAX_HWIFS`;
the result of `ide_find_port_slot` is `-ENOENT` or an index `idx` with
`0 ≤ idx < MAX_HWIFS`; for `-ENOENT` the bitmask is unchanged; for an index,
the bit `idx` was clear before and is set afterwards, no other bit has
changed, and `ide_free_port_slot(idx)` gives back the bitmask from before
the allocation; and the bitmask after either function again has no bit at
or above `MAX_HWIFS`. -/
theorem ide_find_port_slot_allocates (m : Nat) (ffz : Nat → Nat) (d : Option ide_port_info)
    (x : Nat) (hf : IsFfz ffz) (h2 : 2 ≤ m) (hm : m < 32)
    (hstate : (∃ calls, x = slot_run m ffz calls) ∨ x < 2 ^ m) :
    x < 2 ^ m ∧
    ((ide_find_port_slot m ffz d x).1 = -ENOENT ∨ 0 ≤ (ide_find_port_slot m ffz d x).1) ∧
    ((ide_find_port_slot m ffz d x).1 = -ENOENT → (ide_find_port_slot m ffz d x).2 = x) ∧
    (0 ≤ (ide_find_port_slot m ffz d x).1 →
      (ide_find_port_slot m ffz d x).1.toNat < m ∧
      x.testBit (ide_find_port_slot m ffz d x).1.toNat = false ∧
      (ide_find_port_slot m ffz d x).2.testBit (ide_find_port_slot m ffz d x).1.toNat = true ∧
      (∀ j, j ≠ (ide_find_port_slot m ffz d x).1.toNat →
        (ide_find_port_slot m ffz d x).2.testBit j = x.testBit j) ∧
      ide_free_port_slot (ide_find_port_slot m ffz d x).1.toNat
        (ide_find_port_slot m ffz d x).2 = x) ∧
    (ide_find_port_slot m ffz d x).2 < 2 ^ m ∧
    (∀ idx, ide_free_port_slot idx x < 2 ^ m) := by
  have hx : x < 2 ^ m := by
    rcases hstate with ⟨calls, hc⟩ | hlt
    · rw [hc]; exact slot_run_lt m ffz hf h2 hm calls
    · exact hlt
  refine ⟨hx, ?_⟩
  have hfree : ∀ idx, ide_free_port_slot idx x < 2 ^ m := by
    intro idx
    unfold ide_free_port_slot
    exact lt_of_le_of_lt Nat.and_le_left hx
  rcases ide_find_port_slot_cases m ffz d x hf h2 hm hx with ⟨a1, a2⟩ | ⟨s, s1, s2, s3, s4⟩
  · rw [a1]
    refine ⟨Or.inl rfl, fun _ => rfl, fun h => ?_, hx, hfree⟩
    unfold ENOENT at h
    omega
  · rw [s4]
    have hpow : 2 ^ s < 2 ^ m := Nat.pow_lt_pow_right (by decide) s1
    refine ⟨Or.inr (Int.ofNat_nonneg s), fun h => ?_, fun _ => ?_, ?_, hfree⟩
    · unfold ENOENT at h
      omega
    · show (s : Int).toNat < m ∧ x.testBit (s : Int).toNat = false ∧
        (x ||| 1 <<< s).testBit (s : Int).toNat = true ∧
        (∀ j, j ≠ (s : Int).toNat → (x ||| 1 <<< s).testBit j = x.testBit j) ∧
        ide_free_port_slot (s : Int).toNat (x ||| 1 <<< s) = x
      rw [Int.toNat_ofNat]
      refine ⟨s1, s2, ?_, fun j hj => ?_, free_after_find m s x hm hx s1 s2⟩
      · rw [Nat.testBit_or, Nat.one_shiftLeft, Nat.testBit_two_pow]
        simp
      · rw [Nat.testBit_or, Nat.one_shiftLeft, Nat.testBit_two_pow]
        have : ¬ s = j := fun h => hj h.symm
        simp [this]
    · show x ||| 1 <<< s < 2 ^ m
      rw [Nat.one_shiftLeft]
      exact Nat.or_lt_two_pow hx hpow

theorem ide_find_port_slot_allocates_witness :
    IsFfz first_zero ∧ 2 ≤ linux_MAX_HWIFS ∧ linux_MAX_HWIFS < 32 ∧
    ((∃ calls, 5 = slot_run linux_MAX_HWIFS first_zero calls) ∨ 5 < 2 ^ linux_MAX_HWIFS) ∧
    (0 ≤ (ide_find_port_slot linux_MAX_HWIFS first_zero none 5).1 →
      ide_free_port_slot (ide_find_port_slot linux_MAX_HWIFS first_zero none 5).1.toNat
        (ide_find_port_slot linux_MAX_HWIFS first_zero none 5).2 = 5) :=
  ⟨first_zero_isFfz, by decide, by decide,
    Or.inl ⟨[.find none, .find none, .find none, .free 1], by decide!⟩,
    fun h => ((ide_find_port_slot_allocates linux_MAX_HWIFS first_zero none 5
      first_zero_isFfz (by decide) (by decide)
      (Or.inl ⟨[.find none, .find none, .find none, .free 1], by decide!⟩)).2.2.2.1 h).2.2.2.2⟩

/-- Three allocations and one release from the empty pool, with `MAX_HWIFS`
10: the slots 0, 1 and 2 are handed out in turn, slot 1 is released, and
the next allocation hands out slot 1 again. -/
theorem slot_run_example :
    slot_run linux_MAX_HWIFS first_zero [.find none, .find none, .find none, .free 1] = 5 ∧
    ide_find_port_slot linux_MAX_HWIFS first_zero none 5 = (1, 7) := by
  decide!

/-- Allocation and release with `MAX_HWIFS` 10: from the bitmask 0x3FB the
only free slot 2 is handed out, and releasing it gives 0x3FB again. -/
theorem ide_find_port_slot_example :
    ide_find_port_slot linux_MAX_HWIFS first_zero none 0x3FB = (2, 0x3FF) ∧
    ide_free_port_slot 2 0x3FF = 0x3FB ∧
    ide_find_port_slot linux_MAX_HWIFS first_zero none 0x3FF = (-ENOENT, 0x3FF) := by
  decide!

/-! ## The geometry of a disk (C21) -/

/-- The geometry after `ide_disk_init_chs` when the block has a valid current
translation with at most 16 heads. -/
theorem ide_disk_init_chs_current (k : Header) (drive : ide_drive_t) (id : List Nat)
    (hid : drive.id = some id) (hv : k.ata_id_current_chs_valid id = true)
    (h16 : id.getD ATA_ID_CUR_HEADS 0 ≤ 16) :
    ∃ d, ide_disk_init_chs k drive = some d ∧
      d.cyl = id.getD ATA_ID_CUR_CYLS 0 ∧ d.head = id.getD ATA_ID_CUR_HEADS 0 ∧
      d.sect = id.getD ATA_ID_CUR_SECTORS 0 % 256 := by
  have hm : id.getD ATA_ID_CUR_HEADS 0 % 256 = id.getD ATA_ID_CUR_HEADS 0 :=
    Nat.mod_eq_of_lt (by omega)
  simp only [ide_disk_init_chs, hid, hv, if_true]
  refine ⟨_, rfl, ?_⟩
  rw [if_neg (by rw [hm]; omega)]
  exact ⟨rfl, hm, rfl⟩

/-- The head count after `ide_disk_init_chs` when the physical head count of
the block is between 1 and 16. -/
theorem ide_disk_init_chs_head (k : Header) (drive : ide_drive_t) (id : List Nat)
    (hid : drive.id = some id) (h1 : 1 ≤ id.getD ATA_ID_HEADS 0)
    (h16 : id.getD ATA_ID_HEADS 0 ≤ 16) :
    ∃ d, ide_disk_init_chs k drive = some d ∧ d.head ≤ 16 := by
  have hm : id.getD ATA_ID_HEADS 0 % 256 = id.getD ATA_ID_HEADS 0 :=
    Nat.mod_eq_of_lt (by omega)
  simp only [ide_disk_init_chs, hid]
  refine ⟨_, rfl, ?_⟩
  split_ifs <;> simp_all <;> omega

/-- The predicate `ata_id_current_chs_valid` of `include/linux/ata.h`, as
`linux_header` has it, accepts only blocks with at most 16 current heads. -/
theorem linux_header_current_heads (id : List Nat)
    (h : linux_header.ata_id_current_chs_valid id = true) :
    id.getD ATA_ID_CUR_HEADS 0 ≤ 16 := by
  simp only [linux_header, Bool.and_eq_true, decide_eq_true_eq] at h
  exact h.1.2

/-- C21: for every drive with identify block `id`, whatever its geometry was
before, `ide_disk_init_chs` returns; if the physical head count word of the
block is between 1 and 16 the drive then has at most 16 heads; and if the
current translation is valid, where a valid translation has at most 16
heads as `ata_id_current_chs_valid` of the headers requires, then the
cylinders and heads of the drive are the current-geometry words, the
physical geometry is not used, and the sectors are the current sectors word
in the 8 bits of the field `sect`: the word itself when it is below 256. -/
theorem ide_disk_init_chs_geometry (k : Header) (drive : ide_drive_t) (id : List Nat)
    (hid : drive.id = some id)
    (hvalid : k.ata_id_current_chs_valid id = true → id.getD ATA_ID_CUR_HEADS 0 ≤ 16) :
    ∃ d, ide_disk_init_chs k drive = some d ∧
      (1 ≤ id.getD ATA_ID_HEADS 0 ∧ id.getD ATA_ID_HEADS 0 ≤ 16 → d.head ≤ 16) ∧
      (k.ata_id_current_chs_valid id = true →
        d.cyl = id.getD ATA_ID_CUR_CYLS 0 ∧ d.head = id.getD ATA_ID_CUR_HEADS 0 ∧
        d.sect = id.getD ATA_ID_CUR_SECTORS 0 % 256 ∧
        (id.getD ATA_ID_CUR_SECTORS 0 < 256 → d.sect = id.getD ATA_ID_CUR_SECTORS 0)) := by
  obtain ⟨d, hd, -⟩ := ide_disk_init_chs_some k drive (by rw [hid]; simp)
  refine ⟨d, hd, fun h => ?_, fun hv => ?_⟩
  · obtain ⟨d2, hd2, hh⟩ := ide_disk_init_chs_head k drive id hid h.1 h.2
    rw [hd] at hd2
    simp only [Option.some.injEq] at hd2
    rw [hd2]
    exact hh
  · obtain ⟨d2, hd2, c1, c2, c3⟩ := ide_disk_init_chs_current k drive id hid hv (hvalid hv)
    rw [hd] at hd2
    simp only [Option.some.injEq] at hd2
    rw [hd2]
    exact ⟨c1, c2, c3, fun hlt => by rw [c3, Nat.mod_eq_of_lt hlt]⟩

theorem ide_disk_init_chs_geometry_witness :
    (with_id (fresh_drive 0x20 0) (sample_chs_id 1024 16 63 2048 8 63)).id =
      some (sample_chs_id 1024 16 63 2048 8 63) ∧
    ∃ d, ide_disk_init_chs linux_header
        (with_id (fresh_drive 0x20 0) (sample_chs_id 1024 16 63 2048 8 63)) = some d ∧
      (1 ≤ (sample_chs_id 1024 16 63 2048 8 63).getD ATA_ID_HEADS 0 ∧
        (sample_chs_id 1024 16 63 2048 8 63).getD ATA_ID_HEADS 0 ≤ 16 → d.head ≤ 16) ∧
      (linux_header.ata_id_current_chs_valid (sample_chs_id 1024 16 63 2048 8 63) = true →
        d.cyl = (sample_chs_id 1024 16 63 2048 8 63).getD ATA_ID_CUR_CYLS 0 ∧
        d.head = (sample_chs_id 1024 16 63 2048 8 63).getD ATA_ID_CUR_HEADS 0 ∧
        d.sect = (sample_chs_id 1024 16 63 2048 8 63).getD ATA_ID_CUR_SECTORS 0 % 256 ∧
        ((sample_chs_id 1024 16 63 2048 8 63).getD ATA_ID_CUR_SECTORS 0 < 256 →
          d.sect = (sample_chs_id 1024 16 63 2048 8 63).getD ATA_ID_CUR_SECTORS 0)) :=
  ⟨rfl, ide_disk_init_chs_geometry linux_header
    (with_id (fresh_drive 0x20 0) (sample_chs_id 1024 16 63 2048 8 63))
    (sample_chs_id 1024 16 63 2048 8 63) rfl (linux_header_current_heads _)⟩

/-- A block with a valid current translation of 1024 cylinders, 16 heads and
319 sectors per track: the drive gets 63 sectors, the low 8 bits of the
word 319. -/
theorem ide_disk_init_chs_truncates_sectors :
    linux_header.ata_id_current_chs_valid (sample_chs_id 1024 16 63 1024 16 319) = true ∧
    (sample_chs_id 1024 16 63 1024 16 319).getD ATA_ID_HEADS 0 = 16 ∧
    (sample_chs_id 1024 16 63 1024 16 319).getD ATA_ID_CUR_SECTORS 0 = 319 ∧
    (ide_disk_init_chs linux_header
        (with_id (fresh_drive 0x20 0) (sample_chs_id 1024 16 63 1024 16 319))).map
      (fun d => (d.cyl, d.head, d.sect)) = some (1024, 16, 63) := by
  decide!

/-- The geometry of a drive with a forced geometry of 255 heads and a block
without a valid current translation: the physical geometry of the block
replaces it. -/
theorem ide_disk_init_chs_forced_example :
    (ide_disk_init_chs linux_header
        { with_id (fresh_drive 0x20 0) ((sample_chs_id 1024 16 63 0 0 0).set 53 0) with
          cyl := 500, head := 255, sect := 63 }).map
      (fun d => (d.cyl, d.head, d.sect)) = some (1024, 16, 63) := by
  decide!

end IdeProbe
